import Mathlib

/-!
# tcpsnitch: the event-recording and socket-state engine

A shallow embedding of `src/sock_events.c` (with the helpers of `src/lib.c` it
calls) and a verification of its specification.

Conventions of the embedding.

* C `int`/`long` values that are only stored and compared are `Int`; counters
  and lengths are `Nat`; the `unsigned long` byte counters wrap modulo `2^64`
  and the `socklen_t` accumulators wrap modulo `2^32`.
* A buffer in the memory of the traced process is the list of its bytes.
* The singly linked event list `head`/`tail` of a socket is a `List`, read from
  the head; `push_event` appends at the tail.
* The process-wide state (socket table, `connections_count`, the clock reads,
  what was handed to the emitter, what was written to the dump files, the
  capture side-car requests) is the record `World`; every entry point is a
  function `World → World`.
* What the engine asks of the kernel, of the configuration and of the external
  serializer is the record `Env` of oracles.
* Execution is sequential: the per-slot locks are not represented.
-/

namespace Tcpsnitch

/-! ## Constants of the system headers (Linux) -/

def AF_INET : Int := 2
def AF_INET6 : Int := 10
def AF_PACKET : Int := 17
def SOCK_STREAM : Int := 1
def SOCK_CLOEXEC : Int := 524288
def SOCK_NONBLOCK : Int := 2048
def SOL_SOCKET : Int := 1
def SO_TYPE : Int := 3
def SO_PROTOCOL : Int := 38
def SO_DOMAIN : Int := 39
def SHUT_RD : Int := 0
def SHUT_WR : Int := 1
def SHUT_RDWR : Int := 2
def O_CLOEXEC : Int := 524288
def POLLIN : Int := 1
def POLLPRI : Int := 2
def POLLOUT : Int := 4
def POLLERR : Int := 8
def POLLHUP : Int := 16
def POLLNVAL : Int := 32
def POLLRDHUP : Int := 8192
def F_DUPFD : Int := 0
def F_GETFD : Int := 1
def F_SETFD : Int := 2
def F_GETFL : Int := 3
def F_SETFL : Int := 4
def F_GETLK : Int := 5
def F_SETLK : Int := 6
def F_SETLKW : Int := 7
def F_SETOWN : Int := 8
def F_GETOWN : Int := 9
def F_SETSIG : Int := 10
def F_GETSIG : Int := 11
def F_SETOWN_EX : Int := 15
def F_GETOWN_EX : Int := 16
def F_OFD_GETLK : Int := 36
def F_OFD_SETLK : Int := 37
def F_OFD_SETLKW : Int := 38
def F_SETLEASE : Int := 1024
def F_GETLEASE : Int := 1025
def F_NOTIFY : Int := 1026
def F_DUPFD_CLOEXEC : Int := 1030
def F_SETPIPE_SZ : Int := 1031
def F_GETPIPE_SZ : Int := 1032

/-- Size in bytes of `struct sockaddr_storage`. -/
def SOCKADDR_STORAGE_SIZE : Nat := 128

/-- Modulus of `unsigned long` and `size_t` arithmetic. -/
def ULONG_MOD : Nat := 2 ^ 64

/-- Modulus of `socklen_t` and `unsigned int` arithmetic. -/
def UINT_MOD : Nat := 2 ^ 32

/-- Conversion of an `unsigned long` value to `long` (two's complement). -/
def to_long (n : Nat) : Int :=
  if n % ULONG_MOD < 2 ^ 63 then (n % ULONG_MOD : Nat) else (n % ULONG_MOD : Nat) - (2 ^ 64 : Int)

/-- The value that a `long` local holds after `long x = a - b` with `long` operands: the
difference on 64 bits, two's complement. -/
def long_sub (a b : Int) : Int := (a - b + 2 ^ 63) % 2 ^ 64 - 2 ^ 63

/-- The effect of `memcpy(dst, src, n)` on the bytes of `dst`. -/
def memcpy (dst src : List Nat) (n : Nat) : List Nat :=
  src.take n ++ dst.drop n

/-- The `sa_family` member of a socket address: its first two bytes, little endian. -/
def sa_family (bytes : List Nat) : Int :=
  (bytes.getD 0 0 + 256 * bytes.getD 1 0 : Nat)

/-! ## Event model (`sock_events.h`) -/

/-- The tag of an event, in the order of `string_from_sock_event_type`. -/
inductive SockEventType where
  | SOCK_EV_SOCKET
  | SOCK_EV_FORKED_SOCKET
  | SOCK_EV_GHOST_SOCKET
  | SOCK_EV_BIND
  | SOCK_EV_CONNECT
  | SOCK_EV_SHUTDOWN
  | SOCK_EV_LISTEN
  | SOCK_EV_ACCEPT
  | SOCK_EV_ACCEPT4
  | SOCK_EV_GETSOCKOPT
  | SOCK_EV_SETSOCKOPT
  | SOCK_EV_SEND
  | SOCK_EV_RECV
  | SOCK_EV_SENDTO
  | SOCK_EV_RECVFROM
  | SOCK_EV_SENDMSG
  | SOCK_EV_RECVMSG
  | SOCK_EV_SENDMMSG
  | SOCK_EV_RECVMMSG
  | SOCK_EV_GETSOCKNAME
  | SOCK_EV_GETPEERNAME
  | SOCK_EV_SOCKATMARK
  | SOCK_EV_ISFDTYPE
  | SOCK_EV_WRITE
  | SOCK_EV_READ
  | SOCK_EV_CLOSE
  | SOCK_EV_DUP
  | SOCK_EV_DUP2
  | SOCK_EV_DUP3
  | SOCK_EV_WRITEV
  | SOCK_EV_READV
  | SOCK_EV_IOCTL
  | SOCK_EV_SENDFILE
  | SOCK_EV_POLL
  | SOCK_EV_PPOLL
  | SOCK_EV_SELECT
  | SOCK_EV_PSELECT
  | SOCK_EV_FCNTL
  | SOCK_EV_EPOLL_CTL
  | SOCK_EV_EPOLL_WAIT
  | SOCK_EV_EPOLL_PWAIT
  | SOCK_EV_FDOPEN
  | SOCK_EV_TCP_INFO
  deriving DecidableEq, Repr, Inhabited

open SockEventType

/-- Modelled from the spec: the struct `SockInfo` of `sock_events.h` (section 3), with
the members that `fill_sock_info` writes. -/
structure SockInfo where
  domain : Int
  type : Int
  protocol : Int
  sock_cloexec : Bool
  sock_nonblock : Bool
  filled : Bool
  deriving DecidableEq, Repr

/-- A `SockInfo` as `calloc` leaves it. -/
def SockInfo.zero : SockInfo :=
  { domain := 0, type := 0, protocol := 0, sock_cloexec := false, sock_nonblock := false,
    filled := false }

/-- Modelled from the spec: the struct `Addr` of `sock_events.h`, a socket address in a
`struct sockaddr_storage` with its length, as `fill_addr` writes it. -/
structure Addr where
  sockaddr_sto : List Nat
  len : Nat
  deriving DecidableEq, Repr

/-- An `Addr` as `calloc` leaves it. -/
def Addr.zero : Addr :=
  { sockaddr_sto := List.replicate SOCKADDR_STORAGE_SIZE 0, len := 0 }

/-- Modelled from the spec: the recorded timeout of `sock_events.h`, seconds and
nanoseconds (section 4.3). -/
structure Timeout where
  seconds : Int
  nanoseconds : Int
  deriving DecidableEq, Repr

/-- Modelled from the spec: the struct `PollEvents` of `sock_events.h`, the seven flags
that `fill_poll_events` writes. -/
structure PollEvents where
  pollin : Bool
  pollpri : Bool
  pollout : Bool
  pollrdhup : Bool
  pollerr : Bool
  pollhup : Bool
  pollnval : Bool
  deriving DecidableEq, Repr

/-- A `PollEvents` as `calloc` leaves it. -/
def PollEvents.zero : PollEvents :=
  { pollin := false, pollpri := false, pollout := false, pollrdhup := false, pollerr := false,
    pollhup := false, pollnval := false }

/-- Modelled from the spec: the three recorded select sets of `sock_events.h`
(section 4.3). -/
structure SelectEvents where
  read : Bool
  write : Bool
  except : Bool
  deriving DecidableEq, Repr

/-- A `SelectEvents` as `calloc` leaves it. -/
def SelectEvents.zero : SelectEvents := { read := false, write := false, except := false }

/-- Modelled from the spec: the struct `Iovec` of `sock_events.h`, the recorded sizes of
a scatter/gather vector, as `fill_iovec` writes it. -/
structure Iovec where
  iovec_count : Int
  iovec_sizes : List Nat
  deriving DecidableEq, Repr

/-- An `Iovec` as `calloc` leaves it. -/
def Iovec.zero : Iovec := { iovec_count := 0, iovec_sizes := [] }

/-- Modelled from the spec: the struct `Sockopt` of `sock_events.h`, as `fill_sockopt`
writes it. -/
structure Sockopt where
  level : Int
  optname : Int
  optlen : Nat
  optval : List Nat
  deriving DecidableEq, Repr

/-- A `Sockopt` as `calloc` leaves it. -/
def Sockopt.zero : Sockopt := { level := 0, optname := 0, optlen := 0, optval := [] }

/-- Modelled from the spec: the struct `Msghdr` of `sock_events.h`, the recorded parts of
a message header, as `fill_msghdr` writes it. -/
structure Msghdr where
  addr : List Nat
  msg_controllen : Nat
  msg_control : List Nat
  flags : Int
  iovec : Iovec
  deriving DecidableEq, Repr

/-- A `Msghdr` as `calloc` leaves it. -/
def Msghdr.zero : Msghdr :=
  { addr := List.replicate SOCKADDR_STORAGE_SIZE 0, msg_controllen := 0, msg_control := [],
    flags := 0, iovec := Iovec.zero }

/-- Modelled from the spec: the struct `Mmsghdr` of `sock_events.h`, one recorded message
of a `sendmmsg`/`recvmmsg` vector. -/
structure Mmsghdr where
  bytes_transmitted : Nat
  msghdr : Msghdr
  deriving DecidableEq, Repr

/-- The kernel's TCP-info block: the smoothed round-trip time and the other bytes. -/
structure TcpInfo where
  tcpi_rtt : Nat
  other : List Nat
  deriving DecidableEq, Repr

/-- A `struct tcp_info` as `calloc` leaves it. -/
def TcpInfo.zero : TcpInfo := { tcpi_rtt := 0, other := [] }

/-- Modelled from the spec: the event structs of `sock_events.h` (section 4.3), one
constructor per struct, holding the members that follow the common header; the members
are those that the entry points of `sock_events.c` write. -/
inductive Payload where
  | SockEvSocket (sock_info : SockInfo)
  | SockEvForkedSocket (sock_info : SockInfo)
  | SockEvGhostSocket (sock_info : SockInfo)
  | SockEvBind (addr : Addr)
  | SockEvConnect (addr : Addr)
  | SockEvShutdown (shut_rd shut_wr : Bool)
  | SockEvListen (backlog : Int)
  | SockEvAccept (addr : Addr) (sock_info : SockInfo)
  | SockEvAccept4 (addr : Addr) (flags : Int) (sock_info : SockInfo)
  | SockEvGetsockopt (sockopt : Sockopt)
  | SockEvSetsockopt (sockopt : Sockopt)
  | SockEvSend (bytes : Nat) (flags : Int)
  | SockEvRecv (bytes : Nat) (flags : Int)
  | SockEvSendto (bytes : Nat) (flags : Int) (addr : Addr)
  | SockEvRecvfrom (bytes : Nat) (flags : Int) (addr : Addr)
  | SockEvSendmsg (bytes : Nat) (flags : Int) (msghdr : Msghdr)
  | SockEvRecvmsg (bytes : Nat) (flags : Int) (msghdr : Msghdr)
  | SockEvSendmmsg (bytes : Nat) (flags : Int) (mmsghdr_count : Nat) (mmsghdr_vec : List Mmsghdr)
  | SockEvRecvmmsg (bytes : Nat) (flags : Int) (mmsghdr_count : Nat) (mmsghdr_vec : List Mmsghdr)
      (timeout : Timeout)
  | SockEvGetsockname (addr : Addr)
  | SockEvGetpeername (addr : Addr)
  | SockEvSockatmark
  | SockEvIsfdtype (fdtype : Int)
  | SockEvWrite (bytes : Nat)
  | SockEvRead (bytes : Nat)
  | SockEvClose
  | SockEvDup (sock_info : SockInfo)
  | SockEvDup2 (newfd : Int) (sock_info : SockInfo)
  | SockEvDup3 (newfd : Int) (o_cloexec : Bool) (sock_info : SockInfo)
  | SockEvWritev (bytes : Nat) (iovec : Iovec)
  | SockEvReadv (bytes : Nat) (iovec : Iovec)
  | SockEvIoctl (request : Int)
  | SockEvSendfile (bytes : Nat)
  | SockEvPoll (timeout : Timeout) (requested_events returned_events : PollEvents)
  | SockEvPpoll (timeout : Timeout) (requested_events returned_events : PollEvents)
  | SockEvSelect (timeout : Timeout) (requested_events returned_events : SelectEvents)
  | SockEvPselect (timeout : Timeout) (requested_events returned_events : SelectEvents)
  | SockEvFcntl (cmd : Int) (arg : Int) (sock_info : SockInfo)
  | SockEvEpollCtl (op : Int) (requested_events : Nat)
  | SockEvEpollWait (timeout : Int) (returned_events : Nat)
  | SockEvEpollPwait (timeout : Int) (returned_events : Nat)
  | SockEvFdopen (mode : List Nat)
  | SockEvTcpInfo (info : TcpInfo)
  deriving DecidableEq, Repr

/-- Modelled from the spec: an event record of `sock_events.h`, the common header
`SockEvent` (section 3) followed by the members of its struct. -/
structure SockEvent where
  timestamp_usec : Nat
  type : SockEventType
  return_value : Int
  success : Bool
  err : Int
  id : Nat
  thread_id : Int
  payload : Payload
  deriving DecidableEq, Repr

/-- The `CASE_EV` branch of `alloc_event`: a zeroed struct of the event's type and
`success = (return_value != err_val)`. -/
def CASE_EV (zeroed : Payload) (return_value err_val : Int) : Payload × Bool :=
  (zeroed, return_value != err_val)

/-- The `switch` of `alloc_event`: for each tag, the zeroed struct and the success flag. -/
def alloc_event_switch (type : SockEventType) (return_value : Int) : Payload × Bool :=
  let tz : Timeout := { seconds := 0, nanoseconds := 0 }
  match type with
  | SOCK_EV_SOCKET => CASE_EV (.SockEvSocket SockInfo.zero) return_value 0
  | SOCK_EV_FORKED_SOCKET => CASE_EV (.SockEvForkedSocket SockInfo.zero) return_value (-1)
  | SOCK_EV_GHOST_SOCKET => CASE_EV (.SockEvGhostSocket SockInfo.zero) return_value (-1)
  | SOCK_EV_BIND => CASE_EV (.SockEvBind Addr.zero) return_value (-1)
  | SOCK_EV_CONNECT => CASE_EV (.SockEvConnect Addr.zero) return_value (-1)
  | SOCK_EV_SHUTDOWN => CASE_EV (.SockEvShutdown false false) return_value (-1)
  | SOCK_EV_LISTEN => CASE_EV (.SockEvListen 0) return_value (-1)
  | SOCK_EV_ACCEPT => CASE_EV (.SockEvAccept Addr.zero SockInfo.zero) return_value (-1)
  | SOCK_EV_ACCEPT4 => CASE_EV (.SockEvAccept4 Addr.zero 0 SockInfo.zero) return_value (-1)
  | SOCK_EV_GETSOCKOPT => CASE_EV (.SockEvGetsockopt Sockopt.zero) return_value (-1)
  | SOCK_EV_SETSOCKOPT => CASE_EV (.SockEvSetsockopt Sockopt.zero) return_value (-1)
  | SOCK_EV_SEND => CASE_EV (.SockEvSend 0 0) return_value (-1)
  | SOCK_EV_RECV => CASE_EV (.SockEvRecv 0 0) return_value (-1)
  | SOCK_EV_SENDTO => CASE_EV (.SockEvSendto 0 0 Addr.zero) return_value (-1)
  | SOCK_EV_RECVFROM => CASE_EV (.SockEvRecvfrom 0 0 Addr.zero) return_value (-1)
  | SOCK_EV_SENDMSG => CASE_EV (.SockEvSendmsg 0 0 Msghdr.zero) return_value (-1)
  | SOCK_EV_RECVMSG => CASE_EV (.SockEvRecvmsg 0 0 Msghdr.zero) return_value (-1)
  | SOCK_EV_SENDMMSG => CASE_EV (.SockEvSendmmsg 0 0 0 []) return_value (-1)
  | SOCK_EV_RECVMMSG => CASE_EV (.SockEvRecvmmsg 0 0 0 [] tz) return_value (-1)
  | SOCK_EV_GETSOCKNAME => CASE_EV (.SockEvGetsockname Addr.zero) return_value (-1)
  | SOCK_EV_GETPEERNAME => CASE_EV (.SockEvGetpeername Addr.zero) return_value (-1)
  | SOCK_EV_SOCKATMARK => CASE_EV .SockEvSockatmark return_value (-1)
  | SOCK_EV_ISFDTYPE => CASE_EV (.SockEvIsfdtype 0) return_value (-1)
  | SOCK_EV_WRITE => CASE_EV (.SockEvWrite 0) return_value (-1)
  | SOCK_EV_READ => CASE_EV (.SockEvRead 0) return_value (-1)
  | SOCK_EV_CLOSE => CASE_EV .SockEvClose return_value (-1)
  | SOCK_EV_DUP => CASE_EV (.SockEvDup SockInfo.zero) return_value (-1)
  | SOCK_EV_DUP2 => CASE_EV (.SockEvDup2 0 SockInfo.zero) return_value (-1)
  | SOCK_EV_DUP3 => CASE_EV (.SockEvDup3 0 false SockInfo.zero) return_value (-1)
  | SOCK_EV_WRITEV => CASE_EV (.SockEvWritev 0 Iovec.zero) return_value (-1)
  | SOCK_EV_READV => CASE_EV (.SockEvReadv 0 Iovec.zero) return_value (-1)
  | SOCK_EV_IOCTL => CASE_EV (.SockEvIoctl 0) return_value (-1)
  | SOCK_EV_SENDFILE => CASE_EV (.SockEvSendfile 0) return_value (-1)
  | SOCK_EV_POLL => CASE_EV (.SockEvPoll tz PollEvents.zero PollEvents.zero) return_value (-1)
  | SOCK_EV_PPOLL => CASE_EV (.SockEvPpoll tz PollEvents.zero PollEvents.zero) return_value (-1)
  | SOCK_EV_SELECT =>
      CASE_EV (.SockEvSelect tz SelectEvents.zero SelectEvents.zero) return_value (-1)
  | SOCK_EV_PSELECT =>
      CASE_EV (.SockEvPselect tz SelectEvents.zero SelectEvents.zero) return_value (-1)
  | SOCK_EV_FCNTL => CASE_EV (.SockEvFcntl 0 0 SockInfo.zero) return_value (-1)
  | SOCK_EV_EPOLL_CTL => CASE_EV (.SockEvEpollCtl 0 0) return_value (-1)
  | SOCK_EV_EPOLL_WAIT => CASE_EV (.SockEvEpollWait 0 0) return_value (-1)
  | SOCK_EV_EPOLL_PWAIT => CASE_EV (.SockEvEpollPwait 0 0) return_value (-1)
  | SOCK_EV_FDOPEN => CASE_EV (.SockEvFdopen []) return_value 0
  | SOCK_EV_TCP_INFO => CASE_EV (.SockEvTcpInfo TcpInfo.zero) return_value (-1)

/-! ## Socket entries and the socket table -/

/-- Modelled from the spec: the struct `Socket` of `sock_events.h` (section 3, "Socket
entry"). The list `events` stands for the linked list between `head` and `tail`;
`capture_switch` is `none` for a NULL handle. -/
structure Socket where
  id : Nat
  fd : Int
  events : List SockEvent
  events_count : Nat
  bytes_sent : Nat
  bytes_received : Nat
  last_info_dump_micros : Int
  last_info_dump_bytes : Int
  capture_switch : Option Nat
  rtt : Int
  bound : Bool
  bound_addr : List Nat
  sock_info : SockInfo
  deriving DecidableEq, Repr

/-- A `Socket` as `my_calloc(sizeof(Socket))` leaves it. -/
def Socket.zero : Socket :=
  { id := 0, fd := 0, events := [], events_count := 0, bytes_sent := 0, bytes_received := 0,
    last_info_dump_micros := 0, last_info_dump_bytes := 0, capture_switch := none, rtt := 0,
    bound := false, bound_addr := List.replicate SOCKADDR_STORAGE_SIZE 0,
    sock_info := SockInfo.zero }

/-- Modelled from the spec: the fd-indexed socket table `ResizableArray` of
`resizable_array.c` (section 4.1), as the list of its slots; an empty slot is `none` and
the capacity is the number of slots. -/
structure ResizableArray where
  slots : List (Option Socket)
  deriving DecidableEq, Repr

/-- Modelled from the spec: `size()`, the current capacity (not the population). -/
def ra_get_size (a : ResizableArray) : Nat := a.slots.length

/-- Modelled from the spec: `get_and_lock(fd)`, the entry of the slot or "absent". -/
def ra_get_and_lock_elem (a : ResizableArray) (index : Nat) : Option Socket :=
  (a.slots.get? index).join

/-- Modelled from the spec: `is_present(fd)`, the occupancy check. -/
def ra_is_present (a : ResizableArray) (index : Nat) : Bool :=
  (ra_get_and_lock_elem a index).isSome

/-- Modelled from the spec: `put(fd, entry)` installs the entry at the index, growing
the capacity if needed; whatever the slot held is overwritten. The table is keyed by
nonnegative descriptors: a negative index installs nothing. -/
def ra_put_elem (a : ResizableArray) (index : Int) (elem : Socket) : ResizableArray :=
  if index < 0 then a
  else
    let i := index.toNat
    { slots := (a.slots ++ List.replicate (i + 1 - a.slots.length) none).set i (some elem) }

/-- Modelled from the spec: `remove(fd)` empties the slot and returns what it held. -/
def ra_remove_elem (a : ResizableArray) (index : Nat) : Option Socket × ResizableArray :=
  (ra_get_and_lock_elem a index, { slots := a.slots.set index none })

/-- A write through the pointer returned by `ra_get_and_lock_elem`: the entry of an
occupied slot is updated in place. -/
def ra_store (a : ResizableArray) (index : Nat) (sock : Socket) : ResizableArray :=
  { slots := a.slots.set index (some sock) }

/-! ## The environment and the process-wide state -/

/-- What the engine obtains from outside: the configuration read by `init.h`, the
kernel, the external serializer and the file system. -/
structure Env where
  /-- Whether `OPT_D` (the output directory) is not NULL. -/
  OPT_D : Bool
  conf_opt_u : Int
  conf_opt_b : Int
  conf_opt_c : Bool
  /-- The result of the n-th `gettimeofday`: `none` on failure, else seconds and microseconds. -/
  gettimeofday : Nat → Option (Nat × Nat)
  /-- The result of `syscall(SYS_gettid)` at the n-th clock read. -/
  gettid : Nat → Int
  /-- The test `orig_fcntl(fd, F_GETFD) != -1 || errno != EBADF`. -/
  fcntl_getfd : Int → Bool
  /-- The call `fstat(fd)`: `none` on failure, else `S_ISSOCK(st_mode)`. -/
  fstat : Int → Option Bool
  /-- An integer option read with `getsockopt(fd, level, optname)`: `none` on failure. -/
  getsockopt : Int → Int → Int → Option Int
  /-- The call `getsockopt(fd, SOL_TCP, TCP_INFO)`: `none` on failure. -/
  getsockopt_tcp_info : Int → Option TcpInfo
  /-- The content of a freshly allocated, unwritten `struct tcp_info`. -/
  uninit_tcp_info : TcpInfo
  /-- The value of `errno` after a kernel query. -/
  errno : Int
  /-- The value that the local `int type` of `fill_sock_info_from_fd`, which the source
  does not initialise, holds for the descriptor when the `SO_TYPE` query fails. -/
  uninit_type : Int → Int
  /-- The call `orig_bind(fd, addr, len)` of `force_bind`: the return value and the value
  of `errno` after it. -/
  orig_bind : Int → List Nat → Nat → Int × Int
  /-- The bytes that the local `struct sockaddr_in a` (16 bytes) or `struct sockaddr_in6 a`
  (28 bytes) of `force_bind` holds before it is written, in the iteration for the port. -/
  uninit_sockaddr : Nat → Nat → List Nat
  /-- Modelled from the spec: the characters of the path that `alloc_pcap_path_str(sock)`
  builds for the connection id; `none` for NULL. -/
  alloc_pcap_path_str : Nat → Option (List Nat)
  /-- Modelled from the spec: the characters of the filter that
  `alloc_capture_filter(addr_from, addr_to)` builds from the bytes of the local address
  (`none` for a NULL `addr_from`) and of the peer address; `none` for NULL. -/
  alloc_capture_filter : Option (List Nat) → List Nat → Option (List Nat)
  /-- Modelled from the spec: the handle that `start_capture(filter, path)` of the capture
  side-car returns; `none` for NULL. -/
  start_capture : List Nat → List Nat → Option Nat
  /-- Whether `alloc_json_path_str` returns a path for the connection id. -/
  alloc_json_path_str : Nat → Bool
  /-- Whether `fopen(path, "a")` succeeds for the connection id. -/
  fopen : Nat → Bool
  /-- Whether `alloc_sock_ev_json` returns a string for the event. -/
  alloc_sock_ev_json : SockEvent → Bool
  /-- The events that a traversal from `head` finds when `head` points at a freed node,
  given the events whose nodes were freed and the events that followed them in the
  list: the program does not determine them. -/
  freed_head : List SockEvent → List SockEvent → List SockEvent

/-- The process-wide state of the tracer. -/
structure World where
  /-- The socket table of `resizable_array.c`. -/
  table : ResizableArray
  connections_count : Nat
  /-- Number of clock reads made so far. -/
  ticks : Nat
  /-- The events handed to `output_event`, oldest first. -/
  emitted : List SockEvent
  /-- The lines written to the per-connection dump files, oldest first: the connection
  id that names the file, and the serialized event. -/
  dumped : List (Nat × SockEvent)
  /-- The calls `stop_capture(handle, grace)`, oldest first. -/
  stopped : List (Nat × Int)
  deriving DecidableEq, Repr

/-- The state at start-up: an empty table and `connections_count = 0`. -/
def World.init : World :=
  { table := { slots := [] }, connections_count := 0, ticks := 0, emitted := [], dumped := [],
    stopped := [] }

/-! ## Helpers of `lib.c` -/

/-- The function `get_time_micros`: `tv_sec * 1000000 + tv_usec`, or 0 when
`gettimeofday` fails. -/
def get_time_micros (env : Env) (w : World) : Nat × World :=
  let w1 := { w with ticks := w.ticks + 1 }
  match env.gettimeofday w.ticks with
  | none => (0, w1)
  | some (tv_sec, tv_usec) => ((tv_sec * 1000000 + tv_usec) % ULONG_MOD, w1)

/-- The function `my_getsockopt` for an integer option. -/
def my_getsockopt (env : Env) (sockfd level optname : Int) : Option Int :=
  env.getsockopt sockfd level optname

/-- The function `is_fd`. -/
def is_fd (env : Env) (fd : Int) : Bool := env.fcntl_getfd fd

/-- The function `is_socket`. -/
def is_socket (env : Env) (fd : Int) : Bool :=
  if !is_fd env fd then false
  else
    match env.fstat fd with
    | none => false
    | some issock => issock

/-- The function `is_inet_socket`. -/
def is_inet_socket (env : Env) (fd : Int) : Bool :=
  if !is_socket env fd then false
  else
    match my_getsockopt env fd SOL_SOCKET SO_DOMAIN with
    | none => false
    | some optval =>
        optval == AF_INET || optval == AF_INET6 ||
          (if env.conf_opt_c then false else optval == AF_PACKET)

/-- The function `is_tcp_socket`. -/
def is_tcp_socket (env : Env) (fd : Int) : Bool :=
  if !is_inet_socket env fd then false
  else
    match my_getsockopt env fd SOL_SOCKET SO_TYPE with
    | none => false
    | some optval => optval == SOCK_STREAM

/-- The function `fill_tcp_info`: the return value and the content of `info` afterwards. -/
def fill_tcp_info (env : Env) (fd : Int) : Int × TcpInfo :=
  match env.getsockopt_tcp_info fd with
  | some info => (0, info)
  | none => (-1, env.uninit_tcp_info)

/-! ## Private functions of `sock_events.c` -/

/-- The function `alloc_socket`: a zeroed entry with the next connection id. -/
def alloc_socket (fd : Int) (w : World) : Socket × World :=
  ({ Socket.zero with id := w.connections_count, fd := fd },
   { w with connections_count := w.connections_count + 1 })

/-- The function `alloc_event`: the zeroed struct of the tag with its header stamped.
The clock is read once. -/
def alloc_event (env : Env) (w : World) (type : SockEventType) (return_value err : Int)
    (id : Nat) : SockEvent × World :=
  let c := alloc_event_switch type return_value
  let t := get_time_micros env w
  ({ timestamp_usec := t.1, type := type, return_value := return_value, success := c.2,
     err := err, id := id, thread_id := env.gettid w.ticks, payload := c.1 }, t.2)

/-- The function `push_event`: append at the tail and count. -/
def push_event (sock : Socket) (ev : SockEvent) : Socket :=
  { sock with events := sock.events ++ [ev], events_count := sock.events_count + 1 }

def SOCK_TYPE_MASK : Int := 15

/-- The function `fill_sock_info`. -/
def fill_sock_info (si : SockInfo) (domain type protocol : Int) : SockInfo :=
  { si with
    domain := domain
    type := Int.land type SOCK_TYPE_MASK
    protocol := protocol
    sock_cloexec := Int.land type SOCK_CLOEXEC != 0
    sock_nonblock := Int.land type SOCK_NONBLOCK != 0
    filled := true }

/-- The function `fill_sock_info_from_fd`. A failed query leaves its destination as it
was; the local `type`, which the source does not initialise, then holds the value
`env.uninit_type fd`. -/
def fill_sock_info_from_fd (env : Env) (si : SockInfo) (fd : Int) : SockInfo :=
  let domain := (my_getsockopt env fd SOL_SOCKET SO_DOMAIN).getD si.domain
  let protocol := (my_getsockopt env fd SOL_SOCKET SO_PROTOCOL).getD si.protocol
  let type := (my_getsockopt env fd SOL_SOCKET SO_TYPE).getD (env.uninit_type fd)
  { si with
    domain := domain
    protocol := protocol
    type := Int.land type SOCK_TYPE_MASK
    sock_cloexec := Int.land type SOCK_CLOEXEC != 0
    sock_nonblock := Int.land type SOCK_NONBLOCK != 0
    filled := true }

/-- The function `fill_addr`. -/
def fill_addr (a : Addr) (addr : List Nat) (len : Nat) : Addr :=
  { sockaddr_sto := memcpy a.sockaddr_sto addr len, len := len }

/-- The function `fill_poll_events`. -/
def fill_poll_events (events : Int) : PollEvents :=
  { pollin := Int.land events POLLIN != 0
    pollpri := Int.land events POLLPRI != 0
    pollout := Int.land events POLLOUT != 0
    pollrdhup := Int.land events POLLRDHUP != 0
    pollerr := Int.land events POLLERR != 0
    pollhup := Int.land events POLLHUP != 0
    pollnval := Int.land events POLLNVAL != 0 }

/-- The loop of `fill_iovec` over the first `n` lengths: the `socklen_t` accumulator. -/
def fill_iovec_bytes (iov2 : List Nat) (n : Nat) : Nat :=
  ((iov2.take n).foldl (fun bytes iov_len => (bytes + iov_len) % UINT_MOD) 0)

/-- The function `fill_iovec`: the recorded vector and the returned byte count. -/
def fill_iovec (iov1 : Iovec) (iov2 : List Nat) (iovec_count : Int) : Iovec × Nat :=
  if iovec_count ≤ 0 then ({ iov1 with iovec_count := iovec_count }, 0)
  else
    ({ iovec_count := iovec_count, iovec_sizes := iov2.take iovec_count.toNat },
     fill_iovec_bytes iov2 iovec_count.toNat)

/-- A `struct msghdr` of the traced process. -/
structure CMsghdr where
  msg_name : Option (List Nat)
  msg_namelen : Nat
  msg_iov : List Nat
  msg_iovlen : Nat
  msg_control : List Nat
  msg_controllen : Nat
  msg_flags : Int
  deriving DecidableEq, Repr

/-- A `struct mmsghdr` of the traced process. -/
structure CMmsghdr where
  msg_hdr : CMsghdr
  msg_len : Nat
  deriving DecidableEq, Repr

/-- The function `fill_msghdr`: the recorded header and the returned byte count. -/
def fill_msghdr (m1 : Msghdr) (m2 : CMsghdr) : Msghdr × Nat :=
  let addr :=
    match m2.msg_name with
    | some name => memcpy m1.addr name m2.msg_namelen
    | none => m1.addr
  let iov := fill_iovec m1.iovec m2.msg_iov (m2.msg_iovlen : Int)
  ({ addr := addr, msg_controllen := m2.msg_controllen,
     msg_control := m2.msg_control.take m2.msg_controllen, flags := m2.msg_flags,
     iovec := iov.1 }, iov.2)

/-- The function `fill_mmsghdr_vec` over the first `vlen` messages: the recorded vector
and the `unsigned int` byte total. The vector comes from `my_malloc`; the members that
`fill_msghdr` does not write are taken to be zero. -/
def fill_mmsghdr_vec (mmsghdr_vec2 : List CMmsghdr) (vlen : Nat) : List Mmsghdr × Nat :=
  (mmsghdr_vec2.take vlen).foldl
    (fun acc mmsghdr2 =>
      let m := fill_msghdr Msghdr.zero mmsghdr2.msg_hdr
      (acc.1 ++ [{ bytes_transmitted := mmsghdr2.msg_len, msghdr := m.1 }],
       (acc.2 + m.2) % UINT_MOD))
    ([], 0)

/-- The function `fill_sockopt`. -/
def fill_sockopt (level optname : Int) (optval : List Nat) (optlen : Nat) : Sockopt :=
  { level := level, optname := optname, optlen := optlen, optval := optval.take optlen }

/-- The loop of `dump_events_as_json`: one line per event, until an event cannot be
serialized. Returns whether the end of the list was reached. -/
def dump_events_loop (env : Env) (id : Nat) : List SockEvent → World → Bool × World
  | [], w => (true, w)
  | ev :: rest, w =>
      if env.alloc_sock_ev_json ev then
        dump_events_loop env id rest { w with dumped := w.dumped ++ [(id, ev)] }
      else (false, w)

/-- The number of events at the front of the list that can be serialized: the events
that the loop of `dump_events_as_json` writes and frees, with their nodes, before it
stops. -/
def dump_events_written (env : Env) : List SockEvent → Nat
  | [] => 0
  | ev :: rest => if env.alloc_sock_ev_json ev then dump_events_written env rest + 1 else 0

/-- The function `dump_events_as_json`. On the exits taken before the loop nothing is
freed and the entry keeps its list. When the loop stops at an event that cannot be
serialized, `head` and `tail` are not updated either: if no event was written the list
is intact; otherwise the written events and their nodes have been freed and `head`
still points at the first of these nodes, so that the list found from `head` afterwards
is `env.freed_head` of the freed events and the events not reached. -/
def dump_events_as_json (env : Env) (sock : Socket) (w : World) : Socket × World :=
  if !env.OPT_D then (sock, w)
  else if !env.alloc_json_path_str sock.id then (sock, w)
  else if !env.fopen sock.id then (sock, w)
  else
    let r := dump_events_loop env sock.id sock.events w
    if r.1 then ({ sock with events := [] }, r.2)
    else
      let written := dump_events_written env sock.events
      if written = 0 then (sock, r.2)
      else
        ({ sock with
           events := env.freed_head (sock.events.take written) (sock.events.drop written) },
         r.2)

/-- The function `should_dump_tcp_info`, with the clock read it makes when
`conf_opt_u > 0`. The clock value, the byte total and the two differences are stored in
`long` locals. -/
def should_dump_tcp_info (env : Env) (w : World) (sock : Socket) : Bool × World :=
  if !is_tcp_socket env sock.fd then (false, w)
  else
    let timed : Bool × World :=
      if env.conf_opt_u > 0 then
        let t := get_time_micros env w
        let cur_time := to_long t.1
        let time_elasped := long_sub cur_time sock.last_info_dump_micros
        (decide (time_elasped > env.conf_opt_u), t.2)
      else (false, w)
    if timed.1 then (true, timed.2)
    else if env.conf_opt_b > 0 then
      let cur_bytes := to_long (sock.bytes_sent + sock.bytes_received)
      let bytes_elapsed := long_sub cur_bytes sock.last_info_dump_bytes
      (decide (bytes_elapsed > env.conf_opt_b), timed.2)
    else (false, timed.2)

/-! ## Public functions of `sock_events.c` -/

/-- The function `free_and_dump_socket`: remove the entry, stop a live capture with a
grace of `2 * rtt`, dump the events, free the entry. The callers check that the slot is
occupied; for an empty slot (a NULL dereference in the source) nothing is done. -/
def free_and_dump_socket (env : Env) (fd : Nat) (w : World) : World :=
  let r := ra_remove_elem w.table fd
  match r.1 with
  | none => w
  | some sock =>
      let w1 := { w with table := r.2 }
      let w2 :=
        match sock.capture_switch with
        | some capture_switch => { w1 with stopped := w1.stopped ++ [(capture_switch, sock.rtt * 2)] }
        | none => w1
      (dump_events_as_json env sock w2).2

/-- The member `sock_info` of an event struct that has one, after
`memcpy(&ev->sock_info, si, sizeof(SockInfo))`. -/
def Payload.set_sock_info (p : Payload) (si : SockInfo) : Payload :=
  match p with
  | .SockEvSocket _ => .SockEvSocket si
  | .SockEvForkedSocket _ => .SockEvForkedSocket si
  | .SockEvGhostSocket _ => .SockEvGhostSocket si
  | .SockEvAccept addr _ => .SockEvAccept addr si
  | .SockEvAccept4 addr flags _ => .SockEvAccept4 addr flags si
  | .SockEvDup _ => .SockEvDup si
  | .SockEvDup2 newfd _ => .SockEvDup2 newfd si
  | .SockEvDup3 newfd o_cloexec _ => .SockEvDup3 newfd o_cloexec si
  | .SockEvFcntl cmd arg _ => .SockEvFcntl cmd arg si
  | other => other

/-- The local variables `sock` and `ev` of an entry point, with the state. -/
structure Locals where
  w : World
  sock : Socket
  ev : SockEvent

/-- The copy `memcpy(new_ev, ev, sizeof(ev_type))`: the whole struct, header included,
is overwritten by the source event. -/
def memcpy_event (_new_ev ev : SockEvent) : SockEvent := ev

/-- The block `DUP_SOCKET`: a new entry at `ret` with the source's `sock_info` and one
event copied from `ev`; the entry is installed with `ra_put_elem` and `sock` is fetched
again from the slot `fd`. -/
def DUP_SOCKET (env : Env) (ev_type_cons : SockEventType) (fd : Nat) (ret err : Int)
    (l : Locals) : Locals :=
  let a := alloc_socket ret l.w
  let new_sock := { a.1 with sock_info := l.sock.sock_info }
  let e := alloc_event env a.2 ev_type_cons ret err 0
  let copied := memcpy_event e.1 l.ev
  let new_ev := { copied with payload := copied.payload.set_sock_info l.sock.sock_info }
  let new_sock := push_event new_sock new_ev
  let table := ra_put_elem (ra_store e.2.table fd l.sock) ret new_sock
  { w := { e.2 with table := table }
    sock := (ra_get_and_lock_elem table fd).getD Socket.zero
    ev := l.ev }

/-- The function `sock_ev_ghost_socket`. -/
def sock_ev_ghost_socket (env : Env) (fd : Nat) (w : World) : World :=
  let a := alloc_socket fd w
  let e := alloc_event env a.2 SOCK_EV_GHOST_SOCKET 0 0 0
  let si := fill_sock_info_from_fd env SockInfo.zero fd
  let ev := { e.1 with payload := .SockEvGhostSocket si }
  let ghost_sock := { a.1 with sock_info := si }
  let ghost_sock := push_event ghost_sock ev
  { e.2 with table := ra_put_elem e.2.table fd ghost_sock }

/-- The block `SOCK_EV_PRELUDE`: a ghost entry if the fd is absent, then the entry and
a fresh event whose id is the entry's `events_count`. -/
def SOCK_EV_PRELUDE (env : Env) (ev_type_cons : SockEventType) (fd : Nat) (ret err : Int)
    (w : World) : Locals :=
  let w1 := if !ra_is_present w.table fd then sock_ev_ghost_socket env fd w else w
  let sock := (ra_get_and_lock_elem w1.table fd).getD Socket.zero
  let e := alloc_event env w1 ev_type_cons ret err sock.events_count
  { w := e.2, sock := sock, ev := e.1 }

/-- The part of `SOCK_EV_POSTLUDE` before the slot is unlocked: push, emit, and the
sampling decision `should_dump_tcp_info(sock) && ev_type_cons != SOCK_EV_TCP_INFO`. -/
def SOCK_EV_POSTLUDE_locked (env : Env) (ev_type_cons : SockEventType) (fd : Nat)
    (l : Locals) : Bool × World :=
  let sock := push_event l.sock l.ev
  let w1 := { l.w with table := ra_store l.w.table fd sock, emitted := l.w.emitted ++ [l.ev] }
  let d := should_dump_tcp_info env w1 sock
  (d.1 && ev_type_cons != SOCK_EV_TCP_INFO, d.2)

/-- The functions `sock_ev_tcp_info` and `tcp_dump_tcp_info` call each other through
`SOCK_EV_POSTLUDE`; `fuel` bounds the depth of that nesting. -/
def sock_ev_tcp_info_fuel (env : Env) : Nat → Nat → Int → Int → TcpInfo → World → World
  | 0, _, _, _, _, w => w
  | fuel + 1, fd, ret, err, info, w =>
      let p := SOCK_EV_PRELUDE env SOCK_EV_TCP_INFO fd ret err w
      let ev := { p.ev with payload := .SockEvTcpInfo info }
      let t := get_time_micros env p.w
      let sock :=
        { p.sock with
          last_info_dump_bytes := to_long (p.sock.bytes_sent + p.sock.bytes_received)
          last_info_dump_micros := to_long t.1
          rtt := info.tcpi_rtt }
      let d := SOCK_EV_POSTLUDE_locked env SOCK_EV_TCP_INFO fd { w := t.2, sock := sock, ev := ev }
      if d.1 then
        let q := fill_tcp_info env fd
        sock_ev_tcp_info_fuel env fuel fd q.1 env.errno q.2 d.2
      else d.2

/-- The function `sock_ev_tcp_info`. -/
def sock_ev_tcp_info (env : Env) (fd : Nat) (ret err : Int) (info : TcpInfo) (w : World) :
    World :=
  sock_ev_tcp_info_fuel env 1 fd ret err info w

/-- The function `tcp_dump_tcp_info`. -/
def tcp_dump_tcp_info (env : Env) (fd : Nat) (w : World) : World :=
  let q := fill_tcp_info env fd
  sock_ev_tcp_info env fd q.1 env.errno q.2 w

/-- The block `SOCK_EV_POSTLUDE`. -/
def SOCK_EV_POSTLUDE (env : Env) (ev_type_cons : SockEventType) (fd : Nat) (l : Locals) :
    World :=
  let d := SOCK_EV_POSTLUDE_locked env ev_type_cons fd l
  if d.1 then tcp_dump_tcp_info env fd d.2 else d.2

/-- The function `sock_ev_socket`. -/
def sock_ev_socket (env : Env) (fd : Nat) (domain type protocol : Int) (w : World) : World :=
  let w1 := if ra_is_present w.table fd then free_and_dump_socket env fd w else w
  let a := alloc_socket fd w1
  let e := alloc_event env a.2 SOCK_EV_SOCKET fd 0 0
  let ev := { e.1 with payload := .SockEvSocket (fill_sock_info SockInfo.zero domain type protocol) }
  let sock := { a.1 with sock_info := fill_sock_info a.1.sock_info domain type protocol }
  let sock := push_event sock ev
  { e.2 with table := ra_put_elem e.2.table fd sock }

/-- The function `sock_ev_forked_socket`. -/
def sock_ev_forked_socket (env : Env) (fd : Nat) (sock_info : SockInfo) (w : World) : World :=
  let a := alloc_socket fd w
  let e := alloc_event env a.2 SOCK_EV_FORKED_SOCKET 0 0 0
  let forked_sock := { a.1 with sock_info := sock_info }
  let ev := { e.1 with payload := .SockEvForkedSocket sock_info }
  let forked_sock := push_event forked_sock ev
  { e.2 with table := ra_put_elem e.2.table fd forked_sock }

/-- The function `sock_ev_bind`. The bound address is saved when `!ret`. -/
def sock_ev_bind (env : Env) (fd : Nat) (ret err : Int) (addr : List Nat) (len : Nat)
    (w : World) : World :=
  let p := SOCK_EV_PRELUDE env SOCK_EV_BIND fd ret err w
  let a := fill_addr Addr.zero addr len
  let ev := { p.ev with payload := .SockEvBind a }
  let sock :=
    if ret == 0 then
      { p.sock with bound := true, bound_addr := memcpy p.sock.bound_addr a.sockaddr_sto a.len }
    else p.sock
  SOCK_EV_POSTLUDE env SOCK_EV_BIND fd { w := p.w, sock := sock, ev := ev }

/-- The function `sock_ev_connect`. -/
def sock_ev_connect (env : Env) (fd : Nat) (ret err : Int) (addr : List Nat) (len : Nat)
    (w : World) : World :=
  let p := SOCK_EV_PRELUDE env SOCK_EV_CONNECT fd ret err w
  let ev := { p.ev with payload := .SockEvConnect (fill_addr Addr.zero addr len) }
  SOCK_EV_POSTLUDE env SOCK_EV_CONNECT fd { p with ev := ev }

/-- The function `sock_ev_shutdown`. -/
def sock_ev_shutdown (env : Env) (fd : Nat) (ret err : Int) (how : Int) (w : World) : World :=
  let p := SOCK_EV_PRELUDE env SOCK_EV_SHUTDOWN fd ret err w
  let ev :=
    { p.ev with
      payload := .SockEvShutdown (how == SHUT_RD || how == SHUT_RDWR)
        (how == SHUT_WR || how == SHUT_RDWR) }
  SOCK_EV_POSTLUDE env SOCK_EV_SHUTDOWN fd { p with ev := ev }

/-- The function `sock_ev_listen`. -/
def sock_ev_listen (env : Env) (fd : Nat) (ret err : Int) (backlog : Int) (w : World) : World :=
  let p := SOCK_EV_PRELUDE env SOCK_EV_LISTEN fd ret err w
  let ev := { p.ev with payload := .SockEvListen backlog }
  SOCK_EV_POSTLUDE env SOCK_EV_LISTEN fd { p with ev := ev }

/-- The address recorded by the accept family: filled when `ret != -1 && addr`. -/
def accept_addr (ret : Int) (addr : Option (List Nat)) (addr_len : Nat) : Addr :=
  match addr with
  | some bytes => if ret != -1 then fill_addr Addr.zero bytes addr_len else Addr.zero
  | none => Addr.zero

/-- The function `sock_ev_accept`. -/
def sock_ev_accept (env : Env) (fd : Nat) (ret err : Int) (addr : Option (List Nat))
    (addr_len : Nat) (w : World) : World :=
  let p := SOCK_EV_PRELUDE env SOCK_EV_ACCEPT fd ret err w
  let ev := { p.ev with payload := .SockEvAccept (accept_addr ret addr addr_len) SockInfo.zero }
  let l : Locals := { p with ev := ev }
  let l := if ret != -1 then DUP_SOCKET env SOCK_EV_ACCEPT fd ret err l else l
  SOCK_EV_POSTLUDE env SOCK_EV_ACCEPT fd l

/-- The function `sock_ev_accept4`. -/
def sock_ev_accept4 (env : Env) (fd : Nat) (ret err : Int) (addr : Option (List Nat))
    (addr_len : Nat) (flags : Int) (w : World) : World :=
  let p := SOCK_EV_PRELUDE env SOCK_EV_ACCEPT4 fd ret err w
  let ev :=
    { p.ev with payload := .SockEvAccept4 (accept_addr ret addr addr_len) flags SockInfo.zero }
  let l : Locals := { p with ev := ev }
  let l := if ret != -1 then DUP_SOCKET env SOCK_EV_ACCEPT4 fd ret err l else l
  SOCK_EV_POSTLUDE env SOCK_EV_ACCEPT4 fd l

/-- The function `sock_ev_getsockopt`. Its postlude is given `SOCK_EV_SETSOCKOPT`. -/
def sock_ev_getsockopt (env : Env) (fd : Nat) (ret err : Int) (level optname : Int)
    (optval : List Nat) (optlen : Nat) (w : World) : World :=
  let p := SOCK_EV_PRELUDE env SOCK_EV_GETSOCKOPT fd ret err w
  let ev := { p.ev with payload := .SockEvGetsockopt (fill_sockopt level optname optval optlen) }
  SOCK_EV_POSTLUDE env SOCK_EV_SETSOCKOPT fd { p with ev := ev }

/-- The function `sock_ev_setsockopt`. -/
def sock_ev_setsockopt (env : Env) (fd : Nat) (ret err : Int) (level optname : Int)
    (optval : List Nat) (optlen : Nat) (w : World) : World :=
  let p := SOCK_EV_PRELUDE env SOCK_EV_SETSOCKOPT fd ret err w
  let ev := { p.ev with payload := .SockEvSetsockopt (fill_sockopt level optname optval optlen) }
  SOCK_EV_POSTLUDE env SOCK_EV_SETSOCKOPT fd { p with ev := ev }

/-- The statement `sock->bytes_sent += bytes`. -/
def add_bytes_sent (sock : Socket) (bytes : Nat) : Socket :=
  { sock with bytes_sent := (sock.bytes_sent + bytes) % ULONG_MOD }

/-- The statement `sock->bytes_received += bytes`. -/
def add_bytes_received (sock : Socket) (bytes : Nat) : Socket :=
  { sock with bytes_received := (sock.bytes_received + bytes) % ULONG_MOD }

/-- The function `sock_ev_send`. -/
def sock_ev_send (env : Env) (fd : Nat) (ret err : Int) (bytes : Nat) (flags : Int)
    (w : World) : World :=
  let p := SOCK_EV_PRELUDE env SOCK_EV_SEND fd ret err w
  let ev := { p.ev with payload := .SockEvSend bytes flags }
  SOCK_EV_POSTLUDE env SOCK_EV_SEND fd { p with sock := add_bytes_sent p.sock bytes, ev := ev }

/-- The function `sock_ev_recv`. -/
def sock_ev_recv (env : Env) (fd : Nat) (ret err : Int) (bytes : Nat) (flags : Int)
    (w : World) : World :=
  let p := SOCK_EV_PRELUDE env SOCK_EV_RECV fd ret err w
  let ev := { p.ev with payload := .SockEvRecv bytes flags }
  SOCK_EV_POSTLUDE env SOCK_EV_RECV fd
    { p with sock := add_bytes_received p.sock bytes, ev := ev }

/-- The function `sock_ev_sendto`. -/
def sock_ev_sendto (env : Env) (fd : Nat) (ret err : Int) (bytes : Nat) (flags : Int)
    (addr : Option (List Nat)) (len : Nat) (w : World) : World :=
  let p := SOCK_EV_PRELUDE env SOCK_EV_SENDTO fd ret err w
  let a :=
    match addr with
    | some b => fill_addr Addr.zero b len
    | none => Addr.zero
  let ev := { p.ev with payload := .SockEvSendto bytes flags a }
  SOCK_EV_POSTLUDE env SOCK_EV_SENDTO fd { p with sock := add_bytes_sent p.sock bytes, ev := ev }

/-- The function `sock_ev_recvfrom`. -/
def sock_ev_recvfrom (env : Env) (fd : Nat) (ret err : Int) (bytes : Nat) (flags : Int)
    (addr : Option (List Nat)) (len : Nat) (w : World) : World :=
  let p := SOCK_EV_PRELUDE env SOCK_EV_RECVFROM fd ret err w
  let ev := { p.ev with payload := .SockEvRecvfrom bytes flags (accept_addr ret addr len) }
  SOCK_EV_POSTLUDE env SOCK_EV_RECVFROM fd
    { p with sock := add_bytes_received p.sock bytes, ev := ev }

/-- The function `sock_ev_sendmsg`. -/
def sock_ev_sendmsg (env : Env) (fd : Nat) (ret err : Int) (msg : CMsghdr) (flags : Int)
    (w : World) : World :=
  let p := SOCK_EV_PRELUDE env SOCK_EV_SENDMSG fd ret err w
  let m := fill_msghdr Msghdr.zero msg
  let ev := { p.ev with payload := .SockEvSendmsg m.2 flags m.1 }
  SOCK_EV_POSTLUDE env SOCK_EV_SENDMSG fd { p with sock := add_bytes_sent p.sock m.2, ev := ev }

/-- The function `sock_ev_recvmsg`. -/
def sock_ev_recvmsg (env : Env) (fd : Nat) (ret err : Int) (msg : CMsghdr) (flags : Int)
    (w : World) : World :=
  let p := SOCK_EV_PRELUDE env SOCK_EV_RECVMSG fd ret err w
  let m := fill_msghdr Msghdr.zero msg
  let ev := { p.ev with payload := .SockEvRecvmsg m.2 flags m.1 }
  SOCK_EV_POSTLUDE env SOCK_EV_RECVMSG fd
    { p with sock := add_bytes_received p.sock m.2, ev := ev }

/-- The function `sock_ev_sendmmsg`. -/
def sock_ev_sendmmsg (env : Env) (fd : Nat) (ret err : Int) (vmessages : List CMmsghdr)
    (vlen : Nat) (flags : Int) (w : World) : World :=
  let p := SOCK_EV_PRELUDE env SOCK_EV_SENDMMSG fd ret err w
  let v := fill_mmsghdr_vec vmessages vlen
  let ev := { p.ev with payload := .SockEvSendmmsg v.2 flags vlen v.1 }
  SOCK_EV_POSTLUDE env SOCK_EV_SENDMMSG fd { p with sock := add_bytes_sent p.sock v.2, ev := ev }

/-- The function `sock_ev_recvmmsg`; `tmo` is `none` for a NULL timeout. -/
def sock_ev_recvmmsg (env : Env) (fd : Nat) (ret err : Int) (vmessages : List CMmsghdr)
    (vlen : Nat) (flags : Int) (tmo : Option (Int × Int)) (w : World) : World :=
  let p := SOCK_EV_PRELUDE env SOCK_EV_RECVMMSG fd ret err w
  let timeout : Timeout :=
    match tmo with
    | some (tv_sec, tv_nsec) => { seconds := tv_sec, nanoseconds := tv_nsec }
    | none => { seconds := 0, nanoseconds := 0 }
  let v := fill_mmsghdr_vec vmessages vlen
  let ev := { p.ev with payload := .SockEvRecvmmsg v.2 flags vlen v.1 timeout }
  SOCK_EV_POSTLUDE env SOCK_EV_RECVMMSG fd
    { p with sock := add_bytes_received p.sock v.2, ev := ev }

/-- The address recorded by `getsockname`/`getpeername`: filled when `ret != -1`. -/
def name_addr (ret : Int) (addr : List Nat) (addrlen : Nat) : Addr :=
  if ret != -1 then fill_addr Addr.zero addr addrlen else Addr.zero

/-- The function `sock_ev_getsockname`. -/
def sock_ev_getsockname (env : Env) (fd : Nat) (ret err : Int) (addr : List Nat)
    (addrlen : Nat) (w : World) : World :=
  let p := SOCK_EV_PRELUDE env SOCK_EV_GETSOCKNAME fd ret err w
  let ev := { p.ev with payload := .SockEvGetsockname (name_addr ret addr addrlen) }
  SOCK_EV_POSTLUDE env SOCK_EV_GETSOCKNAME fd { p with ev := ev }

/-- The function `sock_ev_getpeername`. -/
def sock_ev_getpeername (env : Env) (fd : Nat) (ret err : Int) (addr : List Nat)
    (addrlen : Nat) (w : World) : World :=
  let p := SOCK_EV_PRELUDE env SOCK_EV_GETPEERNAME fd ret err w
  let ev := { p.ev with payload := .SockEvGetpeername (name_addr ret addr addrlen) }
  SOCK_EV_POSTLUDE env SOCK_EV_GETPEERNAME fd { p with ev := ev }

/-- The function `sock_ev_sockatmark`. -/
def sock_ev_sockatmark (env : Env) (fd : Nat) (ret err : Int) (w : World) : World :=
  let p := SOCK_EV_PRELUDE env SOCK_EV_SOCKATMARK fd ret err w
  SOCK_EV_POSTLUDE env SOCK_EV_SOCKATMARK fd p

/-- The function `sock_ev_isfdtype`. -/
def sock_ev_isfdtype (env : Env) (fd : Nat) (ret err : Int) (fdtype : Int) (w : World) : World :=
  let p := SOCK_EV_PRELUDE env SOCK_EV_ISFDTYPE fd ret err w
  let ev := { p.ev with payload := .SockEvIsfdtype fdtype }
  SOCK_EV_POSTLUDE env SOCK_EV_ISFDTYPE fd { p with ev := ev }

/-- The function `sock_ev_write`. -/
def sock_ev_write (env : Env) (fd : Nat) (ret err : Int) (bytes : Nat) (w : World) : World :=
  let p := SOCK_EV_PRELUDE env SOCK_EV_WRITE fd ret err w
  let ev := { p.ev with payload := .SockEvWrite bytes }
  SOCK_EV_POSTLUDE env SOCK_EV_WRITE fd { p with sock := add_bytes_sent p.sock bytes, ev := ev }

/-- The function `sock_ev_read`. -/
def sock_ev_read (env : Env) (fd : Nat) (ret err : Int) (bytes : Nat) (w : World) : World :=
  let p := SOCK_EV_PRELUDE env SOCK_EV_READ fd ret err w
  let ev := { p.ev with payload := .SockEvRead bytes }
  SOCK_EV_POSTLUDE env SOCK_EV_READ fd
    { p with sock := add_bytes_received p.sock bytes, ev := ev }

/-- The function `sock_ev_close`. -/
def sock_ev_close (env : Env) (fd : Nat) (ret err : Int) (w : World) : World :=
  let p := SOCK_EV_PRELUDE env SOCK_EV_CLOSE fd ret err w
  let w1 := SOCK_EV_POSTLUDE env SOCK_EV_CLOSE fd p
  free_and_dump_socket env fd w1

/-- The function `sock_ev_dup`. -/
def sock_ev_dup (env : Env) (fd : Nat) (ret err : Int) (w : World) : World :=
  let p := SOCK_EV_PRELUDE env SOCK_EV_DUP fd ret err w
  let l := if ret != -1 then DUP_SOCKET env SOCK_EV_DUP fd ret err p else p
  SOCK_EV_POSTLUDE env SOCK_EV_DUP fd l

/-- The function `sock_ev_dup2`. -/
def sock_ev_dup2 (env : Env) (fd : Nat) (ret err : Int) (newfd : Int) (w : World) : World :=
  let p := SOCK_EV_PRELUDE env SOCK_EV_DUP2 fd ret err w
  let ev := { p.ev with payload := .SockEvDup2 newfd SockInfo.zero }
  let l : Locals := { p with ev := ev }
  let l := if ret != -1 then DUP_SOCKET env SOCK_EV_DUP2 fd ret err l else l
  SOCK_EV_POSTLUDE env SOCK_EV_DUP2 fd l

/-- The function `sock_ev_dup3`. -/
def sock_ev_dup3 (env : Env) (fd : Nat) (ret err : Int) (newfd flags : Int) (w : World) :
    World :=
  let p := SOCK_EV_PRELUDE env SOCK_EV_DUP3 fd ret err w
  let ev := { p.ev with payload := .SockEvDup3 newfd (flags == O_CLOEXEC) SockInfo.zero }
  let l : Locals := { p with ev := ev }
  let l := if ret != -1 then DUP_SOCKET env SOCK_EV_DUP3 fd ret err l else l
  SOCK_EV_POSTLUDE env SOCK_EV_DUP3 fd l

/-- The function `sock_ev_writev`. -/
def sock_ev_writev (env : Env) (fd : Nat) (ret err : Int) (iovec : List Nat)
    (iovec_count : Int) (w : World) : World :=
  let p := SOCK_EV_PRELUDE env SOCK_EV_WRITEV fd ret err w
  let v := fill_iovec Iovec.zero iovec iovec_count
  let ev := { p.ev with payload := .SockEvWritev v.2 v.1 }
  SOCK_EV_POSTLUDE env SOCK_EV_WRITEV fd { p with sock := add_bytes_sent p.sock v.2, ev := ev }

/-- The function `sock_ev_readv`. -/
def sock_ev_readv (env : Env) (fd : Nat) (ret err : Int) (iovec : List Nat)
    (iovec_count : Int) (w : World) : World :=
  let p := SOCK_EV_PRELUDE env SOCK_EV_READV fd ret err w
  let v := fill_iovec Iovec.zero iovec iovec_count
  let ev := { p.ev with payload := .SockEvReadv v.2 v.1 }
  SOCK_EV_POSTLUDE env SOCK_EV_READV fd
    { p with sock := add_bytes_received p.sock v.2, ev := ev }

/-- The function `sock_ev_ioctl`. -/
def sock_ev_ioctl (env : Env) (fd : Nat) (ret err : Int) (request : Int) (w : World) : World :=
  let p := SOCK_EV_PRELUDE env SOCK_EV_IOCTL fd ret err w
  let ev := { p.ev with payload := .SockEvIoctl request }
  SOCK_EV_POSTLUDE env SOCK_EV_IOCTL fd { p with ev := ev }

/-- The function `sock_ev_sendfile`. The byte budget is added to `bytes_received`. -/
def sock_ev_sendfile (env : Env) (fd : Nat) (ret err : Int) (bytes : Nat) (w : World) : World :=
  let p := SOCK_EV_PRELUDE env SOCK_EV_SENDFILE fd ret err w
  let ev := { p.ev with payload := .SockEvSendfile bytes }
  SOCK_EV_POSTLUDE env SOCK_EV_SENDFILE fd
    { p with sock := add_bytes_received p.sock bytes, ev := ev }

/-- The function `sock_ev_poll`; `/` and `%` are those of C (truncated). -/
def sock_ev_poll (env : Env) (fd : Nat) (ret err : Int) (requested_events returned_events : Int)
    (timeout : Int) (w : World) : World :=
  let p := SOCK_EV_PRELUDE env SOCK_EV_POLL fd ret err w
  let t : Timeout :=
    { seconds := Int.tdiv timeout 1000, nanoseconds := Int.tmod timeout 1000 * 1000 }
  let ev :=
    { p.ev with
      payload := .SockEvPoll t (fill_poll_events requested_events)
        (fill_poll_events returned_events) }
  SOCK_EV_POSTLUDE env SOCK_EV_POLL fd { p with ev := ev }

/-- The function `sock_ev_ppoll`; `timeout` is `none` for a NULL pointer. -/
def sock_ev_ppoll (env : Env) (fd : Nat) (ret err : Int) (requested_events returned_events : Int)
    (timeout : Option (Int × Int)) (w : World) : World :=
  let p := SOCK_EV_PRELUDE env SOCK_EV_PPOLL fd ret err w
  let t : Timeout :=
    match timeout with
    | some (tv_sec, tv_nsec) => { seconds := tv_sec, nanoseconds := tv_nsec }
    | none => { seconds := 0, nanoseconds := 0 }
  let ev :=
    { p.ev with
      payload := .SockEvPpoll t (fill_poll_events requested_events)
        (fill_poll_events returned_events) }
  SOCK_EV_POSTLUDE env SOCK_EV_PPOLL fd { p with ev := ev }

/-- The function `sock_ev_select`; `timeout` is a `struct timeval` or `none`. -/
def sock_ev_select (env : Env) (fd : Nat) (ret err : Int) (req_read req_write req_except
    ret_read ret_write ret_except : Bool) (timeout : Option (Int × Int)) (w : World) : World :=
  let p := SOCK_EV_PRELUDE env SOCK_EV_SELECT fd ret err w
  let t : Timeout :=
    match timeout with
    | some (tv_sec, tv_usec) => { seconds := tv_sec, nanoseconds := tv_usec * 1000 }
    | none => { seconds := 0, nanoseconds := 0 }
  let ev :=
    { p.ev with
      payload := .SockEvSelect t { read := req_read, write := req_write, except := req_except }
        { read := ret_read, write := ret_write, except := ret_except } }
  SOCK_EV_POSTLUDE env SOCK_EV_SELECT fd { p with ev := ev }

/-- The function `sock_ev_pselect`; `timeout` is a `struct timespec` or `none`. -/
def sock_ev_pselect (env : Env) (fd : Nat) (ret err : Int) (req_read req_write req_except
    ret_read ret_write ret_except : Bool) (timeout : Option (Int × Int)) (w : World) : World :=
  let p := SOCK_EV_PRELUDE env SOCK_EV_PSELECT fd ret err w
  let t : Timeout :=
    match timeout with
    | some (tv_sec, tv_nsec) => { seconds := tv_sec, nanoseconds := tv_nsec }
    | none => { seconds := 0, nanoseconds := 0 }
  let ev :=
    { p.ev with
      payload := .SockEvPselect t { read := req_read, write := req_write, except := req_except }
        { read := ret_read, write := ret_write, except := ret_except } }
  SOCK_EV_POSTLUDE env SOCK_EV_PSELECT fd { p with ev := ev }

/-- The commands of the `switch` of `sock_ev_fcntl` whose argument is an `int`. -/
def fcntl_int_arg (cmd : Int) : Bool :=
  cmd == F_DUPFD || cmd == F_DUPFD_CLOEXEC || cmd == F_SETFD || cmd == F_SETFL ||
    cmd == F_SETOWN || cmd == F_SETSIG || cmd == F_SETLEASE || cmd == F_NOTIFY ||
    cmd == F_SETPIPE_SZ

/-- The function `sock_ev_fcntl`; `arg` is the integer that `va_arg` yields. In every
branch of the `switch` other than the `int` one, the logging `default` included, the
event is left as it is. -/
def sock_ev_fcntl (env : Env) (fd : Nat) (ret err : Int) (cmd : Int) (arg : Int) (w : World) :
    World :=
  let p := SOCK_EV_PRELUDE env SOCK_EV_FCNTL fd ret err w
  let ev :=
    { p.ev with payload := .SockEvFcntl cmd (if fcntl_int_arg cmd then arg else 0) SockInfo.zero }
  let l : Locals := { p with ev := ev }
  let dup := cmd == F_DUPFD || cmd == F_DUPFD_CLOEXEC
  let l := if dup && ret != -1 then DUP_SOCKET env SOCK_EV_FCNTL fd ret err l else l
  SOCK_EV_POSTLUDE env SOCK_EV_FCNTL fd l

/-- The function `sock_ev_epoll_ctl`. -/
def sock_ev_epoll_ctl (env : Env) (fd : Nat) (ret err : Int) (op : Int) (requested_events : Nat)
    (w : World) : World :=
  let p := SOCK_EV_PRELUDE env SOCK_EV_EPOLL_CTL fd ret err w
  let ev := { p.ev with payload := .SockEvEpollCtl op requested_events }
  SOCK_EV_POSTLUDE env SOCK_EV_EPOLL_CTL fd { p with ev := ev }

/-- The function `sock_ev_epoll_wait`. -/
def sock_ev_epoll_wait (env : Env) (fd : Nat) (ret err : Int) (timeout : Int)
    (returned_events : Nat) (w : World) : World :=
  let p := SOCK_EV_PRELUDE env SOCK_EV_EPOLL_WAIT fd ret err w
  let ev := { p.ev with payload := .SockEvEpollWait timeout returned_events }
  SOCK_EV_POSTLUDE env SOCK_EV_EPOLL_WAIT fd { p with ev := ev }

/-- The function `sock_ev_epoll_pwait`. -/
def sock_ev_epoll_pwait (env : Env) (fd : Nat) (ret err : Int) (timeout : Int)
    (returned_events : Nat) (w : World) : World :=
  let p := SOCK_EV_PRELUDE env SOCK_EV_EPOLL_PWAIT fd ret err w
  let ev := { p.ev with payload := .SockEvEpollPwait timeout returned_events }
  SOCK_EV_POSTLUDE env SOCK_EV_EPOLL_PWAIT fd { p with ev := ev }

/-- The function `sock_ev_fdopen`; `ret_nonnull` tells whether `_ret != NULL`, and
`mode` holds the characters of the mode string. -/
def sock_ev_fdopen (env : Env) (fd : Nat) (ret_nonnull : Bool) (err : Int) (mode : List Nat)
    (w : World) : World :=
  let ret : Int := if ret_nonnull then 1 else 0
  let p := SOCK_EV_PRELUDE env SOCK_EV_FDOPEN fd ret err w
  let ev := { p.ev with payload := .SockEvFdopen mode }
  SOCK_EV_POSTLUDE env SOCK_EV_FDOPEN fd { p with ev := ev }

/-- The body of the loop of `dump_all_sock_events` for the index `i`. -/
def dump_all_step (env : Env) (w : World) (i : Nat) : World :=
  if !ra_is_present w.table i then w
  else
    match ra_get_and_lock_elem w.table i with
    | none => w
    | some socket =>
        let d := dump_events_as_json env socket w
        { d.2 with table := ra_store d.2.table i d.1 }

/-- The function `dump_all_sock_events`. -/
def dump_all_sock_events (env : Env) (w : World) : World :=
  (List.range (ra_get_size w.table)).foldl (dump_all_step env) w

/-- The body of the loop of `sock_ev_reset` for the index `i`. -/
def sock_ev_reset_step (env : Env) (w : World) (i : Nat) : World :=
  if !ra_is_present w.table i then w
  else
    let r := ra_remove_elem w.table i
    match r.1 with
    | none => w
    | some sock => sock_ev_forked_socket env i sock.sock_info { w with table := r.2 }

/-- The function `sock_ev_reset`. -/
def sock_ev_reset (env : Env) (w : World) : World :=
  let w0 := { w with connections_count := 0 }
  (List.range (ra_get_size w0.table)).foldl (sock_ev_reset_step env) w0

/-! ## The recording entry points as one transition function -/

/-- A call of one of the entry points that open with `SOCK_EV_PRELUDE`, with the
arguments that follow `fd, ret, err`. -/
inductive Call where
  | bind (addr : List Nat) (len : Nat)
  | connect (addr : List Nat) (len : Nat)
  | shutdown (how : Int)
  | listen (backlog : Int)
  | accept (addr : Option (List Nat)) (addr_len : Nat)
  | accept4 (addr : Option (List Nat)) (addr_len : Nat) (flags : Int)
  | getsockopt (level optname : Int) (optval : List Nat) (optlen : Nat)
  | setsockopt (level optname : Int) (optval : List Nat) (optlen : Nat)
  | send (bytes : Nat) (flags : Int)
  | recv (bytes : Nat) (flags : Int)
  | sendto (bytes : Nat) (flags : Int) (addr : Option (List Nat)) (len : Nat)
  | recvfrom (bytes : Nat) (flags : Int) (addr : Option (List Nat)) (len : Nat)
  | sendmsg (msg : CMsghdr) (flags : Int)
  | recvmsg (msg : CMsghdr) (flags : Int)
  | sendmmsg (vmessages : List CMmsghdr) (vlen : Nat) (flags : Int)
  | recvmmsg (vmessages : List CMmsghdr) (vlen : Nat) (flags : Int) (tmo : Option (Int × Int))
  | getsockname (addr : List Nat) (addrlen : Nat)
  | getpeername (addr : List Nat) (addrlen : Nat)
  | sockatmark
  | isfdtype (fdtype : Int)
  | write (bytes : Nat)
  | read (bytes : Nat)
  | close
  | dup
  | dup2 (newfd : Int)
  | dup3 (newfd flags : Int)
  | writev (iovec : List Nat) (iovec_count : Int)
  | readv (iovec : List Nat) (iovec_count : Int)
  | ioctl (request : Int)
  | sendfile (bytes : Nat)
  | poll (requested_events returned_events timeout : Int)
  | ppoll (requested_events returned_events : Int) (timeout : Option (Int × Int))
  | select (req_read req_write req_except ret_read ret_write ret_except : Bool)
      (timeout : Option (Int × Int))
  | pselect (req_read req_write req_except ret_read ret_write ret_except : Bool)
      (timeout : Option (Int × Int))
  | fcntl (cmd arg : Int)
  | epoll_ctl (op : Int) (requested_events : Nat)
  | epoll_wait (timeout : Int) (returned_events : Nat)
  | epoll_pwait (timeout : Int) (returned_events : Nat)
  | fdopen (mode : List Nat)
  | tcp_info (info : TcpInfo)
  deriving DecidableEq, Repr

/-- The entry point that a call names, applied to `fd, ret, err` and the call's
arguments. For `fdopen` the pointer result is non-NULL exactly when `ret` is not 0. -/
def sock_ev (env : Env) (fd : Nat) (ret err : Int) (c : Call) (w : World) : World :=
  match c with
  | .bind addr len => sock_ev_bind env fd ret err addr len w
  | .connect addr len => sock_ev_connect env fd ret err addr len w
  | .shutdown how => sock_ev_shutdown env fd ret err how w
  | .listen backlog => sock_ev_listen env fd ret err backlog w
  | .accept addr addr_len => sock_ev_accept env fd ret err addr addr_len w
  | .accept4 addr addr_len flags => sock_ev_accept4 env fd ret err addr addr_len flags w
  | .getsockopt level optname optval optlen =>
      sock_ev_getsockopt env fd ret err level optname optval optlen w
  | .setsockopt level optname optval optlen =>
      sock_ev_setsockopt env fd ret err level optname optval optlen w
  | .send bytes flags => sock_ev_send env fd ret err bytes flags w
  | .recv bytes flags => sock_ev_recv env fd ret err bytes flags w
  | .sendto bytes flags addr len => sock_ev_sendto env fd ret err bytes flags addr len w
  | .recvfrom bytes flags addr len => sock_ev_recvfrom env fd ret err bytes flags addr len w
  | .sendmsg msg flags => sock_ev_sendmsg env fd ret err msg flags w
  | .recvmsg msg flags => sock_ev_recvmsg env fd ret err msg flags w
  | .sendmmsg vmessages vlen flags => sock_ev_sendmmsg env fd ret err vmessages vlen flags w
  | .recvmmsg vmessages vlen flags tmo =>
      sock_ev_recvmmsg env fd ret err vmessages vlen flags tmo w
  | .getsockname addr addrlen => sock_ev_getsockname env fd ret err addr addrlen w
  | .getpeername addr addrlen => sock_ev_getpeername env fd ret err addr addrlen w
  | .sockatmark => sock_ev_sockatmark env fd ret err w
  | .isfdtype fdtype => sock_ev_isfdtype env fd ret err fdtype w
  | .write bytes => sock_ev_write env fd ret err bytes w
  | .read bytes => sock_ev_read env fd ret err bytes w
  | .close => sock_ev_close env fd ret err w
  | .dup => sock_ev_dup env fd ret err w
  | .dup2 newfd => sock_ev_dup2 env fd ret err newfd w
  | .dup3 newfd flags => sock_ev_dup3 env fd ret err newfd flags w
  | .writev iovec iovec_count => sock_ev_writev env fd ret err iovec iovec_count w
  | .readv iovec iovec_count => sock_ev_readv env fd ret err iovec iovec_count w
  | .ioctl request => sock_ev_ioctl env fd ret err request w
  | .sendfile bytes => sock_ev_sendfile env fd ret err bytes w
  | .poll requested_events returned_events timeout =>
      sock_ev_poll env fd ret err requested_events returned_events timeout w
  | .ppoll requested_events returned_events timeout =>
      sock_ev_ppoll env fd ret err requested_events returned_events timeout w
  | .select a b c d e f timeout => sock_ev_select env fd ret err a b c d e f timeout w
  | .pselect a b c d e f timeout => sock_ev_pselect env fd ret err a b c d e f timeout w
  | .fcntl cmd arg => sock_ev_fcntl env fd ret err cmd arg w
  | .epoll_ctl op requested_events => sock_ev_epoll_ctl env fd ret err op requested_events w
  | .epoll_wait timeout returned_events =>
      sock_ev_epoll_wait env fd ret err timeout returned_events w
  | .epoll_pwait timeout returned_events =>
      sock_ev_epoll_pwait env fd ret err timeout returned_events w
  | .fdopen mode => sock_ev_fdopen env fd (ret != 0) err mode w
  | .tcp_info info => sock_ev_tcp_info env fd ret err info w

/-! ## The common shape of the entry points

Every entry point that opens with `SOCK_EV_PRELUDE` runs the prelude, a body that
writes the event's members and updates the entry, for the duplication family the
block `DUP_SOCKET`, and the postlude; `sock_ev_close` then frees the entry. The
definitions below name these parts, so that a property can be proved for all entry
points at once; `sock_ev_eq_shape` shows that `sock_ev` is their composition. -/

/-- The tag given to `SOCK_EV_PRELUDE` by the entry point of a call. -/
def Call.evType : Call → SockEventType
  | .bind _ _ => SOCK_EV_BIND
  | .connect _ _ => SOCK_EV_CONNECT
  | .shutdown _ => SOCK_EV_SHUTDOWN
  | .listen _ => SOCK_EV_LISTEN
  | .accept _ _ => SOCK_EV_ACCEPT
  | .accept4 _ _ _ => SOCK_EV_ACCEPT4
  | .getsockopt _ _ _ _ => SOCK_EV_GETSOCKOPT
  | .setsockopt _ _ _ _ => SOCK_EV_SETSOCKOPT
  | .send _ _ => SOCK_EV_SEND
  | .recv _ _ => SOCK_EV_RECV
  | .sendto _ _ _ _ => SOCK_EV_SENDTO
  | .recvfrom _ _ _ _ => SOCK_EV_RECVFROM
  | .sendmsg _ _ => SOCK_EV_SENDMSG
  | .recvmsg _ _ => SOCK_EV_RECVMSG
  | .sendmmsg _ _ _ => SOCK_EV_SENDMMSG
  | .recvmmsg _ _ _ _ => SOCK_EV_RECVMMSG
  | .getsockname _ _ => SOCK_EV_GETSOCKNAME
  | .getpeername _ _ => SOCK_EV_GETPEERNAME
  | .sockatmark => SOCK_EV_SOCKATMARK
  | .isfdtype _ => SOCK_EV_ISFDTYPE
  | .write _ => SOCK_EV_WRITE
  | .read _ => SOCK_EV_READ
  | .close => SOCK_EV_CLOSE
  | .dup => SOCK_EV_DUP
  | .dup2 _ => SOCK_EV_DUP2
  | .dup3 _ _ => SOCK_EV_DUP3
  | .writev _ _ => SOCK_EV_WRITEV
  | .readv _ _ => SOCK_EV_READV
  | .ioctl _ => SOCK_EV_IOCTL
  | .sendfile _ => SOCK_EV_SENDFILE
  | .poll _ _ _ => SOCK_EV_POLL
  | .ppoll _ _ _ => SOCK_EV_PPOLL
  | .select _ _ _ _ _ _ _ => SOCK_EV_SELECT
  | .pselect _ _ _ _ _ _ _ => SOCK_EV_PSELECT
  | .fcntl _ _ => SOCK_EV_FCNTL
  | .epoll_ctl _ _ => SOCK_EV_EPOLL_CTL
  | .epoll_wait _ _ => SOCK_EV_EPOLL_WAIT
  | .epoll_pwait _ _ => SOCK_EV_EPOLL_PWAIT
  | .fdopen _ => SOCK_EV_FDOPEN
  | .tcp_info _ => SOCK_EV_TCP_INFO

/-- The tag given to `SOCK_EV_POSTLUDE` by the entry point of a call. -/
def Call.consType : Call → SockEventType
  | .getsockopt _ _ _ _ => SOCK_EV_SETSOCKOPT
  | c => c.evType

/-- The value of the local `ret` of the entry point. -/
def Call.retval (c : Call) (ret : Int) : Int :=
  match c with
  | .fdopen _ => if ret != 0 then 1 else 0
  | _ => ret

/-- Whether the entry point runs the block `DUP_SOCKET`. -/
def Call.dups (c : Call) (ret : Int) : Bool :=
  match c with
  | .accept _ _ => ret != -1
  | .accept4 _ _ _ => ret != -1
  | .dup => ret != -1
  | .dup2 _ => ret != -1
  | .dup3 _ _ => ret != -1
  | .fcntl cmd _ => (cmd == F_DUPFD || cmd == F_DUPFD_CLOEXEC) && ret != -1
  | _ => false

/-- Whether the call belongs to the duplication family: accept, accept4, dup, dup2,
dup3, or fcntl with `F_DUPFD`/`F_DUPFD_CLOEXEC`. -/
def Call.isDup (c : Call) : Bool :=
  match c with
  | .accept _ _ => true
  | .accept4 _ _ _ => true
  | .dup => true
  | .dup2 _ => true
  | .dup3 _ _ => true
  | .fcntl cmd _ => cmd == F_DUPFD || cmd == F_DUPFD_CLOEXEC
  | _ => false

/-- The members of the event struct after the body of the entry point. -/
def Call.payload (c : Call) (ret : Int) : Payload :=
  match c with
  | .bind addr len => .SockEvBind (fill_addr Addr.zero addr len)
  | .connect addr len => .SockEvConnect (fill_addr Addr.zero addr len)
  | .shutdown how =>
      .SockEvShutdown (how == SHUT_RD || how == SHUT_RDWR) (how == SHUT_WR || how == SHUT_RDWR)
  | .listen backlog => .SockEvListen backlog
  | .accept addr addr_len => .SockEvAccept (accept_addr ret addr addr_len) SockInfo.zero
  | .accept4 addr addr_len flags =>
      .SockEvAccept4 (accept_addr ret addr addr_len) flags SockInfo.zero
  | .getsockopt level optname optval optlen =>
      .SockEvGetsockopt (fill_sockopt level optname optval optlen)
  | .setsockopt level optname optval optlen =>
      .SockEvSetsockopt (fill_sockopt level optname optval optlen)
  | .send bytes flags => .SockEvSend bytes flags
  | .recv bytes flags => .SockEvRecv bytes flags
  | .sendto bytes flags addr len =>
      .SockEvSendto bytes flags
        (match addr with
         | some b => fill_addr Addr.zero b len
         | none => Addr.zero)
  | .recvfrom bytes flags addr len => .SockEvRecvfrom bytes flags (accept_addr ret addr len)
  | .sendmsg msg flags =>
      .SockEvSendmsg (fill_msghdr Msghdr.zero msg).2 flags (fill_msghdr Msghdr.zero msg).1
  | .recvmsg msg flags =>
      .SockEvRecvmsg (fill_msghdr Msghdr.zero msg).2 flags (fill_msghdr Msghdr.zero msg).1
  | .sendmmsg vmessages vlen flags =>
      .SockEvSendmmsg (fill_mmsghdr_vec vmessages vlen).2 flags vlen
        (fill_mmsghdr_vec vmessages vlen).1
  | .recvmmsg vmessages vlen flags tmo =>
      .SockEvRecvmmsg (fill_mmsghdr_vec vmessages vlen).2 flags vlen
        (fill_mmsghdr_vec vmessages vlen).1
        (match tmo with
         | some (tv_sec, tv_nsec) => { seconds := tv_sec, nanoseconds := tv_nsec }
         | none => { seconds := 0, nanoseconds := 0 })
  | .getsockname addr addrlen => .SockEvGetsockname (name_addr ret addr addrlen)
  | .getpeername addr addrlen => .SockEvGetpeername (name_addr ret addr addrlen)
  | .sockatmark => .SockEvSockatmark
  | .isfdtype fdtype => .SockEvIsfdtype fdtype
  | .write bytes => .SockEvWrite bytes
  | .read bytes => .SockEvRead bytes
  | .close => .SockEvClose
  | .dup => .SockEvDup SockInfo.zero
  | .dup2 newfd => .SockEvDup2 newfd SockInfo.zero
  | .dup3 newfd flags => .SockEvDup3 newfd (flags == O_CLOEXEC) SockInfo.zero
  | .writev iovec iovec_count =>
      .SockEvWritev (fill_iovec Iovec.zero iovec iovec_count).2
        (fill_iovec Iovec.zero iovec iovec_count).1
  | .readv iovec iovec_count =>
      .SockEvReadv (fill_iovec Iovec.zero iovec iovec_count).2
        (fill_iovec Iovec.zero iovec iovec_count).1
  | .ioctl request => .SockEvIoctl request
  | .sendfile bytes => .SockEvSendfile bytes
  | .poll requested_events returned_events timeout =>
      .SockEvPoll { seconds := Int.tdiv timeout 1000, nanoseconds := Int.tmod timeout 1000 * 1000 }
        (fill_poll_events requested_events) (fill_poll_events returned_events)
  | .ppoll requested_events returned_events timeout =>
      .SockEvPpoll
        (match timeout with
         | some (tv_sec, tv_nsec) => { seconds := tv_sec, nanoseconds := tv_nsec }
         | none => { seconds := 0, nanoseconds := 0 })
        (fill_poll_events requested_events) (fill_poll_events returned_events)
  | .select a b c d e f timeout =>
      .SockEvSelect
        (match timeout with
         | some (tv_sec, tv_usec) => { seconds := tv_sec, nanoseconds := tv_usec * 1000 }
         | none => { seconds := 0, nanoseconds := 0 })
        { read := a, write := b, except := c } { read := d, write := e, except := f }
  | .pselect a b c d e f timeout =>
      .SockEvPselect
        (match timeout with
         | some (tv_sec, tv_nsec) => { seconds := tv_sec, nanoseconds := tv_nsec }
         | none => { seconds := 0, nanoseconds := 0 })
        { read := a, write := b, except := c } { read := d, write := e, except := f }
  | .fcntl cmd arg => .SockEvFcntl cmd (if fcntl_int_arg cmd then arg else 0) SockInfo.zero
  | .epoll_ctl op requested_events => .SockEvEpollCtl op requested_events
  | .epoll_wait timeout returned_events => .SockEvEpollWait timeout returned_events
  | .epoll_pwait timeout returned_events => .SockEvEpollPwait timeout returned_events
  | .fdopen mode => .SockEvFdopen mode
  | .tcp_info info => .SockEvTcpInfo info

/-- The entry after the body of the entry point; `now` is the clock value that the
body of `sock_ev_tcp_info` reads. -/
def Call.sockBody (c : Call) (ret : Int) (now : Nat) (sock : Socket) : Socket :=
  match c with
  | .bind addr len =>
      if ret == 0 then
        { sock with
          bound := true
          bound_addr := memcpy sock.bound_addr (fill_addr Addr.zero addr len).sockaddr_sto len }
      else sock
  | .send bytes _ => add_bytes_sent sock bytes
  | .sendto bytes _ _ _ => add_bytes_sent sock bytes
  | .write bytes => add_bytes_sent sock bytes
  | .sendmsg msg _ => add_bytes_sent sock (fill_msghdr Msghdr.zero msg).2
  | .sendmmsg vmessages vlen _ => add_bytes_sent sock (fill_mmsghdr_vec vmessages vlen).2
  | .writev iovec iovec_count => add_bytes_sent sock (fill_iovec Iovec.zero iovec iovec_count).2
  | .recv bytes _ => add_bytes_received sock bytes
  | .recvfrom bytes _ _ _ => add_bytes_received sock bytes
  | .read bytes => add_bytes_received sock bytes
  | .recvmsg msg _ => add_bytes_received sock (fill_msghdr Msghdr.zero msg).2
  | .recvmmsg vmessages vlen _ _ =>
      add_bytes_received sock (fill_mmsghdr_vec vmessages vlen).2
  | .readv iovec iovec_count =>
      add_bytes_received sock (fill_iovec Iovec.zero iovec iovec_count).2
  | .sendfile bytes => add_bytes_received sock bytes
  | .tcp_info info =>
      { sock with
        last_info_dump_bytes := to_long (sock.bytes_sent + sock.bytes_received)
        last_info_dump_micros := to_long now
        rtt := info.tcpi_rtt }
  | _ => sock

/-- The locals after the body of the entry point. -/
def Call.body (env : Env) (c : Call) (ret : Int) (p : Locals) : Locals :=
  match c with
  | .tcp_info _ =>
      { w := (get_time_micros env p.w).2
        sock := c.sockBody ret (get_time_micros env p.w).1 p.sock
        ev := { p.ev with payload := c.payload ret } }
  | _ => { w := p.w, sock := c.sockBody ret 0 p.sock, ev := { p.ev with payload := c.payload ret } }

/-- The composition of prelude, body, `DUP_SOCKET`, postlude and, for close, the
release of the entry. -/
def sock_ev_shape (env : Env) (fd : Nat) (ret err : Int) (c : Call) (w : World) : World :=
  let r := c.retval ret
  let b := c.body env r (SOCK_EV_PRELUDE env c.evType fd r err w)
  let l := if c.dups r then DUP_SOCKET env c.evType fd r err b else b
  let w1 := SOCK_EV_POSTLUDE env c.consType fd l
  if c = Call.close then free_and_dump_socket env fd w1 else w1

/-- The entry of the table at a descriptor, if any. -/
def World.entry (w : World) (fd : Nat) : Option Socket := ra_get_and_lock_elem w.table fd

/-- The events held by the entry at a descriptor, oldest first (none if absent). -/
def World.events (w : World) (fd : Nat) : List SockEvent :=
  match w.entry fd with
  | some sock => sock.events
  | none => []

/-- The sampling decision of the postlude: whether a nested `tcp_info` recording follows. -/
def sample_fires (env : Env) (ev_type_cons : SockEventType) (fd : Nat) (l : Locals) : Bool :=
  (SOCK_EV_POSTLUDE_locked env ev_type_cons fd l).1

/-- TCP-info sampling is disabled by the configuration: neither the interval nor the
byte threshold is positive. -/
def sampling_disabled (env : Env) : Prop := env.conf_opt_u ≤ 0 ∧ env.conf_opt_b ≤ 0

/-- The effect of `SOCK_EV_POSTLUDE` on the state `l.w` in which `fd` is present: the
resulting state `w'`, the entry `s'` then stored at `fd`, and the events `rest` recorded
after `l.ev` by the nested sampling. -/
structure PostEffect (env : Env) (cons : SockEventType) (fd : Nat) (l : Locals) (w' : World)
    (s' : Socket) (rest : List SockEvent) : Prop where
  table : w'.table = ra_store l.w.table fd s'
  emitted : w'.emitted = l.w.emitted ++ l.ev :: rest
  dumped : w'.dumped = l.w.dumped
  stopped : w'.stopped = l.w.stopped
  connections_count : w'.connections_count = l.w.connections_count
  events : s'.events = l.sock.events ++ l.ev :: rest
  events_count : s'.events_count = l.sock.events_count + 1 + rest.length
  id : s'.id = l.sock.id
  fd_eq : s'.fd = l.sock.fd
  sock_info : s'.sock_info = l.sock.sock_info
  bound : s'.bound = l.sock.bound
  bound_addr : s'.bound_addr = l.sock.bound_addr
  bytes_sent : s'.bytes_sent = l.sock.bytes_sent
  bytes_received : s'.bytes_received = l.sock.bytes_received
  capture_switch : s'.capture_switch = l.sock.capture_switch
  rest_shape : rest = [] ∨ ∃ t, rest = [t] ∧ t.type = SOCK_EV_TCP_INFO ∧
    t.id = l.sock.events_count + 1
  quiet : sample_fires env cons fd l = false → rest = [] ∧ s' = push_event l.sock l.ev
  fired : sample_fires env cons fd l = true → rest ≠ []

/-- The event that `sock_ev_ghost_socket` records for `fd` in the state `w`. -/
def ghost_event (env : Env) (fd : Nat) (w : World) : SockEvent :=
  { (alloc_event env (alloc_socket fd w).2 SOCK_EV_GHOST_SOCKET 0 0 0).1 with
    payload := .SockEvGhostSocket (fill_sock_info_from_fd env SockInfo.zero fd) }

/-- The entry that `sock_ev_ghost_socket` installs for `fd` in the state `w`. -/
def ghost_sock (env : Env) (fd : Nat) (w : World) : Socket :=
  push_event
    { (alloc_socket fd w).1 with sock_info := fill_sock_info_from_fd env SockInfo.zero fd }
    (ghost_event env fd w)

/-- The event that `DUP_SOCKET` places on the new entry: the copy of `ev` with the
source's `sock_info`. -/
def dup_event (l : Locals) : SockEvent :=
  { l.ev with payload := l.ev.payload.set_sock_info l.sock.sock_info }

/-- The entry that `DUP_SOCKET` installs at `ret`. -/
def dup_sock (ret : Int) (l : Locals) : Socket :=
  push_event { (alloc_socket ret l.w).1 with sock_info := l.sock.sock_info } (dup_event l)

/-- The failure sentinel of an event type in the words of the specification: 0 for
`socket` and `fdopen`, -1 for every other type. -/
def failure_sentinel (T : SockEventType) : Int :=
  if T = SOCK_EV_SOCKET ∨ T = SOCK_EV_FDOPEN then 0 else -1

/-! ## A concrete environment and the scenarios of the specification -/

/-- An environment in which the output directory is configured, every event can be
serialized, TCP-info sampling is disabled and every descriptor is a TCP socket. -/
def env0 : Env :=
  { OPT_D := true, conf_opt_u := 0, conf_opt_b := 0, conf_opt_c := false,
    gettimeofday := fun n => some (1000 + n, 0), gettid := fun _ => 42,
    fcntl_getfd := fun _ => true, fstat := fun _ => some true,
    getsockopt := fun _ _ optname =>
      if optname = SO_DOMAIN then some AF_INET
      else if optname = SO_TYPE then some SOCK_STREAM else some 0,
    getsockopt_tcp_info := fun _ => some { tcpi_rtt := 7, other := [] },
    uninit_tcp_info := TcpInfo.zero, errno := 0, uninit_type := fun _ => 0,
    orig_bind := fun _ _ _ => (0, 0),
    uninit_sockaddr := fun _ n => List.replicate n 0,
    alloc_pcap_path_str := fun id => some [id],
    alloc_capture_filter := fun a b => some (a.getD [] ++ b),
    start_capture := fun _ _ => some 1,
    alloc_json_path_str := fun _ => true, fopen := fun _ => true,
    alloc_sock_ev_json := fun _ => true, freed_head := fun _ _ => [] }

/-- The environment `env0` with a byte threshold of 10 for TCP-info sampling. -/
def env_sampling : Env := { env0 with conf_opt_b := 10 }

/-- Scenario 2: `socket -> 4`, then `accept(4) -> 7`. -/
def scenario_accept : World :=
  sock_ev_accept env0 4 7 0 none 0 (sock_ev_socket env0 4 AF_INET SOCK_STREAM 0 World.init)

/-- The ids of the events held by the entry at a descriptor, oldest first. -/
def World.event_ids (w : World) (fd : Nat) : List Nat := (w.events fd).map (fun e => e.id)

/-- The types of the events held by the entry at a descriptor, oldest first. -/
def World.event_types (w : World) (fd : Nat) : List SockEventType :=
  (w.events fd).map (fun e => e.type)

/-- An entry as the creating paths build it: a zeroed `Socket` with its connection id,
descriptor and `sock_info`, holding one event. -/
def fresh_sock (id : Nat) (fd : Int) (si : SockInfo) (e : SockEvent) : Socket :=
  push_event { Socket.zero with id := id, fd := fd, sock_info := si } e

/-- The state in which the body of an entry point runs: the given state if `fd` is
present, else the state after `sock_ev_ghost_socket`. -/
def after_ghost (env : Env) (fd : Nat) (w : World) : World :=
  if ra_is_present w.table fd then w else sock_ev_ghost_socket env fd w

/-- What the locals `l` handed to `SOCK_EV_POSTLUDE` are, for the call `c` on `fd` in
the state `w`; `w0` is the state after the ghost check and `s0` the entry at `fd` in it. -/
structure Anatomy (env : Env) (fd : Nat) (ret err : Int) (c : Call) (w0 : World)
    (s0 : Socket) (l : Locals) : Prop where
  present : ra_is_present l.w.table fd = true
  ev_type : l.ev.type = c.evType
  ev_return_value : l.ev.return_value = c.retval ret
  ev_err : l.ev.err = err
  ev_payload : l.ev.payload = c.payload (c.retval ret)
  ev_id : l.ev.id = s0.events_count
  emitted : l.w.emitted = w0.emitted
  dumped : l.w.dumped = w0.dumped
  stopped : l.w.stopped = w0.stopped
  nodup : c.dups (c.retval ret) = false →
    l.w.table = w0.table ∧ l.w.connections_count = w0.connections_count ∧
      ∃ now, l.sock = c.sockBody (c.retval ret) now s0
  dup : c.dups (c.retval ret) = true →
    l.w.table = ra_put_elem w0.table ret
        (fresh_sock w0.connections_count ret s0.sock_info
          { l.ev with payload := l.ev.payload.set_sock_info s0.sock_info }) ∧
      l.w.connections_count = w0.connections_count + 1 ∧
      l.sock = (ra_get_and_lock_elem l.w.table fd).getD Socket.zero

/-- The effect of an entry point that does not run `DUP_SOCKET`, up to the end of its
postlude: `w0` is the state after the ghost check, `s0` the entry at `fd` in it, `w'`
the state after the postlude, `s'` the entry then stored at `fd`, `ev` the recorded
event, `rest` the events recorded after it by the nested sampling, and `now` the clock
value read by the body. -/
structure RecordEffect (env : Env) (fd : Nat) (ret err : Int) (c : Call) (w0 : World)
    (s0 : Socket) (w' : World) (s' : Socket) (ev : SockEvent) (rest : List SockEvent)
    (now : Nat) : Prop where
  table : w'.table = ra_store w0.table fd s'
  emitted : w'.emitted = w0.emitted ++ ev :: rest
  dumped : w'.dumped = w0.dumped
  stopped : w'.stopped = w0.stopped
  connections_count : w'.connections_count = w0.connections_count
  ev_type : ev.type = c.evType
  ev_return_value : ev.return_value = c.retval ret
  ev_err : ev.err = err
  ev_payload : ev.payload = c.payload (c.retval ret)
  ev_id : ev.id = s0.events_count
  events : s'.events = s0.events ++ ev :: rest
  events_count : s'.events_count = s0.events_count + 1 + rest.length
  id : s'.id = s0.id
  fd_eq : s'.fd = s0.fd
  sock_info : s'.sock_info = s0.sock_info
  capture_switch : s'.capture_switch = s0.capture_switch
  bound : s'.bound = (c.sockBody (c.retval ret) now s0).bound
  bound_addr : s'.bound_addr = (c.sockBody (c.retval ret) now s0).bound_addr
  bytes_sent : s'.bytes_sent = (c.sockBody (c.retval ret) now s0).bytes_sent
  bytes_received : s'.bytes_received = (c.sockBody (c.retval ret) now s0).bytes_received
  rest_shape : rest = [] ∨ ∃ t, rest = [t] ∧ t.type = SOCK_EV_TCP_INFO ∧
    t.id = s0.events_count + 1
  quiet : sampling_disabled env →
    rest = [] ∧ s' = push_event (c.sockBody (c.retval ret) now s0) ev

/-- A sequence of recorded calls on one descriptor, each with its `ret` and `err`,
applied in order. -/
def sock_ev_seq (env : Env) (fd : Nat) (cs : List (Int × Int × Call)) (w : World) : World :=
  cs.foldl (fun w x => sock_ev env fd x.1 x.2.1 x.2.2 w) w

/-- The output is configured and every step of a dump succeeds: `OPT_D` is set, the
path can be built, the file can be opened and every event can be serialized. -/
def dump_succeeds (env : Env) : Prop :=
  env.OPT_D = true ∧ (∀ id, env.alloc_json_path_str id = true) ∧ (∀ id, env.fopen id = true) ∧
    ∀ ev, env.alloc_sock_ev_json ev = true

/-- The bytes of a `struct sockaddr_in` for 0.0.0.0:8080. -/
def addr_any_8080 : List Nat := [2, 0, 31, 144, 0, 0, 0, 0, 0, 0, 0, 0, 0, 0, 0, 0]

/-- The bytes of a `struct sockaddr_in` for 1.2.3.4:80. -/
def addr_1234_80 : List Nat := [2, 0, 0, 80, 1, 2, 3, 4, 0, 0, 0, 0, 0, 0, 0, 0]

/-- Scenario 1 between `socket` and `close`: bind, connect, write of 100 bytes. -/
def scenario1_calls : List (Int × Int × Call) :=
  [(0, 0, Call.bind addr_any_8080 16), (0, 0, Call.connect addr_1234_80 16),
   (100, 0, Call.write 100)]

/-- Scenario 1 just before the close: `socket(AF_INET, SOCK_STREAM, 0) -> 5`, bind,
connect, write. -/
def scenario1_before_close : World :=
  sock_ev_seq env0 5 scenario1_calls (sock_ev_socket env0 5 AF_INET SOCK_STREAM 0 World.init)

/-- Two traced sockets, fd 4 and fd 11, and a write of 50 bytes on fd 11. -/
def scenario_two_sockets : World :=
  sock_ev_write env0 11 50 0 50
    (sock_ev_socket env0 11 AF_INET SOCK_STREAM 0
      (sock_ev_socket env0 4 AF_INET SOCK_STREAM 0 World.init))

/-- The state `scenario_two_sockets` followed by `dup2(4, 11) -> 11`: the target
descriptor is re-used without an intervening close. -/
def scenario_dup2_reuse : World := sock_ev_dup2 env0 4 11 0 11 scenario_two_sockets

/-- The state `scenario_two_sockets` followed by `dup2(4, 4) -> 4`. -/
def scenario_dup2_self : World := sock_ev_dup2 env0 4 4 0 4 scenario_two_sockets

/-- The types of the events written to the dump files, oldest first. -/
def World.dumped_types (w : World) : List SockEventType := w.dumped.map (fun x => x.2.type)

/-- The types of the events handed to `output_event`, oldest first. -/
def World.emitted_types (w : World) : List SockEventType := w.emitted.map (fun e => e.type)

/-! ## Reachable states -/

/-- A call of the recording interface: `sock_ev_socket`, `sock_ev_forked_socket`, an
entry point that opens with the common prelude, or `sock_ev_reset`. -/
inductive Op where
  | socket (fd : Nat) (domain type protocol : Int)
  | forked_socket (fd : Nat) (sock_info : SockInfo)
  | call (fd : Nat) (ret err : Int) (c : Call)
  | reset

/-- The effect of a call of the recording interface. -/
def Op.apply (env : Env) (op : Op) (w : World) : World :=
  match op with
  | .socket fd domain type protocol => sock_ev_socket env fd domain type protocol w
  | .forked_socket fd sock_info => sock_ev_forked_socket env fd sock_info w
  | .call fd ret err c => sock_ev env fd ret err c w
  | .reset => sock_ev_reset env w

/-- The states reachable from start-up through the recording interface, in any
environment at each call. -/
inductive Reachable : World → Prop where
  | init : Reachable World.init
  | step (env : Env) (op : Op) (w : World) : Reachable w → Reachable (op.apply env w)

/-- The address recorded on an event, if the event is a bind that returned 0. -/
def bind_addr_of (e : SockEvent) : Option Addr :=
  if e.type = SOCK_EV_BIND ∧ e.return_value = 0 then
    match e.payload with
    | .SockEvBind a => some a
    | _ => none
  else none

/-- The address recorded on the last bind event of a list that returned 0, if any. -/
def last_bind (evs : List SockEvent) : Option Addr := evs.reverse.findSome? bind_addr_of

/-- The bytes of a `struct sockaddr_ll` (family AF_PACKET = 17), 20 bytes. -/
def addr_packet : List Nat := [17, 0, 0, 3, 2, 0, 0, 0, 0, 0, 0, 6, 0, 0, 0, 0, 0, 0, 0, 0]

/-- A traced AF_PACKET socket on fd 5, bound with `bind -> 0` to `addr_packet`. -/
def scenario_bind_packet : World :=
  sock_ev_bind env0 5 0 0 addr_packet 20 (sock_ev_socket env0 5 AF_PACKET 3 768 World.init)

/-- Every entry of the table satisfies `P`. -/
def AllEntries (P : Socket → Prop) (w : World) : Prop := ∀ fd s, w.entry fd = some s → P s

/-- How an entry point changes the entry it records on: `s0` is the entry before the
body (the entry found or created at `fd`), `s'` the entry after the postlude, `ev` the
recorded event and `rest` the events recorded after it by the nested sampling. -/
structure EntryStep (c : Call) (r : Int) (s0 s' : Socket) (ev : SockEvent)
    (rest : List SockEvent) (now : Nat) : Prop where
  events : s'.events = s0.events ++ ev :: rest
  events_count : s'.events_count = s0.events_count + 1 + rest.length
  ev_type : ev.type = c.evType
  ev_return_value : ev.return_value = r
  ev_payload : ev.payload = c.payload r
  rest_shape : rest = [] ∨ ∃ t, rest = [t] ∧ t.type = SOCK_EV_TCP_INFO
  id : s'.id = s0.id
  fd_eq : s'.fd = s0.fd
  sock_info : s'.sock_info = s0.sock_info
  capture_switch : s'.capture_switch = s0.capture_switch
  bound : s'.bound = (c.sockBody r now s0).bound
  bound_addr : s'.bound_addr = (c.sockBody r now s0).bound_addr
  bytes_sent : s'.bytes_sent = (c.sockBody r now s0).bytes_sent
  bytes_received : s'.bytes_received = (c.sockBody r now s0).bytes_received

/-- The bound address of an entry is the one of its last successful bind: if the entry
is bound, its list holds a bind event that returned 0, and the first `len` bytes
recorded on the last such event are the first bytes of `bound_addr`. -/
def bound_inv (s : Socket) : Prop :=
  s.bound = true →
    ∃ a, last_bind s.events = some a ∧ a.sockaddr_sto.take a.len <+: s.bound_addr

/-- A traced socket on fd 4: `socket(AF_INET, SOCK_STREAM, 0) -> 4` on the empty table. -/
def scenario_socket4 : World := sock_ev_socket env0 4 AF_INET SOCK_STREAM 0 World.init

/-- The entry of fd 4 in `scenario_socket4`. -/
def socket4_entry : Socket := (scenario_socket4.entry 4).getD Socket.zero

/-- The entry of fd 5 in `scenario1_before_close`. -/
def scenario1_entry : Socket := (scenario1_before_close.entry 5).getD Socket.zero


/-! ## Byte accounting -/

/-- The member `bytes` of an event struct that has one. -/
def Payload.bytes (p : Payload) : Option Nat :=
  match p with
  | .SockEvSend bytes _ => some bytes
  | .SockEvRecv bytes _ => some bytes
  | .SockEvSendto bytes _ _ => some bytes
  | .SockEvRecvfrom bytes _ _ => some bytes
  | .SockEvSendmsg bytes _ _ => some bytes
  | .SockEvRecvmsg bytes _ _ => some bytes
  | .SockEvSendmmsg bytes _ _ _ => some bytes
  | .SockEvRecvmmsg bytes _ _ _ _ => some bytes
  | .SockEvWrite bytes => some bytes
  | .SockEvRead bytes => some bytes
  | .SockEvWritev bytes _ => some bytes
  | .SockEvReadv bytes _ => some bytes
  | .SockEvSendfile bytes => some bytes
  | _ => none

/-- The amount that the entry point of a call adds to `bytes_sent`. -/
def Call.sent_bytes (c : Call) : Nat :=
  match c with
  | .send bytes _ => bytes
  | .sendto bytes _ _ _ => bytes
  | .write bytes => bytes
  | .sendmsg msg _ => (fill_msghdr Msghdr.zero msg).2
  | .sendmmsg vmessages vlen _ => (fill_mmsghdr_vec vmessages vlen).2
  | .writev iovec iovec_count => (fill_iovec Iovec.zero iovec iovec_count).2
  | _ => 0

/-- The amount that the entry point of a call adds to `bytes_received`. -/
def Call.received_bytes (c : Call) : Nat :=
  match c with
  | .recv bytes _ => bytes
  | .recvfrom bytes _ _ _ => bytes
  | .read bytes => bytes
  | .recvmsg msg _ => (fill_msghdr Msghdr.zero msg).2
  | .recvmmsg vmessages vlen _ _ => (fill_mmsghdr_vec vmessages vlen).2
  | .readv iovec iovec_count => (fill_iovec Iovec.zero iovec iovec_count).2
  | .sendfile bytes => bytes
  | _ => 0

/-- A traced socket on fd 5: `socket(AF_INET, SOCK_STREAM, 0) -> 5` on the empty table. -/
def scenario_socket5 : World := sock_ev_socket env0 5 AF_INET SOCK_STREAM 0 World.init

/-- The largest value of `size_t`. -/
def SIZE_MAX : Nat := 2 ^ 64 - 1

/-- The state `scenario_socket5` followed by a send of `SIZE_MAX` bytes on fd 5. -/
def scenario_send_max : World := sock_ev_send env0 5 (-1) 14 SIZE_MAX 0 scenario_socket5

/-- The state `scenario_send_max` followed by a send of 2 bytes on fd 5. -/
def scenario_send_wrap : World := sock_ev_send env0 5 2 0 2 0 scenario_send_max

/-- The entry of fd 5 in `scenario_socket5`. -/
def socket5_entry : Socket := (scenario_socket5.entry 5).getD Socket.zero

/-- The entry of fd 5 in `scenario_send_max`. -/
def send_max_entry : Socket := (scenario_send_max.entry 5).getD Socket.zero

/-! ## Byte-based sampling -/

/-- The number of occupied slots of the table below the index `i`. -/
def present_below (w : World) (i : Nat) : Nat :=
  ((List.range i).filter (fun j => ra_is_present w.table j)).length

def MIN_PORT : Nat := 32768

def MAX_PORT : Nat := 60999

def EADDRINUSE : Int := 98

/-- The bytes of `htons(port)` in memory: the 16-bit port in network byte order. -/
def htons (port : Nat) : List Nat := [port / 256 % 256, port % 256]

/-- The local `struct sockaddr_in a` of `force_bind` after its three assignments:
`sin_family = AF_INET`, `sin_port = htons(port)`, `sin_addr.s_addr = INADDR_ANY`; the
member `sin_zero` is not written. -/
def force_bind_sockaddr_in (env : Env) (port : Nat) : List Nat :=
  memcpy (env.uninit_sockaddr port 16) ([2, 0] ++ htons port ++ [0, 0, 0, 0]) 8

/-- The local `struct sockaddr_in6 a` of `force_bind` after its three assignments:
`sin6_family = AF_INET6`, `sin6_port = htons(port)`, `sin6_addr = in6addr_any` (bytes 8
to 23); the members `sin6_flowinfo` and `sin6_scope_id` are not written. -/
def force_bind_sockaddr_in6 (env : Env) (port : Nat) : List Nat :=
  let a := memcpy (env.uninit_sockaddr port 28) ([10, 0] ++ htons port) 4
  a.take 8 ++ List.replicate 16 0 ++ a.drop 24

/-- The arguments `(fd, addr, len)` of the call of `orig_bind` for a port. -/
def force_bind_call (env : Env) (fd : Int) (IPV6 : Bool) (port : Nat) : Int × List Nat × Nat :=
  if IPV6 then (fd, force_bind_sockaddr_in6 env port, 28)
  else (fd, force_bind_sockaddr_in env port, 16)

/-- The result `(rc, errno)` of the call of `orig_bind` for a port. -/
def force_bind_outcome (env : Env) (fd : Int) (IPV6 : Bool) (port : Nat) : Int × Int :=
  env.orig_bind (force_bind_call env fd IPV6 port).1 (force_bind_call env fd IPV6 port).2.1
    (force_bind_call env fd IPV6 port).2.2

/-- The loop `for (int port = MIN_PORT; port <= MAX_PORT; port++)` of `force_bind` from
the value `port` of the loop variable, with `n = MAX_PORT + 1 - port` iterations left:
the return value of `force_bind` and the calls of `orig_bind` made, in order. -/
def force_bind_loop (env : Env) (fd : Int) (IPV6 : Bool) :
    Nat → Nat → Int × List (Int × List Nat × Nat)
  | 0, _ => (-1, [])
  | n + 1, port =>
      let rc := (force_bind_outcome env fd IPV6 port).1
      let errno := (force_bind_outcome env fd IPV6 port).2
      if rc == 0 then (0, [force_bind_call env fd IPV6 port])
      else if errno != EADDRINUSE then (-1, [force_bind_call env fd IPV6 port])
      else
        let r := force_bind_loop env fd IPV6 n (port + 1)
        (r.1, force_bind_call env fd IPV6 port :: r.2)

/-- The function `force_bind`: the return value and the calls of `orig_bind` made, in
order. -/
def force_bind (env : Env) (fd : Int) (_sock : Socket) (IPV6 : Bool) :
    Int × List (Int × List Nat × Nat) :=
  force_bind_loop env fd IPV6 (MAX_PORT + 1 - MIN_PORT) MIN_PORT

/-- The port in bytes 2 and 3 of a socket address (network byte order). -/
def sockaddr_port (addr : List Nat) : Nat := 256 * addr.getD 2 0 + addr.getD 3 0

/-- The environment `env0` in which the ports 32768 and 32769 are in use and every
other port can be bound. -/
def env_two_busy : Env :=
  { env0 with
    orig_bind := fun _ addr _ =>
      if sockaddr_port addr = 32768 ∨ sockaddr_port addr = 32769 then (-1, EADDRINUSE)
      else (0, 0) }

/-- The environment `env0` in which port 32768 is in use and binding port 32769 fails
with `EACCES` (13). -/
def env_bind_denied : Env :=
  { env0 with
    orig_bind := fun _ addr _ =>
      if sockaddr_port addr = 32768 then (-1, EADDRINUSE) else (-1, 13) }

/-! ## Packet-capture integration -/

/-- What `sock_start_capture` asks of its collaborators: the calls of `orig_bind` made
by `force_bind` and its return value (if it was called), the arguments
`(addr_from, addr_to)` of `alloc_capture_filter` (if it was called; `none` is a NULL
`addr_from`), and the arguments `(filter, path)` of `start_capture` (if it was called). -/
structure CaptureLog where
  bind_calls : List (Int × List Nat × Nat)
  bind_result : Option Int
  filter_call : Option (Option (List Nat) × List Nat)
  start_call : Option (List Nat × List Nat)
  deriving DecidableEq, Repr

/-- The log of a run in which no collaborator is called. -/
def CaptureLog.empty : CaptureLog :=
  { bind_calls := [], bind_result := none, filter_call := none, start_call := none }

/-- The function `sock_start_capture`, with the log of what it asks of its
collaborators. `force_bind` receives `sock` but writes nothing to it. -/
def sock_start_capture (env : Env) (fd : Nat) (addr_to : List Nat) (w : World) :
    World × CaptureLog :=
  match ra_get_and_lock_elem w.table fd with
  | none => (w, CaptureLog.empty)
  | some sock =>
      let log1 : CaptureLog :=
        if !sock.bound then
          let r := force_bind env fd sock (sa_family addr_to == AF_INET6)
          { CaptureLog.empty with bind_calls := r.2, bind_result := some r.1 }
        else CaptureLog.empty
      match env.alloc_pcap_path_str sock.id with
      | none => (w, log1)
      | some pcap_file_path =>
          let addr_from : Option (List Nat) :=
            if sock.bound then some sock.bound_addr else none
          let log2 := { log1 with filter_call := some (addr_from, addr_to) }
          match env.alloc_capture_filter addr_from addr_to with
          | none => (w, log2)
          | some capture_filter =>
              let sock2 :=
                { sock with capture_switch := env.start_capture capture_filter pcap_file_path }
              ({ w with table := ra_store w.table fd sock2 },
               { log2 with start_call := some (capture_filter, pcap_file_path) })

/-- Scenario 6 before the trigger: `socket(AF_INET, SOCK_STREAM, 0) -> 6`, no bind. -/
def scenario_socket6 : World := sock_ev_socket env0 6 AF_INET SOCK_STREAM 0 World.init

/-- Scenario 6: the outbound trigger toward 1.2.3.4:80 on the unbound fd 6, in an
environment in which every port can be bound. -/
def scenario_force_bind : World × CaptureLog :=
  sock_start_capture env0 6 addr_1234_80 scenario_socket6

/-- The trigger toward 1.2.3.4:80 on fd 5 of scenario 1, bound to 0.0.0.0:8080. -/
def scenario_capture_bound : World × CaptureLog :=
  sock_start_capture env0 5 addr_1234_80 scenario1_before_close

/-- The bytes of the `struct sockaddr_in` for 0.0.0.0:32768, the first candidate of
`force_bind`. -/
def addr_any_32768 : List Nat := [2, 0, 128, 0, 0, 0, 0, 0, 0, 0, 0, 0, 0, 0, 0, 0]

/-! ## The classes of `fcntl` commands -/

/-- The case labels of the `switch` of `sock_ev_fcntl` with no argument. -/
def fcntl_void_arg (cmd : Int) : Bool :=
  cmd == F_GETFD || cmd == F_GETFL || cmd == F_GETOWN || cmd == F_GETSIG ||
    cmd == F_GETLEASE || cmd == F_GETPIPE_SZ

/-- The case labels of the `switch` of `sock_ev_fcntl` whose argument is a
`struct flock *` (with the open-file-description variants of glibc above 2.17). -/
def fcntl_flock_arg (cmd : Int) : Bool :=
  cmd == F_SETLK || cmd == F_SETLKW || cmd == F_GETLK || cmd == F_OFD_SETLK ||
    cmd == F_OFD_SETLKW || cmd == F_OFD_GETLK

/-- The case labels of the `switch` of `sock_ev_fcntl` whose argument is a
`struct f_owner_ex *`. -/
def fcntl_owner_ex_arg (cmd : Int) : Bool :=
  cmd == F_GETOWN_EX || cmd == F_SETOWN_EX

/-- Whether `cmd` reaches the `default` label of the `switch` of `sock_ev_fcntl`. -/
def fcntl_unknown (cmd : Int) : Bool :=
  !(fcntl_void_arg cmd || fcntl_int_arg cmd || fcntl_flock_arg cmd || fcntl_owner_ex_arg cmd)

/-- The state `scenario_socket5` followed by `fcntl(5, 1034) -> -1` with errno 22
(`F_GET_SEALS`, refused with `EINVAL` on a socket), a command of no known class. -/
def scenario_fcntl_unknown : World := sock_ev_fcntl env0 5 (-1) 22 1034 0 scenario_socket5

/-- The state `scenario_socket5` followed by `poll` on fd 5 with a timeout of 1500 ms. -/
def scenario_poll_1500 : World := sock_ev_poll env0 5 1 0 1 1 1500 scenario_socket5

/-- The timeout recorded on the last event of the entry at a descriptor, if that event
is a poll event. -/
def World.last_poll_timeout (w : World) (fd : Nat) : Option Timeout :=
  match (w.events fd).getLast? with
  | some e =>
      match e.payload with
      | .SockEvPoll t _ _ => some t
      | _ => none
  | none => none

/-! ## Dumping -/

/-- The lines that a complete dump of the entry at a descriptor writes: its events in
list order, each with the connection id of the entry (none if the slot is empty). -/
def World.dump_lines (w : World) (fd : Nat) : List (Nat × SockEvent) :=
  match w.entry fd with
  | some s => s.events.map (fun e => (s.id, e))
  | none => []

/-! ## Table operations and per-slot locks -/

/-- A call of the table interface made by the recording engine. `get_and_lock i found`
is a call `ra_get_and_lock_elem(i)`, `found` telling whether the slot held an entry;
`nested` marks the call of `tcp_dump_tcp_info` in `SOCK_EV_POSTLUDE`. -/
inductive TableOp where
  | is_present (i : Int)
  | put (i : Int)
  | remove (i : Int)
  | get_and_lock (i : Int) (found : Bool)
  | unlock (i : Int)
  | nested
  deriving DecidableEq, Repr

/-- Modelled from the spec: the per-slot locks that the calling thread holds after a
call of the table interface. `get_and_lock` acquires the lock of an occupied slot (it
returns "absent" for an empty one), `unlock` releases the lock of the slot, and the
other calls return with the locks of the thread as they were. -/
def TableOp.step (held : List Int) (op : TableOp) : List Int :=
  match op with
  | .get_and_lock i true => i :: held
  | .unlock i => held.erase i
  | _ => held

/-- The per-slot locks held after a sequence of calls, starting with none. -/
def held_after (ops : List TableOp) : List Int := ops.foldl TableOp.step []

/-- The table calls of `sock_ev_ghost_socket`: `ra_put_elem(fd, sock)`. -/
def ghost_ops (fd : Nat) : List TableOp := [.put fd]

/-- The table calls of `SOCK_EV_PRELUDE` in the state `w`: `ra_is_present(fd)`, the
calls of `sock_ev_ghost_socket` if the fd is absent, `ra_get_and_lock_elem(fd)`. -/
def prelude_ops (env : Env) (fd : Nat) (w : World) : List TableOp :=
  [.is_present fd] ++ (if ra_is_present w.table fd then [] else ghost_ops fd)
    ++ [.get_and_lock fd (ra_is_present (after_ghost env fd w).table fd)]

/-- The table calls of `DUP_SOCKET`: `ra_unlock_elem(fd)`, `ra_put_elem(ret, new_sock)`,
`ra_get_and_lock_elem(fd)`; `l` holds the locals after the block. -/
def dup_ops (fd : Nat) (ret : Int) (l : Locals) : List TableOp :=
  [.unlock fd, .put ret, .get_and_lock fd (ra_is_present l.w.table fd)]

/-- The table calls of `sock_ev_tcp_info` in the state `w`: those of its prelude, then
`ra_unlock_elem(fd)` of its postlude, whose sampling decision is false. -/
def tcp_info_ops (env : Env) (fd : Nat) (w : World) : List TableOp :=
  prelude_ops env fd w ++ [.unlock fd]

/-- The table calls of `SOCK_EV_POSTLUDE`: `ra_unlock_elem(fd)`, then, if
`dump_tcp_info` is set, the calls of `tcp_dump_tcp_info(fd)`. -/
def postlude_ops (env : Env) (ev_type_cons : SockEventType) (fd : Nat) (l : Locals) :
    List TableOp :=
  [.unlock fd] ++
    (if sample_fires env ev_type_cons fd l then
      .nested :: tcp_info_ops env fd (SOCK_EV_POSTLUDE_locked env ev_type_cons fd l).2
     else [])

/-- The locals handed to `SOCK_EV_POSTLUDE` by the entry point of the call `c`. -/
def sock_ev_locals (env : Env) (fd : Nat) (ret err : Int) (c : Call) (w : World) : Locals :=
  let r := c.retval ret
  let b := c.body env r (SOCK_EV_PRELUDE env c.evType fd r err w)
  if c.dups r then DUP_SOCKET env c.evType fd r err b else b

/-- The table calls of the entry point of the call `c`, in program order: prelude,
`DUP_SOCKET` if it runs, postlude, and `ra_remove_elem(fd)` of `free_and_dump_socket`
for close. -/
def sock_ev_ops (env : Env) (fd : Nat) (ret err : Int) (c : Call) (w : World) :
    List TableOp :=
  let l := sock_ev_locals env fd ret err c w
  prelude_ops env fd w
    ++ (if c.dups (c.retval ret) then dup_ops fd (c.retval ret) l else [])
    ++ postlude_ops env c.consType fd l
    ++ (if c = Call.close then [.remove fd] else [])

/-- The table calls of `sock_start_capture`: `ra_get_and_lock_elem(fd)` and, on every
path, `ra_unlock_elem(fd)`. -/
def start_capture_ops (fd : Nat) (w : World) : List TableOp :=
  [.get_and_lock fd (ra_is_present w.table fd), .unlock fd]

/-- The discipline of a sequence of table calls, checked call by call from the locks
`held`: at most one lock is held at any moment; `put`, `remove` and the nested
recording happen with no lock held; `unlock` releases a lock that is held; at the end
no lock is held. -/
def disciplined : List TableOp → List Int → Bool
  | [], held => held.isEmpty
  | op :: rest, held =>
      let ok :=
        match op with
        | .put _ => held.isEmpty
        | .remove _ => held.isEmpty
        | .nested => held.isEmpty
        | .get_and_lock _ _ => held.isEmpty
        | .unlock i => held.contains i
        | .is_present _ => true
      ok && decide ((TableOp.step held op).length ≤ 1) && disciplined rest (TableOp.step held op)

/-! ## The sampling decision on large totals -/

/-- The state `scenario_socket5` followed by a send of 2^63 requested bytes on fd 5,
recorded with `ret = -1`, under a byte threshold of 10 for TCP-info sampling. -/
def scenario_send_half : World := sock_ev_send env_sampling 5 (-1) 14 (2 ^ 63) 0 scenario_socket5

/-- The entry of fd 5 in `scenario_send_half`. -/
def send_half_entry : Socket := (scenario_send_half.entry 5).getD Socket.zero

/-- The state `scenario_socket5` followed by a send of 100 bytes on fd 5. -/
def scenario_send100 : World := sock_ev_send env0 5 100 0 100 0 scenario_socket5

/-- The entry of fd 5 in `scenario_send100`. -/
def send100_entry : Socket := (scenario_send100.entry 5).getD Socket.zero

/-! ## The tag of the getsockopt postlude -/

/-- The variant that `sock_ev_getsockopt` is compared with: the same prelude and the
same body, the postlude given `SOCK_EV_GETSOCKOPT` in place of `SOCK_EV_SETSOCKOPT`. -/
def sock_ev_getsockopt_variant (env : Env) (fd : Nat) (ret err : Int) (level optname : Int)
    (optval : List Nat) (optlen : Nat) (w : World) : World :=
  let p := SOCK_EV_PRELUDE env SOCK_EV_GETSOCKOPT fd ret err w
  let ev := { p.ev with payload := .SockEvGetsockopt (fill_sockopt level optname optval optlen) }
  SOCK_EV_POSTLUDE env SOCK_EV_GETSOCKOPT fd { p with ev := ev }

/-! ## Vectored writes -/

/-- The state `scenario_socket5` followed by a `writev` on fd 5 of one buffer of 2^32
bytes, recorded with `ret = -1`. -/
def scenario_writev_4g : World :=
  sock_ev_writev env0 5 (-1) 14 [4294967296] 1 scenario_socket5

/-- The state `scenario_socket5` followed by a `readv` on fd 5 into two buffers of 2^31
bytes each. -/
def scenario_readv_4g : World :=
  sock_ev_readv env0 5 (-1) 14 [2147483648, 2147483648] 2 scenario_socket5

/-! ## The descriptor 0 -/

/-- The call `socket(AF_INET, SOCK_STREAM, 0) -> 0` in a process whose descriptor 0 is
free. -/
def scenario_socket0 : World := sock_ev_socket env0 0 AF_INET SOCK_STREAM 0 World.init

/-- The state `scenario_socket4` followed by `accept(4) -> 0`. -/
def scenario_accept0 : World := sock_ev_accept env0 4 0 0 none 0 scenario_socket4

/-- The type, return value and `success` of the events held by the entry at a
descriptor, oldest first. -/
def World.event_outcomes (w : World) (fd : Nat) : List (SockEventType × Int × Bool) :=
  (w.events fd).map (fun e => (e.type, e.return_value, e.success))

/-! ## A failed TCP-info query -/

/-- The environment `env0` with a byte threshold of 10 for TCP-info sampling, in which
the TCP-info query fails with `EBADF` and the block returned by `my_malloc` holds 999
in `tcpi_rtt`. -/
def env_tcp_info_fails : Env :=
  { env0 with
    conf_opt_b := 10, getsockopt_tcp_info := fun _ => none,
    uninit_tcp_info := { tcpi_rtt := 999, other := [] }, errno := 9 }

/-- The state `scenario_socket5` with a capture started on fd 5, followed by a send of
100 bytes whose nested sample is obtained from the kernel (smoothed RTT 7). -/
def scenario_sampled : World :=
  sock_ev_send env_sampling 5 100 0 100 0
    (sock_start_capture env0 5 addr_1234_80 scenario_socket5).1

/-- The state `scenario_sampled` followed by a send of 100 bytes whose nested sample
fails. -/
def scenario_sample_failed : World := sock_ev_send env_tcp_info_fails 5 100 0 100 0 scenario_sampled

/-- The state `scenario_sample_failed` followed by `close(5) -> 0`. -/
def scenario_sample_failed_closed : World := sock_ev_close env0 5 0 0 scenario_sample_failed

/-- The smoothed RTT cached by the entry at a descriptor. -/
def World.rtt (w : World) (fd : Nat) : Option Int := (w.entry fd).map (fun s => s.rtt)

/-! ## A dump that stops early -/

/-- The environment `env0` in which a bind event cannot be serialized, and in which a
freed node is reused by the next allocation, so that a traversal from a `head` left on
a freed node finds none of the events the list held. -/
def env_json_fails : Env :=
  { env0 with
    alloc_sock_ev_json := fun ev => ev.type != SOCK_EV_BIND, freed_head := fun _ _ => [] }

/-- The state `scenario_socket5` followed by a bind and a send on fd 5: the entry holds
the events socket, bind, send. -/
def scenario_three_events : World :=
  sock_ev_send env0 5 100 0 100 0 (sock_ev_bind env0 5 0 0 addr_any_8080 16 scenario_socket5)

/-- The entry of fd 5 in `scenario_three_events`. -/
def three_events_entry : Socket := (scenario_three_events.entry 5).getD Socket.zero

/-- The state `scenario_three_events` after `dump_all_sock_events` stopped at the bind
event. -/
def scenario_dump_stopped : World := dump_all_sock_events env_json_fails scenario_three_events

/-- The state `scenario_dump_stopped` followed by `close(5) -> 0`, every event being
serializable by then. -/
def scenario_dump_again : World := sock_ev_close env0 5 0 0 scenario_dump_stopped

/-! ## `lib.c`: `get_int_len` -/

/-- The loop of `get_int_len`: `while (i > 9) { l++; i = i / 10; }`, with `fuel` bounding
the number of iterations; `none` when the bound is reached. -/
def get_int_len_loop : Nat → Int → Int → Option Int
  | 0, _, _ => none
  | fuel + 1, i, l => if i > 9 then get_int_len_loop fuel (i.tdiv 10) (l + 1) else some l

/-- The function `get_int_len` run with at most `fuel - 1` iterations of its loop. -/
def get_int_len_fuel (fuel : Nat) (i : Int) : Option Int :=
  if i < 0 then some 0 else get_int_len_loop fuel i 1

/-- The function `get_int_len`, given as many iterations as the value of its argument
allows. -/
def get_int_len (i : Int) : Option Int := get_int_len_fuel (i.toNat + 1) i

/-- The largest value of `int`. -/
def INT_MAX : Int := 2 ^ 31 - 1

/-- The smallest value of `int`. -/
def INT_MIN : Int := -(2 ^ 31)

/-! # Theorems -/

theorem sock_ev_tcp_info_locked (env : Env) (fd : Nat) (l : Locals) :
    (SOCK_EV_POSTLUDE_locked env SOCK_EV_TCP_INFO fd l).1 = false := by
  simp [SOCK_EV_POSTLUDE_locked]

theorem postlude_tcp_info (env : Env) (fd : Nat) (l : Locals) :
    SOCK_EV_POSTLUDE env SOCK_EV_TCP_INFO fd l
      = (SOCK_EV_POSTLUDE_locked env SOCK_EV_TCP_INFO fd l).2 := by
  simp [SOCK_EV_POSTLUDE, sock_ev_tcp_info_locked]

theorem sock_ev_tcp_info_eq (env : Env) (fd : Nat) (ret err : Int) (info : TcpInfo) (w : World) :
    sock_ev_tcp_info env fd ret err info w
      = SOCK_EV_POSTLUDE env SOCK_EV_TCP_INFO fd
          ((Call.tcp_info info).body env ret (SOCK_EV_PRELUDE env SOCK_EV_TCP_INFO fd ret err w)) := by
  rw [postlude_tcp_info]
  simp [sock_ev_tcp_info, sock_ev_tcp_info_fuel, sock_ev_tcp_info_locked, Call.body,
    Call.sockBody, Call.payload]

/-- The depth bound of `sock_ev_tcp_info_fuel` is never reached: with any positive
bound the result is that of `sock_ev_tcp_info`. -/
theorem sock_ev_tcp_info_fuel_succ (env : Env) (n fd : Nat) (ret err : Int) (info : TcpInfo)
    (w : World) :
    sock_ev_tcp_info_fuel env (n + 1) fd ret err info w
      = sock_ev_tcp_info env fd ret err info w := by
  simp [sock_ev_tcp_info, sock_ev_tcp_info_fuel, sock_ev_tcp_info_locked]

theorem sock_ev_eq_shape (env : Env) (fd : Nat) (ret err : Int) (c : Call) (w : World) :
    sock_ev env fd ret err c w = sock_ev_shape env fd ret err c w := by
  cases c <;> try rfl
  case tcp_info info =>
    simp [sock_ev, sock_ev_shape, sock_ev_tcp_info_eq, Call.retval, Call.dups, Call.evType,
      Call.consType]

/-! ## Clock reads leave the rest of the state alone -/

@[simp]
theorem get_time_micros_snd (env : Env) (w : World) :
    (get_time_micros env w).2 = { w with ticks := w.ticks + 1 } := by
  unfold get_time_micros
  split <;> rfl

@[simp]
theorem alloc_event_snd (env : Env) (w : World) (T : SockEventType) (r e : Int) (i : Nat) :
    (alloc_event env w T r e i).2 = { w with ticks := w.ticks + 1 } := by
  simp [alloc_event]

@[simp]
theorem alloc_event_type (env : Env) (w : World) (T : SockEventType) (r e : Int) (i : Nat) :
    (alloc_event env w T r e i).1.type = T := rfl

@[simp]
theorem alloc_event_id (env : Env) (w : World) (T : SockEventType) (r e : Int) (i : Nat) :
    (alloc_event env w T r e i).1.id = i := rfl

@[simp]
theorem alloc_event_return_value (env : Env) (w : World) (T : SockEventType) (r e : Int)
    (i : Nat) : (alloc_event env w T r e i).1.return_value = r := rfl

@[simp]
theorem alloc_event_err (env : Env) (w : World) (T : SockEventType) (r e : Int)
    (i : Nat) : (alloc_event env w T r e i).1.err = e := rfl

theorem should_dump_snd (env : Env) (w : World) (s : Socket) :
    ∃ n, (should_dump_tcp_info env w s).2 = { w with ticks := n } := by
  refine ⟨(should_dump_tcp_info env w s).2.ticks, ?_⟩
  unfold should_dump_tcp_info
  by_cases h1 : is_tcp_socket env s.fd
  · by_cases h2 : env.conf_opt_u > 0
    · by_cases h3 : long_sub (to_long (get_time_micros env w).1) s.last_info_dump_micros
          > env.conf_opt_u
      · simp [h1, h2, h3]
      · by_cases h4 : env.conf_opt_b > 0 <;> simp [h1, h2, h3, h4]
    · by_cases h4 : env.conf_opt_b > 0 <;> simp [h1, h2, h4]
  · simp [h1]

theorem should_dump_disabled (env : Env) (w : World) (s : Socket) (h : sampling_disabled env) :
    (should_dump_tcp_info env w s).1 = false := by
  obtain ⟨hu, hb⟩ := h
  unfold should_dump_tcp_info
  have h2 : ¬ env.conf_opt_u > 0 := by omega
  have h3 : ¬ env.conf_opt_b > 0 := by omega
  split
  · rfl
  · simp [h2, h3]

theorem sample_fires_disabled (env : Env) (cons : SockEventType) (fd : Nat) (l : Locals)
    (h : sampling_disabled env) : sample_fires env cons fd l = false := by
  simp [sample_fires, SOCK_EV_POSTLUDE_locked, should_dump_disabled _ _ _ h]

theorem sample_fires_tcp_info (env : Env) (fd : Nat) (l : Locals) :
    sample_fires env SOCK_EV_TCP_INFO fd l = false :=
  sock_ev_tcp_info_locked env fd l

/-! ## The table under the operations of the engine -/

theorem ra_get_put (a : ResizableArray) (i j : Nat) (s : Socket) :
    ra_get_and_lock_elem (ra_put_elem a (i : Int) s) j
      = if j = i then some s else ra_get_and_lock_elem a j := by
  unfold ra_get_and_lock_elem ra_put_elem
  have h0 : ¬ ((i : Int) < 0) := by omega
  simp only [h0, if_false, Int.toNat_ofNat, List.get?_eq_getElem?]
  rw [List.getElem?_set]
  by_cases hji : j = i
  · subst hji
    have hlen : j < a.slots.length + (j + 1 - a.slots.length) := by omega
    simp [hlen]
  · have hij : ¬ i = j := fun h => hji h.symm
    simp only [hij, hji, if_false]
    by_cases hlt : j < a.slots.length
    · rw [List.getElem?_append_left hlt]
    · rw [List.getElem?_append_right (by omega), List.getElem?_replicate]
      have : a.slots[j]? = none := List.getElem?_eq_none (by omega)
      rw [this]
      split <;> rfl

theorem ra_put_neg (a : ResizableArray) (i : Int) (s : Socket) (h : i < 0) :
    ra_put_elem a i s = a := by
  simp [ra_put_elem, h]

theorem ra_get_store (a : ResizableArray) (i j : Nat) (s : Socket)
    (h : ra_is_present a i = true) :
    ra_get_and_lock_elem (ra_store a i s) j
      = if j = i then some s else ra_get_and_lock_elem a j := by
  unfold ra_is_present ra_get_and_lock_elem at h
  unfold ra_get_and_lock_elem ra_store
  simp only [List.get?_eq_getElem?] at h ⊢
  rw [List.getElem?_set]
  by_cases hji : j = i
  · subst hji
    have hlt : j < a.slots.length := by
      by_contra hc
      have : a.slots[j]? = none := List.getElem?_eq_none (by omega)
      rw [this] at h
      simp at h
    simp [hlt]
  · have hij : ¬ i = j := fun h => hji h.symm
    simp [hij, hji]

theorem ra_get_store_ne (a : ResizableArray) (i j : Nat) (s : Socket) (h : j ≠ i) :
    ra_get_and_lock_elem (ra_store a i s) j = ra_get_and_lock_elem a j := by
  unfold ra_get_and_lock_elem ra_store
  simp only [List.get?_eq_getElem?]
  rw [List.getElem?_set]
  have hij : ¬ i = j := fun h2 => h h2.symm
  simp [hij]

theorem ra_store_store (a : ResizableArray) (i : Nat) (s t : Socket) :
    ra_store (ra_store a i s) i t = ra_store a i t := by
  simp [ra_store, List.set_set]

theorem ra_store_self (a : ResizableArray) (i : Nat) (s : Socket)
    (h : ra_get_and_lock_elem a i = some s) : ra_store a i s = a := by
  unfold ra_get_and_lock_elem at h
  unfold ra_store
  simp only [List.get?_eq_getElem?] at h
  have hlt : i < a.slots.length := by
    by_contra hc
    have : a.slots[i]? = none := List.getElem?_eq_none (by omega)
    rw [this] at h
    simp at h
  have h2 : a.slots[i] = some s := by
    rw [List.getElem?_eq_getElem hlt] at h
    simpa using h
  cases a with
  | mk slots =>
    simp only [ResizableArray.mk.injEq]
    simp only at h2 hlt
    apply List.ext_getElem?
    intro j
    rw [List.getElem?_set]
    by_cases hij : i = j
    · subst hij
      simp [hlt, h2]
    · simp [hij]

theorem ra_get_remove (a : ResizableArray) (i j : Nat) :
    ra_get_and_lock_elem (ra_remove_elem a i).2 j
      = if j = i then none else ra_get_and_lock_elem a j := by
  unfold ra_get_and_lock_elem ra_remove_elem
  simp only [List.get?_eq_getElem?]
  rw [List.getElem?_set]
  by_cases hji : j = i
  · subst hji
    by_cases hlt : j < a.slots.length <;> simp [hlt]
  · have hij : ¬ i = j := fun h => hji h.symm
    simp [hij, hji]

theorem ra_remove_fst (a : ResizableArray) (i : Nat) :
    (ra_remove_elem a i).1 = ra_get_and_lock_elem a i := rfl

theorem ra_is_present_iff (a : ResizableArray) (i : Nat) :
    ra_is_present a i = true ↔ ∃ s, ra_get_and_lock_elem a i = some s := by
  unfold ra_is_present
  exact Option.isSome_iff_exists

theorem ra_is_present_of_get (a : ResizableArray) (i : Nat) (s : Socket)
    (h : ra_get_and_lock_elem a i = some s) : ra_is_present a i = true :=
  (ra_is_present_iff a i).2 ⟨s, h⟩

theorem ra_not_present_of_get (a : ResizableArray) (i : Nat)
    (h : ra_get_and_lock_elem a i = none) : ra_is_present a i = false := by
  simp [ra_is_present, h]

/-! ## Prelude and postlude -/

theorem ghost_table (env : Env) (fd : Nat) (w : World) :
    (sock_ev_ghost_socket env fd w).table = ra_put_elem w.table fd (ghost_sock env fd w) := by
  simp [sock_ev_ghost_socket, ghost_sock, ghost_event, alloc_socket]

theorem ghost_entry (env : Env) (fd : Nat) (w : World) :
    (sock_ev_ghost_socket env fd w).entry fd = some (ghost_sock env fd w) := by
  simp [World.entry, ghost_table, ra_get_put]

theorem prelude_present (env : Env) (T : SockEventType) (fd : Nat) (ret err : Int) (w : World)
    (s : Socket) (h : w.entry fd = some s) :
    SOCK_EV_PRELUDE env T fd ret err w
      = { w := { w with ticks := w.ticks + 1 }, sock := s,
          ev := (alloc_event env w T ret err s.events_count).1 } := by
  have hp := ra_is_present_of_get _ _ _ h
  unfold World.entry at h
  simp [SOCK_EV_PRELUDE, hp, h]

theorem prelude_absent (env : Env) (T : SockEventType) (fd : Nat) (ret err : Int) (w : World)
    (h : w.entry fd = none) :
    SOCK_EV_PRELUDE env T fd ret err w
      = { w := { sock_ev_ghost_socket env fd w with
                 ticks := (sock_ev_ghost_socket env fd w).ticks + 1 },
          sock := ghost_sock env fd w,
          ev := (alloc_event env (sock_ev_ghost_socket env fd w) T ret err 1).1 } := by
  have hp := ra_not_present_of_get _ _ h
  have hg := ghost_entry env fd w
  unfold World.entry at hg
  simp [SOCK_EV_PRELUDE, hp, hg]
  simp [ghost_sock, push_event, alloc_socket, Socket.zero]
theorem locked_snd (env : Env) (cons : SockEventType) (fd : Nat) (l : Locals) :
    ∃ n, (SOCK_EV_POSTLUDE_locked env cons fd l).2
      = { l.w with table := ra_store l.w.table fd (push_event l.sock l.ev),
                   emitted := l.w.emitted ++ [l.ev], ticks := n } := by
  unfold SOCK_EV_POSTLUDE_locked
  obtain ⟨n, hn⟩ := should_dump_snd env
    { l.w with table := ra_store l.w.table fd (push_event l.sock l.ev),
               emitted := l.w.emitted ++ [l.ev] } (push_event l.sock l.ev)
  exact ⟨n, by simp only [hn]⟩

theorem tcp_dump_effect (env : Env) (fd : Nat) (w : World) (s : Socket)
    (h : w.entry fd = some s) :
    ∃ (n : Nat) (t : SockEvent) (s2 : Socket),
      tcp_dump_tcp_info env fd w
        = { w with table := ra_store w.table fd s2, emitted := w.emitted ++ [t], ticks := n } ∧
      t.type = SOCK_EV_TCP_INFO ∧ t.id = s.events_count ∧
      s2.events = s.events ++ [t] ∧ s2.events_count = s.events_count + 1 ∧
      s2.id = s.id ∧ s2.fd = s.fd ∧ s2.sock_info = s.sock_info ∧ s2.bound = s.bound ∧
      s2.bound_addr = s.bound_addr ∧ s2.bytes_sent = s.bytes_sent ∧
      s2.bytes_received = s.bytes_received ∧ s2.capture_switch = s.capture_switch := by
  unfold tcp_dump_tcp_info
  rw [sock_ev_tcp_info_eq, postlude_tcp_info, prelude_present env _ fd _ _ w s h]
  generalize hb : (Call.tcp_info (fill_tcp_info env fd).2).body env (fill_tcp_info env fd).1
      { w := { w with ticks := w.ticks + 1 }, sock := s,
        ev := (alloc_event env w SOCK_EV_TCP_INFO (fill_tcp_info env fd).1 env.errno
          s.events_count).1 } = b
  obtain ⟨n, hn⟩ := locked_snd env SOCK_EV_TCP_INFO fd b
  refine ⟨n, b.ev, push_event b.sock b.ev, ?_, ?_⟩
  · rw [hn, ← hb]
    simp [Call.body]
  · rw [← hb]
    simp [Call.body, Call.sockBody, push_event]

theorem postlude_effect (env : Env) (cons : SockEventType) (fd : Nat) (l : Locals)
    (hp : ra_is_present l.w.table fd = true) :
    ∃ s' rest, PostEffect env cons fd l (SOCK_EV_POSTLUDE env cons fd l) s' rest := by
  obtain ⟨n, hn⟩ := locked_snd env cons fd l
  by_cases hf : sample_fires env cons fd l = true
  · have hf2 : (SOCK_EV_POSTLUDE_locked env cons fd l).1 = true := hf
    have hent : (SOCK_EV_POSTLUDE_locked env cons fd l).2.entry fd
        = some (push_event l.sock l.ev) := by
      rw [hn]
      simp [World.entry, ra_get_store _ _ _ _ hp]
    obtain ⟨m, t, s2, hw, ht, hid, hev, hcnt, h1, h2, h3, h4, h5, h6, h7, h8⟩ :=
      tcp_dump_effect env fd _ _ hent
    have hres : SOCK_EV_POSTLUDE env cons fd l
        = tcp_dump_tcp_info env fd (SOCK_EV_POSTLUDE_locked env cons fd l).2 := by
      simp [SOCK_EV_POSTLUDE, hf2]
    rw [hres, hw, hn]
    refine ⟨s2, [t], ?_⟩
    constructor
    · simp [ra_store_store]
    · simp
    · rfl
    · rfl
    · rfl
    · simp [hev, push_event]
    · simp [hcnt, push_event]
    · simp [h1, push_event]
    · simp [h2, push_event]
    · simp [h3, push_event]
    · simp [h4, push_event]
    · simp [h5, push_event]
    · simp [h6, push_event]
    · simp [h7, push_event]
    · simp [h8, push_event]
    · right
      exact ⟨t, rfl, ht, by simp [hid, push_event]⟩
    · intro hq
      rw [hq] at hf
      exact absurd hf (by decide)
    · intro _
      simp
  · have hf1 : sample_fires env cons fd l = false := by simpa using hf
    have hf2 : (SOCK_EV_POSTLUDE_locked env cons fd l).1 = false := hf1
    have hres : SOCK_EV_POSTLUDE env cons fd l = (SOCK_EV_POSTLUDE_locked env cons fd l).2 := by
      simp [SOCK_EV_POSTLUDE, hf2]
    rw [hres, hn]
    refine ⟨push_event l.sock l.ev, [], ?_⟩
    constructor <;> simp [push_event, hf1]

/-! ## The block `DUP_SOCKET` and the anatomy of an entry point -/

theorem dup_socket_eq (env : Env) (T : SockEventType) (fd : Nat) (ret err : Int) (l : Locals) :
    DUP_SOCKET env T fd ret err l
      = { w := { l.w with
                 table := ra_put_elem (ra_store l.w.table fd l.sock) ret (dup_sock ret l),
                 connections_count := l.w.connections_count + 1,
                 ticks := l.w.ticks + 1 },
          sock := (ra_get_and_lock_elem
                    (ra_put_elem (ra_store l.w.table fd l.sock) ret (dup_sock ret l)) fd).getD
                    Socket.zero,
          ev := l.ev } := by
  simp [DUP_SOCKET, dup_sock, dup_event, memcpy_event, alloc_socket]

theorem body_w (env : Env) (c : Call) (r : Int) (p : Locals) :
    ∃ n, (c.body env r p).w = { p.w with ticks := n } := by
  cases c <;> first | exact ⟨p.w.ticks, rfl⟩ | exact ⟨p.w.ticks + 1, by simp [Call.body]⟩

theorem body_ev (env : Env) (c : Call) (r : Int) (p : Locals) :
    (c.body env r p).ev = { p.ev with payload := c.payload r } := by
  cases c <;> rfl

theorem body_sock (env : Env) (c : Call) (r : Int) (p : Locals) :
    ∃ now, (c.body env r p).sock = c.sockBody r now p.sock := by
  cases c <;> first | exact ⟨0, rfl⟩ | exact ⟨(get_time_micros env p.w).1, rfl⟩

theorem sockBody_of_isDup (c : Call) (r : Int) (now : Nat) (s : Socket) (h : c.isDup = true) :
    c.sockBody r now s = s := by
  cases c <;> first | rfl | simp [Call.isDup] at h

theorem sockBody_frame (c : Call) (r : Int) (now : Nat) (s : Socket) :
    (c.sockBody r now s).events = s.events ∧
      (c.sockBody r now s).events_count = s.events_count ∧
      (c.sockBody r now s).id = s.id ∧ (c.sockBody r now s).fd = s.fd ∧
      (c.sockBody r now s).sock_info = s.sock_info ∧
      (c.sockBody r now s).capture_switch = s.capture_switch := by
  cases c <;> simp [Call.sockBody, add_bytes_sent, add_bytes_received]
  split <;> simp

theorem retval_of_isDup (c : Call) (r : Int) (h : c.isDup = true) : c.retval r = r := by
  cases c <;> first | rfl | simp [Call.isDup] at h

theorem dups_of_isDup (c : Call) (r : Int) (h : c.isDup = true) :
    c.dups r = (r != -1) := by
  cases c <;> first | rfl | simp [Call.isDup] at h
  case fcntl cmd arg =>
    rcases h with h | h <;> simp [Call.dups, h]

theorem isDup_ne_close (c : Call) (h : c.isDup = true) : c ≠ Call.close := by
  intro hc
  subst hc
  simp [Call.isDup] at h

theorem consType_of_isDup (c : Call) (h : c.isDup = true) : c.consType = c.evType := by
  cases c <;> first | rfl | simp [Call.isDup] at h

theorem after_ghost_entry (env : Env) (fd : Nat) (w : World) :
    ∃ s0, (after_ghost env fd w).entry fd = some s0 := by
  unfold after_ghost
  by_cases hp : ra_is_present w.table fd = true
  · simp only [hp, if_true]
    exact (ra_is_present_iff _ _).1 hp
  · simp only [hp]
    exact ⟨_, ghost_entry env fd w⟩

theorem after_ghost_present (env : Env) (fd : Nat) (w : World) (s : Socket)
    (h : w.entry fd = some s) : after_ghost env fd w = w := by
  simp [after_ghost, ra_is_present_of_get _ _ _ h]

theorem after_ghost_absent (env : Env) (fd : Nat) (w : World) (h : w.entry fd = none) :
    after_ghost env fd w = sock_ev_ghost_socket env fd w := by
  simp [after_ghost, ra_not_present_of_get _ _ h]

theorem prelude_eq (env : Env) (T : SockEventType) (fd : Nat) (ret err : Int) (w : World)
    (s0 : Socket) (h : (after_ghost env fd w).entry fd = some s0) :
    SOCK_EV_PRELUDE env T fd ret err w
      = { w := { after_ghost env fd w with ticks := (after_ghost env fd w).ticks + 1 },
          sock := s0,
          ev := (alloc_event env (after_ghost env fd w) T ret err s0.events_count).1 } := by
  by_cases hp : ra_is_present w.table fd = true
  · obtain ⟨s, hs⟩ := (ra_is_present_iff _ _).1 hp
    have hag := after_ghost_present env fd w s hs
    rw [hag] at h ⊢
    exact prelude_present env T fd ret err w s0 h
  · have hn : w.entry fd = none := by
      unfold World.entry
      cases hg : ra_get_and_lock_elem w.table fd with
      | none => rfl
      | some s => exact absurd (ra_is_present_of_get _ _ _ hg) hp
    have hag := after_ghost_absent env fd w hn
    rw [hag] at h ⊢
    rw [ghost_entry] at h
    have hs0 : s0 = ghost_sock env fd w := by
      injection h with h
      exact h.symm
    rw [prelude_absent env T fd ret err w hn, hs0]
    simp [ghost_sock, push_event, alloc_socket, Socket.zero]

theorem dup_sock_eq_fresh (ret : Int) (l : Locals) :
    dup_sock ret l = fresh_sock l.w.connections_count ret l.sock.sock_info (dup_event l) := by
  simp [dup_sock, fresh_sock, alloc_socket]

theorem ghost_sock_eq_fresh (env : Env) (fd : Nat) (w : World) :
    ghost_sock env fd w
      = fresh_sock w.connections_count fd (fill_sock_info_from_fd env SockInfo.zero fd)
          (ghost_event env fd w) := by
  simp [ghost_sock, fresh_sock, alloc_socket]

theorem isDup_of_dups (c : Call) (r : Int) (h : c.dups r = true) : c.isDup = true := by
  cases c <;> first | rfl | simp [Call.dups] at h
  case fcntl cmd arg =>
    simp only [Call.isDup, Bool.or_eq_true, beq_iff_eq]
    exact h.1

theorem ra_present_put (a : ResizableArray) (r : Int) (n : Socket) (fd : Nat)
    (h : ra_is_present a fd = true) : ra_is_present (ra_put_elem a r n) fd = true := by
  by_cases hr : r < 0
  · rw [ra_put_neg _ _ _ hr]
    exact h
  · have hr2 : r = ((r.toNat : Nat) : Int) := by omega
    rw [hr2]
    unfold ra_is_present
    rw [ra_get_put]
    split
    · rfl
    · exact h

theorem sock_ev_anatomy (env : Env) (fd : Nat) (ret err : Int) (c : Call) (w : World)
    (s0 : Socket) (h0 : (after_ghost env fd w).entry fd = some s0) :
    ∃ l : Locals, Anatomy env fd ret err c (after_ghost env fd w) s0 l ∧
      sock_ev env fd ret err c w
        = if c = Call.close then
            free_and_dump_socket env fd (SOCK_EV_POSTLUDE env c.consType fd l)
          else SOCK_EV_POSTLUDE env c.consType fd l := by
  rw [sock_ev_eq_shape]
  unfold sock_ev_shape
  simp only []
  rw [prelude_eq env _ fd _ _ w s0 h0]
  generalize hw0 : after_ghost env fd w = w0 at h0 ⊢
  generalize hb : c.body env (c.retval ret)
      { w := { w0 with ticks := w0.ticks + 1 }, sock := s0,
        ev := (alloc_event env w0 c.evType (c.retval ret) err s0.events_count).1 } = b
  obtain ⟨nb, hbw⟩ := body_w env c (c.retval ret)
      { w := { w0 with ticks := w0.ticks + 1 }, sock := s0,
        ev := (alloc_event env w0 c.evType (c.retval ret) err s0.events_count).1 }
  obtain ⟨now, hbs⟩ := body_sock env c (c.retval ret)
      { w := { w0 with ticks := w0.ticks + 1 }, sock := s0,
        ev := (alloc_event env w0 c.evType (c.retval ret) err s0.events_count).1 }
  have hbe := body_ev env c (c.retval ret)
      { w := { w0 with ticks := w0.ticks + 1 }, sock := s0,
        ev := (alloc_event env w0 c.evType (c.retval ret) err s0.events_count).1 }
  rw [hb] at hbw hbs hbe
  have hp0 : ra_is_present w0.table fd = true := ra_is_present_of_get _ _ _ h0
  by_cases hd : c.dups (c.retval ret) = true
  · have hdup := isDup_of_dups c _ hd
    have hrv := retval_of_isDup c ret hdup
    rw [hrv] at hd hbs hbe hb
    rw [sockBody_of_isDup c _ _ _ hdup] at hbs
    simp only [hrv, hd, if_true]
    have hstore : ra_store b.w.table fd b.sock = w0.table := by
      rw [hbw, hbs]
      exact ra_store_self _ _ _ h0
    have hl2 := dup_socket_eq env c.evType fd ret err b
    rw [hstore, dup_sock_eq_fresh] at hl2
    generalize hl : DUP_SOCKET env c.evType fd ret err b = l at hl2 ⊢
    have hlt : l.w.table = ra_put_elem w0.table ret
        (fresh_sock b.w.connections_count ret b.sock.sock_info (dup_event b)) := by rw [hl2]
    refine ⟨l, ?_, rfl⟩
    constructor
    · rw [hlt]
      exact ra_present_put _ _ _ _ hp0
    · rw [hl2, hbe]; rfl
    · rw [hl2, hbe, hrv]; rfl
    · rw [hl2, hbe]; rfl
    · rw [hl2, hbe, hrv]
    · rw [hl2, hbe]; rfl
    · rw [hl2, hbw]
    · rw [hl2, hbw]
    · rw [hl2, hbw]
    · intro h
      rw [hrv, hd] at h
      exact absurd h (by decide)
    · intro _
      refine ⟨?_, ?_, ?_⟩
      · have hle : l.ev = b.ev := by rw [hl2]
        have hbs2 : b.sock = s0 := hbs
        have hbc : b.w.connections_count = w0.connections_count := by rw [hbw]
        rw [hlt, hle, hbc, hbs2]
        simp only [dup_event, hbs2]
      · rw [hl2, hbw]
      · rw [hlt]
        rw [hl2]
  · have hd' : c.dups (c.retval ret) = false := by simpa using hd
    simp only [hd', Bool.false_eq_true, if_false]
    refine ⟨b, ?_, rfl⟩
    constructor
    · rw [hbw]; exact hp0
    · rw [hbe]; rfl
    · rw [hbe]; rfl
    · rw [hbe]; rfl
    · rw [hbe]
    · rw [hbe]; rfl
    · rw [hbw]
    · rw [hbw]
    · rw [hbw]
    · intro _
      exact ⟨by rw [hbw], by rw [hbw], now, hbs⟩
    · intro h
      rw [hd'] at h
      exact absurd h (by decide)

/-! ## The effect of an entry point -/

theorem sock_ev_effect (env : Env) (fd : Nat) (ret err : Int) (c : Call) (w : World)
    (s0 : Socket) (h0 : (after_ghost env fd w).entry fd = some s0) :
    ∃ (l : Locals) (s' : Socket) (rest : List SockEvent),
      Anatomy env fd ret err c (after_ghost env fd w) s0 l ∧
      PostEffect env c.consType fd l (SOCK_EV_POSTLUDE env c.consType fd l) s' rest ∧
      sock_ev env fd ret err c w
        = if c = Call.close then
            free_and_dump_socket env fd (SOCK_EV_POSTLUDE env c.consType fd l)
          else SOCK_EV_POSTLUDE env c.consType fd l := by
  obtain ⟨l, ha, he⟩ := sock_ev_anatomy env fd ret err c w s0 h0
  obtain ⟨s', rest, hp⟩ := postlude_effect env c.consType fd l ha.present
  exact ⟨l, s', rest, ha, hp, he⟩

theorem record_effect (env : Env) (fd : Nat) (ret err : Int) (c : Call) (w : World)
    (s0 : Socket) (h0 : (after_ghost env fd w).entry fd = some s0)
    (hd : c.dups (c.retval ret) = false) :
    ∃ (w' : World) (s' : Socket) (ev : SockEvent) (rest : List SockEvent) (now : Nat),
      RecordEffect env fd ret err c (after_ghost env fd w) s0 w' s' ev rest now ∧
      sock_ev env fd ret err c w
        = if c = Call.close then free_and_dump_socket env fd w' else w' := by
  obtain ⟨l, s', rest, ha, hp, he⟩ := sock_ev_effect env fd ret err c w s0 h0
  obtain ⟨htab, hcc, now, hsock⟩ := ha.nodup hd
  have hf := sockBody_frame c (c.retval ret) now s0
  refine ⟨_, s', l.ev, rest, now, ?_, he⟩
  constructor
  · rw [hp.table, htab]
  · rw [hp.emitted, ha.emitted]
  · rw [hp.dumped, ha.dumped]
  · rw [hp.stopped, ha.stopped]
  · rw [hp.connections_count, hcc]
  · exact ha.ev_type
  · exact ha.ev_return_value
  · exact ha.ev_err
  · exact ha.ev_payload
  · exact ha.ev_id
  · rw [hp.events, hsock, hf.1]
  · rw [hp.events_count, hsock, hf.2.1]
  · rw [hp.id, hsock, hf.2.2.1]
  · rw [hp.fd_eq, hsock, hf.2.2.2.1]
  · rw [hp.sock_info, hsock, hf.2.2.2.2.1]
  · rw [hp.capture_switch, hsock, hf.2.2.2.2.2]
  · rw [hp.bound, hsock]
  · rw [hp.bound_addr, hsock]
  · rw [hp.bytes_sent, hsock]
  · rw [hp.bytes_received, hsock]
  · have := hp.rest_shape
    rw [hsock, hf.2.1] at this
    exact this
  · intro hoff
    have := hp.quiet (sample_fires_disabled _ _ _ _ hoff)
    rw [hsock] at this
    exact this

theorem ra_get_put_ne (a : ResizableArray) (r : Int) (n : Socket) (fd : Nat)
    (h : r ≠ (fd : Int)) :
    ra_get_and_lock_elem (ra_put_elem a r n) fd = ra_get_and_lock_elem a fd := by
  by_cases hr : r < 0
  · rw [ra_put_neg _ _ _ hr]
  · have hr2 : r = ((r.toNat : Nat) : Int) := by omega
    rw [hr2, ra_get_put]
    have : fd ≠ r.toNat := by omega
    simp [this]

/-- The entry at `fd` after the postlude of any call that does not replace the entry
at `fd` itself: the entry before the body with the recorded events appended. -/
theorem source_effect (env : Env) (fd : Nat) (ret err : Int) (c : Call) (w : World)
    (s0 : Socket) (h0 : (after_ghost env fd w).entry fd = some s0)
    (hd : ¬ (c.dups (c.retval ret) = true ∧ ret = (fd : Int))) :
    ∃ (w' : World) (s' : Socket) (ev : SockEvent) (rest : List SockEvent),
      sock_ev env fd ret err c w
        = (if c = Call.close then free_and_dump_socket env fd w' else w') ∧
      w'.entry fd = some s' ∧ s'.events = s0.events ++ ev :: rest ∧
      s'.events_count = s0.events_count + 1 + rest.length ∧
      s'.sock_info = s0.sock_info ∧ s'.id = s0.id ∧
      ev.type = c.evType ∧ ev.id = s0.events_count ∧ ev.return_value = c.retval ret ∧
      (rest = [] ∨ ∃ t, rest = [t] ∧ t.type = SOCK_EV_TCP_INFO ∧ t.id = s0.events_count + 1) ∧
      (sampling_disabled env → rest = []) := by
  obtain ⟨l, s', rest, ha, hp, he⟩ := sock_ev_effect env fd ret err c w s0 h0
  have hsock : l.sock.events = s0.events ∧ l.sock.events_count = s0.events_count ∧
      l.sock.sock_info = s0.sock_info ∧ l.sock.id = s0.id := by
    by_cases hdup : c.dups (c.retval ret) = true
    · obtain ⟨htab, _, hls⟩ := ha.dup hdup
      have hne : ret ≠ (fd : Int) := fun h => hd ⟨hdup, h⟩
      rw [htab, ra_get_put_ne _ _ _ _ hne] at hls
      unfold World.entry at h0
      rw [h0] at hls
      simp only [Option.getD_some] at hls
      rw [hls]
      exact ⟨rfl, rfl, rfl, rfl⟩
    · have hdup' : c.dups (c.retval ret) = false := by simpa using hdup
      obtain ⟨_, _, now, hls⟩ := ha.nodup hdup'
      have hf := sockBody_frame c (c.retval ret) now s0
      rw [hls]
      exact ⟨hf.1, hf.2.1, hf.2.2.2.2.1, hf.2.2.1⟩
  refine ⟨_, s', l.ev, rest, he, ?_, ?_, ?_, ?_, ?_, ha.ev_type, ha.ev_id, ha.ev_return_value,
    ?_, ?_⟩
  · unfold World.entry
    rw [hp.table, ra_get_store _ _ _ _ ha.present]
    simp
  · rw [hp.events, hsock.1]
  · rw [hp.events_count, hsock.2.1]
  · rw [hp.sock_info, hsock.2.2.1]
  · rw [hp.id, hsock.2.2.2]
  · have := hp.rest_shape
    rw [hsock.2.1] at this
    exact this
  · intro hoff
    exact (hp.quiet (sample_fires_disabled _ _ _ _ hoff)).1

/-! ## Dumping -/

theorem dump_loop_ok (env : Env) (id : Nat) (hj : ∀ ev, env.alloc_sock_ev_json ev = true)
    (evs : List SockEvent) (w : World) :
    dump_events_loop env id evs w
      = (true, { w with dumped := w.dumped ++ evs.map (fun e => (id, e)) }) := by
  induction evs generalizing w with
  | nil => simp [dump_events_loop]
  | cons e rest ih =>
    simp only [dump_events_loop, hj e, if_true]
    rw [ih]
    simp

theorem dump_ok (env : Env) (h : dump_succeeds env) (s : Socket) (w : World) :
    dump_events_as_json env s w
      = ({ s with events := [] },
         { w with dumped := w.dumped ++ s.events.map (fun e => (s.id, e)) }) := by
  obtain ⟨hD, hp, ho, hj⟩ := h
  simp [dump_events_as_json, hD, hp, ho, dump_loop_ok env s.id hj]

theorem dump_loop_frame (env : Env) (id : Nat) (evs : List SockEvent) (y : World) :
    (dump_events_loop env id evs y).2
      = { y with dumped := (dump_events_loop env id evs y).2.dumped } := by
  induction evs generalizing y with
  | nil => rfl
  | cons e rest ih =>
    simp only [dump_events_loop]
    split
    · rw [ih]
    · rfl

theorem dump_frame (env : Env) (s : Socket) (x : World) :
    (dump_events_as_json env s x).2
      = { x with dumped := (dump_events_as_json env s x).2.dumped } := by
  unfold dump_events_as_json
  split
  · rfl
  · split
    · rfl
    · split
      · rfl
      · simp only []
        split
        · exact dump_loop_frame _ _ _ _
        · split <;> exact dump_loop_frame _ _ _ _

theorem dump_table (env : Env) (s : Socket) (x : World) :
    (dump_events_as_json env s x).2.table = x.table := by
  rw [dump_frame]

theorem free_and_dump_frame (env : Env) (fd : Nat) (w : World) :
    (free_and_dump_socket env fd w).connections_count = w.connections_count ∧
      (free_and_dump_socket env fd w).emitted = w.emitted ∧
      (free_and_dump_socket env fd w).ticks = w.ticks := by
  simp only [free_and_dump_socket, ra_remove_fst]
  cases hg : ra_get_and_lock_elem w.table fd with
  | none => exact ⟨rfl, rfl, rfl⟩
  | some s =>
    simp only
    rw [dump_frame]
    cases s.capture_switch <;> exact ⟨rfl, rfl, rfl⟩

theorem free_and_dump_entry (env : Env) (fd : Nat) (w : World) (fd' : Nat) :
    (free_and_dump_socket env fd w).entry fd' = if fd' = fd then none else w.entry fd' := by
  simp only [free_and_dump_socket, World.entry, ra_remove_fst]
  cases hg : ra_get_and_lock_elem w.table fd with
  | none =>
    simp only
    by_cases h : fd' = fd
    · subst h
      simp [hg]
    · simp [h]
  | some s =>
    simp only
    rw [dump_table]
    cases s.capture_switch <;> simp [ra_get_remove]

theorem free_and_dump_dumped (env : Env) (h : dump_succeeds env) (fd : Nat) (w : World)
    (s : Socket) (hs : w.entry fd = some s) :
    (free_and_dump_socket env fd w).dumped
      = w.dumped ++ s.events.map (fun e => (s.id, e)) := by
  unfold World.entry at hs
  simp only [free_and_dump_socket, ra_remove_fst, hs]
  rw [dump_ok env h]
  cases s.capture_switch <;> rfl

/-! ## `sock_ev_socket` -/

/-- The state in which `sock_ev_socket` allocates: the given state, or the state after
the prior entry at `fd` has been dumped and freed. -/
theorem socket_effect (env : Env) (fd : Nat) (domain type protocol : Int) (w : World) :
    ∃ ev : SockEvent,
      (sock_ev_socket env fd domain type protocol w).table
        = ra_put_elem
            (if ra_is_present w.table fd then free_and_dump_socket env fd w else w).table fd
            (fresh_sock w.connections_count fd
              (fill_sock_info SockInfo.zero domain type protocol) ev) ∧
      ev.type = SOCK_EV_SOCKET ∧ ev.id = 0 ∧ ev.return_value = fd ∧
      ev.payload = Payload.SockEvSocket (fill_sock_info SockInfo.zero domain type protocol) ∧
      (sock_ev_socket env fd domain type protocol w).connections_count
        = w.connections_count + 1 ∧
      (sock_ev_socket env fd domain type protocol w).emitted = w.emitted ∧
      (sock_ev_socket env fd domain type protocol w).dumped
        = (if ra_is_present w.table fd then free_and_dump_socket env fd w else w).dumped ∧
      (sock_ev_socket env fd domain type protocol w).stopped
        = (if ra_is_present w.table fd then free_and_dump_socket env fd w else w).stopped := by
  have hcc : (if ra_is_present w.table fd then free_and_dump_socket env fd w else w).connections_count
      = w.connections_count := by
    split
    · exact (free_and_dump_frame env fd w).1
    · rfl
  have hem : (if ra_is_present w.table fd then free_and_dump_socket env fd w else w).emitted
      = w.emitted := by
    split
    · exact (free_and_dump_frame env fd w).2.1
    · rfl
  generalize hw1 : (if ra_is_present w.table fd then free_and_dump_socket env fd w else w) = w1
    at hcc hem ⊢
  refine ⟨{ (alloc_event env (alloc_socket fd w1).2 SOCK_EV_SOCKET fd 0 0).1 with
            payload := Payload.SockEvSocket (fill_sock_info SockInfo.zero domain type protocol) },
    ?_, rfl, rfl, rfl, rfl, ?_, ?_, ?_, ?_⟩
  · simp [sock_ev_socket, hw1, fresh_sock, alloc_socket, hcc, Socket.zero]
  · simp [sock_ev_socket, hw1, alloc_socket, hcc]
  · simp [sock_ev_socket, hw1, alloc_socket, hem]
  · simp [sock_ev_socket, hw1, alloc_socket]
  · simp [sock_ev_socket, hw1, alloc_socket]

/-! ## C6 -/

/-- The entry at `fd` holds events of the types `tys`, numbered from 0, and belongs to
the connection `cid`. -/
theorem record_extends_types (env : Env) (fd : Nat) (ret err : Int) (c : Call) (w : World)
    (cid : Nat) (tys : List SockEventType) (hoff : sampling_disabled env)
    (hcl : c ≠ Call.close) (hd : c.dups (c.retval ret) = false)
    (hinv : ∃ s, w.entry fd = some s ∧ s.events.map (fun e => e.type) = tys ∧
      s.events.map (fun e => e.id) = List.range tys.length ∧ s.events_count = tys.length ∧
      s.id = cid) :
    ∃ s, (sock_ev env fd ret err c w).entry fd = some s ∧
      s.events.map (fun e => e.type) = tys ++ [c.evType] ∧
      s.events.map (fun e => e.id) = List.range (tys ++ [c.evType]).length ∧
      s.events_count = (tys ++ [c.evType]).length ∧ s.id = cid := by
  obtain ⟨s, hs, hty, hid, hcnt, hcid⟩ := hinv
  have hag := after_ghost_present env fd w s hs
  have h0 : (after_ghost env fd w).entry fd = some s := by rw [hag]; exact hs
  obtain ⟨w', s', ev, rest, now, hre, heq⟩ := record_effect env fd ret err c w s h0 hd
  rw [hag] at hre
  simp only [hcl, if_false] at heq
  obtain ⟨hrest, _⟩ := hre.quiet hoff
  refine ⟨s', ?_, ?_, ?_, ?_, ?_⟩
  · rw [heq]
    unfold World.entry
    rw [hre.table, ra_get_store _ _ _ _ (ra_is_present_of_get _ _ _ hs)]
    simp
  · rw [hre.events, hrest]
    simp [hty, hre.ev_type]
  · rw [hre.events, hrest]
    simp [hid, hre.ev_id, hcnt, List.range_succ]
  · rw [hre.events_count, hrest, hcnt]
    simp
  · rw [hre.id, hcid]

theorem seq_extends_types (env : Env) (fd : Nat) (cid : Nat) (hoff : sampling_disabled env)
    (cs : List (Int × Int × Call)) :
    ∀ (w : World) (tys : List SockEventType),
      (∀ x ∈ cs, x.2.2 ≠ Call.close ∧ x.2.2.dups (x.2.2.retval x.1) = false) →
      (∃ s, w.entry fd = some s ∧ s.events.map (fun e => e.type) = tys ∧
        s.events.map (fun e => e.id) = List.range tys.length ∧ s.events_count = tys.length ∧
        s.id = cid) →
      ∃ s, (sock_ev_seq env fd cs w).entry fd = some s ∧
        s.events.map (fun e => e.type) = tys ++ cs.map (fun x => x.2.2.evType) ∧
        s.events.map (fun e => e.id)
          = List.range (tys ++ cs.map (fun x => x.2.2.evType)).length ∧
        s.events_count = (tys ++ cs.map (fun x => x.2.2.evType)).length ∧ s.id = cid := by
  induction cs with
  | nil =>
    intro w tys _ hinv
    simpa [sock_ev_seq] using hinv
  | cons x rest ih =>
    intro w tys hcs hinv
    have hx := hcs x (List.mem_cons_self _ _)
    have h1 := record_extends_types env fd x.1 x.2.1 x.2.2 w cid tys hoff hx.1 hx.2 hinv
    have h2 := ih (sock_ev env fd x.1 x.2.1 x.2.2 w) (tys ++ [x.2.2.evType])
      (fun y hy => hcs y (List.mem_cons_of_mem _ hy)) h1
    simpa [sock_ev_seq, List.append_assoc] using h2

/-- C6: for every sequence of recorded calls on one fd that starts with `sock_ev_socket`
and ends with `sock_ev_close`, with no close and no duplication in between, the output
configured, serialization succeeding and sampling disabled, the dump written at close
is exactly one line per recorded call, in call order (the lines carry the ids 0, 1, 2,
... and go to the file of the entry's connection). For the sequence
socket(AF_INET, SOCK_STREAM, 0) -> 5, bind, connect, write of 100 bytes, close these are
the five lines socket, bind, connect, write, close, and just before the close the entry
has bytes_sent = 100 and bound = true. -/
theorem close_dumps_one_line_per_call (env : Env) (fd : Nat) (domain type protocol : Int)
    (cs : List (Int × Int × Call)) (ret err : Int) (w : World) (hdump : dump_succeeds env)
    (hoff : sampling_disabled env)
    (hcs : ∀ x ∈ cs, x.2.2 ≠ Call.close ∧ x.2.2.dups (x.2.2.retval x.1) = false) :
    (∃ lines : List (Nat × SockEvent),
      (sock_ev_close env fd ret err
          (sock_ev_seq env fd cs (sock_ev_socket env fd domain type protocol w))).dumped
        = (sock_ev_seq env fd cs (sock_ev_socket env fd domain type protocol w)).dumped
            ++ lines ∧
      lines.map (fun x => x.2.type)
        = SOCK_EV_SOCKET :: (cs.map (fun x => x.2.2.evType) ++ [SOCK_EV_CLOSE]) ∧
      lines.map (fun x => x.2.id) = List.range (cs.length + 2) ∧
      ∀ x ∈ lines, x.1 = w.connections_count) ∧
    ((sock_ev_close env0 5 0 0 scenario1_before_close).dumped.map (fun x => x.2.type)
        = [SOCK_EV_SOCKET, SOCK_EV_BIND, SOCK_EV_CONNECT, SOCK_EV_WRITE, SOCK_EV_CLOSE] ∧
      (scenario1_before_close.entry 5).map (fun s => s.bytes_sent) = some 100 ∧
      (scenario1_before_close.entry 5).map (fun s => s.bound) = some true) := by
  refine ⟨?_, by decide⟩
  obtain ⟨sev, htab, hty, hid, _, _, _, _, _, _⟩ := socket_effect env fd domain type protocol w
  have hinit : ∃ s, (sock_ev_socket env fd domain type protocol w).entry fd = some s ∧
      s.events.map (fun e => e.type) = [SOCK_EV_SOCKET] ∧
      s.events.map (fun e => e.id) = List.range [SOCK_EV_SOCKET].length ∧
      s.events_count = [SOCK_EV_SOCKET].length ∧ s.id = w.connections_count := by
    refine ⟨fresh_sock w.connections_count fd
      (fill_sock_info SockInfo.zero domain type protocol) sev, ?_, ?_, ?_, ?_, ?_⟩
    · unfold World.entry
      rw [htab, ra_get_put]
      simp
    · simp [fresh_sock, push_event, Socket.zero, hty]
    · simp [fresh_sock, push_event, Socket.zero, hid]
      rfl
    · simp [fresh_sock, push_event, Socket.zero]
    · simp [fresh_sock, push_event]
  obtain ⟨s, hs, hsty, hsid, hscnt, hscid⟩ :=
    seq_extends_types env fd w.connections_count hoff cs _ _ hcs hinit
  generalize sock_ev_seq env fd cs (sock_ev_socket env fd domain type protocol w) = w1
    at hs ⊢
  have hag := after_ghost_present env fd w1 s hs
  have h0 : (after_ghost env fd w1).entry fd = some s := by rw [hag]; exact hs
  obtain ⟨w', s', ev, rest, now, hre, heq⟩ :=
    record_effect env fd ret err Call.close w1 s h0 rfl
  rw [hag] at hre
  simp only [if_true] at heq
  obtain ⟨hrest, _⟩ := hre.quiet hoff
  have hent : w'.entry fd = some s' := by
    unfold World.entry
    rw [hre.table, ra_get_store _ _ _ _ (ra_is_present_of_get _ _ _ hs)]
    simp
  have hclose : sock_ev_close env fd ret err w1 = sock_ev env fd ret err Call.close w1 := rfl
  refine ⟨s'.events.map (fun e => (s'.id, e)), ?_, ?_, ?_, ?_⟩
  · rw [hclose, heq, free_and_dump_dumped env hdump fd w' s' hent, hre.dumped]
  · rw [hre.events, hrest]
    simp [Function.comp_def, hsty, hre.ev_type, Call.evType]
  · rw [hre.events, hrest]
    simp only [List.map_map, Function.comp_def, List.map_append, List.map_cons, List.map_nil]
    rw [hsid, hre.ev_id, hscnt]
    simp [List.range_succ]
  · intro x hx
    simp only [List.mem_map] at hx
    obtain ⟨e, _, rfl⟩ := hx
    simp only
    rw [hre.id, hscid]

/-! ## Invariants of the entries -/

theorem ra_get_put_cases (a : ResizableArray) (r : Int) (n : Socket) (j : Nat) (x : Socket)
    (h : ra_get_and_lock_elem (ra_put_elem a r n) j = some x) :
    x = n ∨ ra_get_and_lock_elem a j = some x := by
  by_cases hr : r < 0
  · rw [ra_put_neg _ _ _ hr] at h
    exact Or.inr h
  · have hr2 : r = ((r.toNat : Nat) : Int) := by omega
    rw [hr2, ra_get_put] at h
    split at h
    · left
      injection h with h
      exact h.symm
    · exact Or.inr h

theorem all_entries_put (P : Socket → Prop) (a : ResizableArray) (r : Int) (n : Socket)
    (hn : P n) (ha : ∀ j s, ra_get_and_lock_elem a j = some s → P s) :
    ∀ j s, ra_get_and_lock_elem (ra_put_elem a r n) j = some s → P s := by
  intro j s h
  rcases ra_get_put_cases a r n j s h with h1 | h1
  · rw [h1]; exact hn
  · exact ha j s h1

theorem all_entries_after_ghost (P : Socket → Prop) (env : Env) (fd : Nat) (w : World)
    (hfresh : ∀ id r si e, P (fresh_sock id r si e)) (hall : AllEntries P w) :
    AllEntries P (after_ghost env fd w) := by
  unfold after_ghost
  split
  · exact hall
  · intro j s h
    unfold World.entry at h
    rw [ghost_table, ghost_sock_eq_fresh] at h
    exact all_entries_put P _ _ _ (hfresh _ _ _ _) hall j s h

theorem all_entries_free_and_dump (P : Socket → Prop) (env : Env) (fd : Nat) (w : World)
    (hall : AllEntries P w) : AllEntries P (free_and_dump_socket env fd w) := by
  intro j s h
  rw [free_and_dump_entry] at h
  split at h
  · exact absurd h (by simp)
  · exact hall j s h

/-- An invariant of the entries is kept by every entry point that opens with the common
prelude, if fresh entries have it and each recording step keeps it. -/
theorem sock_ev_preserves (P : Socket → Prop) (env : Env) (fd : Nat) (ret err : Int)
    (c : Call) (w : World)
    (hfresh : ∀ id r si e, P (fresh_sock id r si e))
    (hstep : ∀ s0 s' ev rest now, P s0 → EntryStep c (c.retval ret) s0 s' ev rest now → P s')
    (hall : AllEntries P w) : AllEntries P (sock_ev env fd ret err c w) := by
  obtain ⟨s0, h0⟩ := after_ghost_entry env fd w
  obtain ⟨l, s', rest, ha, hp, he⟩ := sock_ev_effect env fd ret err c w s0 h0
  have hall0 := all_entries_after_ghost P env fd w hfresh hall
  -- the entries of the table handed to the postlude
  have hallL : ∀ j s, ra_get_and_lock_elem l.w.table j = some s → P s := by
    by_cases hdup : c.dups (c.retval ret) = true
    · obtain ⟨htab, _, _⟩ := ha.dup hdup
      rw [htab]
      exact all_entries_put P _ _ _ (hfresh _ _ _ _) hall0
    · have hdup' : c.dups (c.retval ret) = false := by simpa using hdup
      obtain ⟨htab, _, _⟩ := ha.nodup hdup'
      rw [htab]
      exact hall0
  -- the step on the entry at fd
  have hs' : P s' := by
    have hrs : rest = [] ∨ ∃ t, rest = [t] ∧ t.type = SOCK_EV_TCP_INFO := by
      rcases hp.rest_shape with h | ⟨t, h1, h2, _⟩
      · exact Or.inl h
      · exact Or.inr ⟨t, h1, h2⟩
    by_cases hdup : c.dups (c.retval ret) = true
    · obtain ⟨_, _, hls⟩ := ha.dup hdup
      obtain ⟨x, hx⟩ := (ra_is_present_iff _ _).1 ha.present
      rw [hx] at hls
      simp only [Option.getD_some] at hls
      have hdupc := isDup_of_dups c _ hdup
      refine hstep l.sock s' l.ev rest 0 (hls ▸ hallL fd x hx) ?_
      have hid := sockBody_of_isDup c (c.retval ret) 0 l.sock hdupc
      constructor
      · exact hp.events
      · exact hp.events_count
      · exact ha.ev_type
      · exact ha.ev_return_value
      · exact ha.ev_payload
      · exact hrs
      · exact hp.id
      · exact hp.fd_eq
      · exact hp.sock_info
      · exact hp.capture_switch
      · rw [hid]; exact hp.bound
      · rw [hid]; exact hp.bound_addr
      · rw [hid]; exact hp.bytes_sent
      · rw [hid]; exact hp.bytes_received
    · have hdup' : c.dups (c.retval ret) = false := by simpa using hdup
      obtain ⟨_, _, now, hls⟩ := ha.nodup hdup'
      have hf := sockBody_frame c (c.retval ret) now s0
      refine hstep s0 s' l.ev rest now (hall0 fd s0 h0) ?_
      constructor
      · rw [hp.events, hls, hf.1]
      · rw [hp.events_count, hls, hf.2.1]
      · exact ha.ev_type
      · exact ha.ev_return_value
      · exact ha.ev_payload
      · exact hrs
      · rw [hp.id, hls, hf.2.2.1]
      · rw [hp.fd_eq, hls, hf.2.2.2.1]
      · rw [hp.sock_info, hls, hf.2.2.2.2.1]
      · rw [hp.capture_switch, hls, hf.2.2.2.2.2]
      · rw [hp.bound, hls]
      · rw [hp.bound_addr, hls]
      · rw [hp.bytes_sent, hls]
      · rw [hp.bytes_received, hls]
  have hpost : AllEntries P (SOCK_EV_POSTLUDE env c.consType fd l) := by
    intro j s h
    unfold World.entry at h
    rw [hp.table, ra_get_store _ _ _ _ ha.present] at h
    split at h
    · injection h with h
      rw [← h]
      exact hs'
    · exact hallL j s h
  rw [he]
  split
  · exact all_entries_free_and_dump P env fd _ hpost
  · exact hpost

theorem all_entries_socket (P : Socket → Prop) (env : Env) (fd : Nat)
    (domain type protocol : Int) (w : World)
    (hfresh : ∀ id r si e, P (fresh_sock id r si e)) (hall : AllEntries P w) :
    AllEntries P (sock_ev_socket env fd domain type protocol w) := by
  obtain ⟨ev, htab, _⟩ := socket_effect env fd domain type protocol w
  intro j s h
  unfold World.entry at h
  rw [htab] at h
  refine all_entries_put P _ _ _ (hfresh _ _ _ _) ?_ j s h
  split
  · exact all_entries_free_and_dump P env fd w hall
  · exact hall

theorem forked_table (env : Env) (fd : Nat) (si : SockInfo) (w : World) :
    ∃ ev : SockEvent,
      (sock_ev_forked_socket env fd si w).table
        = ra_put_elem w.table fd (fresh_sock w.connections_count fd si ev) ∧
      ev.type = SOCK_EV_FORKED_SOCKET ∧ ev.id = 0 ∧
      ev.payload = Payload.SockEvForkedSocket si := by
  refine ⟨{ (alloc_event env (alloc_socket fd w).2 SOCK_EV_FORKED_SOCKET 0 0 0).1 with
            payload := Payload.SockEvForkedSocket si }, ?_, rfl, rfl, rfl⟩
  simp [sock_ev_forked_socket, fresh_sock, alloc_socket]

theorem all_entries_forked (P : Socket → Prop) (env : Env) (fd : Nat) (si : SockInfo)
    (w : World) (hfresh : ∀ id r si e, P (fresh_sock id r si e)) (hall : AllEntries P w) :
    AllEntries P (sock_ev_forked_socket env fd si w) := by
  obtain ⟨ev, htab, _⟩ := forked_table env fd si w
  intro j s h
  unfold World.entry at h
  rw [htab] at h
  exact all_entries_put P _ _ _ (hfresh _ _ _ _) hall j s h

theorem all_entries_reset_step (P : Socket → Prop) (env : Env) (w : World) (i : Nat)
    (hfresh : ∀ id r si e, P (fresh_sock id r si e)) (hall : AllEntries P w) :
    AllEntries P (sock_ev_reset_step env w i) := by
  unfold sock_ev_reset_step
  split
  · exact hall
  · simp only [ra_remove_fst]
    cases hg : ra_get_and_lock_elem w.table i with
    | none => exact hall
    | some sock =>
      simp only
      apply all_entries_forked P env i _ _ hfresh
      intro j s h
      unfold World.entry at h
      simp only at h
      rw [ra_get_remove] at h
      split at h
      · exact absurd h (by simp)
      · exact hall j s h

theorem all_entries_reset (P : Socket → Prop) (env : Env) (w : World)
    (hfresh : ∀ id r si e, P (fresh_sock id r si e)) (hall : AllEntries P w) :
    AllEntries P (sock_ev_reset env w) := by
  unfold sock_ev_reset
  have hgen : ∀ (is : List Nat) (x : World), AllEntries P x →
      AllEntries P (is.foldl (sock_ev_reset_step env) x) := by
    intro is
    induction is with
    | nil => intro x hx; exact hx
    | cons i rest ih =>
      intro x hx
      exact ih _ (all_entries_reset_step P env x i hfresh hx)
  exact hgen _ _ (fun j s h => hall j s h)

/-- An invariant of the entries holds in every reachable state, if fresh entries have
it and each recording step keeps it. -/
theorem reachable_invariant (P : Socket → Prop)
    (hfresh : ∀ id r si e, P (fresh_sock id r si e))
    (hstep : ∀ (c : Call) (r : Int) s0 s' ev rest now, P s0 →
      EntryStep c r s0 s' ev rest now → P s')
    (w : World) (hr : Reachable w) : AllEntries P w := by
  induction hr with
  | init =>
    intro j s h
    simp [World.entry, World.init, ra_get_and_lock_elem] at h
  | step env op w _ ih =>
    cases op with
    | socket fd domain type protocol => exact all_entries_socket P env fd _ _ _ w hfresh ih
    | forked_socket fd si => exact all_entries_forked P env fd si w hfresh ih
    | call fd ret err c =>
      exact sock_ev_preserves P env fd ret err c w hfresh
        (fun s0 s' ev rest now h0 hs => hstep c (c.retval ret) s0 s' ev rest now h0 hs) ih
    | reset => exact all_entries_reset P env w hfresh ih

/-! ## C1, C2 -/

/-- C1 (the code at the failing input): after `socket -> 4` and `accept(4) -> 7`, the
entry created at fd 7 by the duplication holds one event, and its id is 1, not 0:
`DUP_SOCKET` allocates the event with id 0 and then overwrites the whole struct, id
included, with the source event, whose id is the source's event count. The source
entry at fd 4 holds the ids 0, 1. -/
theorem dup_target_first_id_is_source_count :
    scenario_accept.event_ids 7 = [1] ∧ scenario_accept.event_ids 4 = [0, 1] ∧
      scenario_accept.event_types 7 = [SOCK_EV_ACCEPT] := by
  decide

/-- C2: for every event type T and return value r, the event built by `alloc_event`
has `success = true` exactly when r differs from the failure sentinel of T (0 for
socket and fdopen, -1 otherwise), and its header fields type, return_value, err and id
are the arguments. -/
theorem alloc_event_success_iff_not_sentinel (env : Env) (w : World) (T : SockEventType)
    (r err : Int) (id : Nat) :
    ((alloc_event env w T r err id).1.success = true ↔ r ≠ failure_sentinel T) ∧
      (alloc_event env w T r err id).1.type = T ∧
      (alloc_event env w T r err id).1.return_value = r ∧
      (alloc_event env w T r err id).1.err = err ∧
      (alloc_event env w T r err id).1.id = id := by
  refine ⟨?_, rfl, rfl, rfl, rfl⟩
  cases T <;> simp [alloc_event, alloc_event_switch, CASE_EV, failure_sentinel]

/-! ## C3 -/

/-- C3: for a traced fd and a successful duplication call (accept, accept4, dup, dup2,
dup3, fcntl with F_DUPFD/F_DUPFD_CLOEXEC) that returns a descriptor `ret` different from
`fd`, with sampling disabled: afterwards the table holds at `ret` an entry with the
source's sock_info whose list is exactly one event of the type of the call (the copy of
the recorded event carrying that sock_info), and the source's list has gained the
recorded event as its last element. This holds in particular when `ret` was not yet in
the table. -/
theorem dup_success_creates_entry (env : Env) (fd ret : Nat) (err : Int) (c : Call) (w : World)
    (s : Socket) (hc : c.isDup = true) (hs : w.entry fd = some s) (hne : ret ≠ fd)
    (hoff : sampling_disabled env) :
    ∃ (n s' : Socket) (e ev : SockEvent),
      (sock_ev env fd ret err c w).entry ret = some n ∧ n.sock_info = s.sock_info ∧
      n.events = [e] ∧ e.type = c.evType ∧
      e = { ev with payload := ev.payload.set_sock_info s.sock_info } ∧
      (sock_ev env fd ret err c w).entry fd = some s' ∧ s'.events = s.events ++ [ev] ∧
      ev.type = c.evType ∧ ev.return_value = ret ∧ s'.sock_info = s.sock_info := by
  have hret : ((ret : Int) != -1) = true := by
    simp only [bne_iff_ne, ne_eq]
    omega
  have hpres : ra_is_present w.table fd = true := ra_is_present_of_get _ _ _ hs
  rw [sock_ev_eq_shape]
  unfold sock_ev_shape
  simp only [retval_of_isDup c _ hc, dups_of_isDup c _ hc, consType_of_isDup c hc, hret,
    if_true, isDup_ne_close c hc, if_false]
  rw [prelude_present env _ fd _ _ w s hs]
  generalize hb : c.body env ret
      { w := { w with ticks := w.ticks + 1 }, sock := s,
        ev := (alloc_event env w c.evType ret err s.events_count).1 } = b
  obtain ⟨nb, hbw⟩ := body_w env c ret
      { w := { w with ticks := w.ticks + 1 }, sock := s,
        ev := (alloc_event env w c.evType ret err s.events_count).1 }
  obtain ⟨now, hbs⟩ := body_sock env c ret
      { w := { w with ticks := w.ticks + 1 }, sock := s,
        ev := (alloc_event env w c.evType ret err s.events_count).1 }
  have hbe := body_ev env c ret
      { w := { w with ticks := w.ticks + 1 }, sock := s,
        ev := (alloc_event env w c.evType ret err s.events_count).1 }
  rw [hb] at hbw hbs hbe
  rw [sockBody_of_isDup c _ _ _ hc] at hbs
  have hbt : b.w.table = w.table := by rw [hbw]
  have hstore : ra_store b.w.table fd b.sock = w.table := by
    rw [hbt, hbs]
    exact ra_store_self _ _ _ hs
  have hget_fd : ra_get_and_lock_elem (ra_put_elem w.table (ret : Int) (dup_sock ret b)) fd
      = some s := by
    rw [ra_get_put, if_neg (fun h : fd = ret => hne h.symm)]
    exact hs
  generalize hl : DUP_SOCKET env c.evType fd ret err b = l
  have hl2 := dup_socket_eq env c.evType fd ret err b
  rw [hl, hstore, hget_fd] at hl2
  have hlt : l.w.table = ra_put_elem w.table (ret : Int) (dup_sock ret b) := by rw [hl2]
  have hls : l.sock = s := by rw [hl2]; rfl
  have hle : l.ev = b.ev := by rw [hl2]
  have hlp : ra_is_present l.w.table fd = true := by
    rw [hlt]
    exact ra_is_present_of_get _ _ _ hget_fd
  obtain ⟨s', rest, hpe⟩ := postlude_effect env c.evType fd l hlp
  obtain ⟨hrest, hs'⟩ := hpe.quiet (sample_fires_disabled _ _ _ _ hoff)
  have htab := hpe.table
  refine ⟨dup_sock ret b, s', dup_event b, b.ev, ?_, ?_, ?_, ?_, ?_, ?_, ?_, ?_, ?_, ?_⟩
  · unfold World.entry
    rw [htab, ra_get_store_ne _ _ _ _ hne, hlt, ra_get_put]
    simp
  · simp [dup_sock, push_event, hbs]
  · simp [dup_sock, push_event, alloc_socket, Socket.zero]
  · simp [dup_event, hbe]
  · simp [dup_event, hbs]
  · unfold World.entry
    rw [htab, ra_get_store _ _ _ _ hlp]
    simp
  · rw [hs', hls, hle]
    simp [push_event]
  · simp [hbe]
  · simp [hbe]
  · rw [hs', hls]
    simp [push_event]

/-! ## C4 -/

/-- C4: for a traced fd, a duplication call that failed (ret = -1: accept, accept4, dup,
dup2, dup3, fcntl F_DUPFD/F_DUPFD_CLOEXEC) and every fcntl whose cmd is not
F_DUPFD/F_DUPFD_CLOEXEC create no entry: the set of descriptors present in the table is
unchanged, every other descriptor keeps its entry, and the source's list gains the
recorded event directly after the events it held (followed by the tcp_info event of
the nested sampling if that fires, by nothing when sampling is disabled). -/
theorem failed_dup_creates_no_entry (env : Env) (fd : Nat) (ret err : Int) (c : Call)
    (w : World) (s : Socket) (hs : w.entry fd = some s)
    (hc : (c.isDup = true ∧ ret = -1) ∨
      (∃ cmd arg, c = Call.fcntl cmd arg ∧ cmd ≠ F_DUPFD ∧ cmd ≠ F_DUPFD_CLOEXEC)) :
    (∀ fd', ((sock_ev env fd ret err c w).entry fd').isSome = (w.entry fd').isSome) ∧
      (∀ fd', fd' ≠ fd → (sock_ev env fd ret err c w).entry fd' = w.entry fd') ∧
      ∃ (ev : SockEvent) (rest : List SockEvent),
        (sock_ev env fd ret err c w).events fd = s.events ++ ev :: rest ∧
        ev.type = c.evType ∧ ev.return_value = ret ∧ ev.id = s.events_count ∧
        (rest = [] ∨ ∃ t, rest = [t] ∧ t.type = SOCK_EV_TCP_INFO) ∧
        (sampling_disabled env → rest = []) := by
  have hd : c.dups (c.retval ret) = false ∧ c ≠ Call.close ∧ c.retval ret = ret := by
    rcases hc with ⟨hdup, hret⟩ | ⟨cmd, arg, hcf, h1, h2⟩
    · refine ⟨?_, isDup_ne_close c hdup, retval_of_isDup c ret hdup⟩
      rw [retval_of_isDup c ret hdup, dups_of_isDup c ret hdup, hret]
      rfl
    · subst hcf
      refine ⟨?_, by simp, rfl⟩
      simp [Call.dups, Call.retval, h1, h2]
  obtain ⟨hdups, hncl, hrv⟩ := hd
  have hag := after_ghost_present env fd w s hs
  have h0 : (after_ghost env fd w).entry fd = some s := by rw [hag]; exact hs
  obtain ⟨w', s', ev, rest, now, hre, heq⟩ := record_effect env fd ret err c w s h0 hdups
  rw [hag] at hre
  simp only [hncl, if_false] at heq
  have hp := ra_is_present_of_get _ _ _ hs
  have hent : ∀ fd', (sock_ev env fd ret err c w).entry fd'
      = if fd' = fd then some s' else w.entry fd' := by
    intro fd'
    rw [heq]
    unfold World.entry
    rw [hre.table, ra_get_store _ _ _ _ hp]
  refine ⟨?_, ?_, ev, rest, ?_, hre.ev_type, ?_, hre.ev_id, ?_, ?_⟩
  · intro fd'
    rw [hent]
    by_cases h : fd' = fd
    · subst h
      simp [hs]
    · simp [h]
  · intro fd' h
    rw [hent]
    simp [h]
  · unfold World.events
    rw [hent]
    simp [hre.events]
  · rw [hre.ev_return_value, hrv]
  · rcases hre.rest_shape with h | ⟨t, h1, h2, _⟩
    · exact Or.inl h
    · exact Or.inr ⟨t, h1, h2⟩
  · intro hoff
    exact (hre.quiet hoff).1

/-! ## C5 -/

/-- C5 (counterexample): on the empty table fd 9 is absent, and after
`sock_ev_close(9, 0, 0)`, an entry point that opens with the common prelude, the table
holds no entry at fd 9; and with a byte threshold of 10 configured, after
`sock_ev_write(9, 50, 0, buf, 50)` the list at fd 9 is
ghost_socket, write, tcp_info. -/
theorem ghost_list_not_always_two :
    World.init.entry 9 = none ∧
      (sock_ev env0 9 0 0 Call.close World.init).entry 9 = none ∧
      (sock_ev env_sampling 9 50 0 (Call.write 50) World.init).event_types 9
        = [SOCK_EV_GHOST_SOCKET, SOCK_EV_WRITE, SOCK_EV_TCP_INFO] := by
  decide

/-- C5 (amended): for an fd absent from the table and every entry point that opens
with the common prelude, other than `sock_ev_close` and other than a successful
duplication that returns `fd` itself: afterwards the table holds an entry at `fd` whose
list is the ghost_socket event (id 0), then the recorded event X (id 1), then, only if
the nested sampling fires, one tcp_info event (id 2); with sampling disabled the list
is exactly these two events. The entry's sock_info is the one captured on the
ghost_socket event. -/
theorem ghost_then_event (env : Env) (fd : Nat) (ret err : Int) (c : Call) (w : World)
    (habs : w.entry fd = none) (hcl : c ≠ Call.close)
    (hd : ¬ (c.dups (c.retval ret) = true ∧ ret = (fd : Int))) :
    ∃ (s' : Socket) (g x : SockEvent) (rest : List SockEvent),
      (sock_ev env fd ret err c w).entry fd = some s' ∧ s'.events = g :: x :: rest ∧
      g.type = SOCK_EV_GHOST_SOCKET ∧ g.id = 0 ∧ x.type = c.evType ∧ x.id = 1 ∧
      g.payload = Payload.SockEvGhostSocket s'.sock_info ∧
      (rest = [] ∨ ∃ t, rest = [t] ∧ t.type = SOCK_EV_TCP_INFO ∧ t.id = 2) ∧
      (sampling_disabled env → rest = []) := by
  have hag := after_ghost_absent env fd w habs
  have h0 : (after_ghost env fd w).entry fd = some (ghost_sock env fd w) := by
    rw [hag]
    exact ghost_entry env fd w
  obtain ⟨w', s', ev, rest, heq, hent, hev, _, hsi, _, hty, hid, _, hshape, hq⟩ :=
    source_effect env fd ret err c w _ h0 hd
  simp only [hcl, if_false] at heq
  refine ⟨s', ghost_event env fd w, ev, rest, ?_, ?_, rfl, rfl, hty, ?_, ?_, ?_, hq⟩
  · rw [heq]
    exact hent
  · rw [hev]
    simp [ghost_sock, push_event, alloc_socket, Socket.zero]
  · rw [hid]
    simp [ghost_sock, push_event, alloc_socket, Socket.zero]
  · rw [hsi]
    simp [ghost_sock, push_event, ghost_event]
  · have h1 : (ghost_sock env fd w).events_count = 1 := by
      simp [ghost_sock, push_event, alloc_socket, Socket.zero]
    rw [h1] at hshape
    exact hshape

/-! ## C7 -/

theorem dump_loop_writes_front (env : Env) (id : Nat) (evs : List SockEvent) (y : World) :
    ∃ k, k ≤ evs.length ∧
      (dump_events_loop env id evs y).2.dumped
        = y.dumped ++ (evs.take k).map (fun e => (id, e)) := by
  induction evs generalizing y with
  | nil => exact ⟨0, Nat.le_refl _, by simp [dump_events_loop]⟩
  | cons e rest ih =>
    simp only [dump_events_loop]
    split
    · obtain ⟨k, hk, h⟩ := ih { y with dumped := y.dumped ++ [(id, e)] }
      refine ⟨k + 1, by simpa using hk, ?_⟩
      rw [h]
      simp
    · exact ⟨0, Nat.zero_le _, by simp⟩

theorem dump_writes_front (env : Env) (s : Socket) (x : World) :
    ∃ k, k ≤ s.events.length ∧
      (dump_events_as_json env s x).2.dumped
        = x.dumped ++ (s.events.take k).map (fun e => (s.id, e)) := by
  unfold dump_events_as_json
  split
  · exact ⟨0, Nat.zero_le _, by simp⟩
  · split
    · exact ⟨0, Nat.zero_le _, by simp⟩
    · split
      · exact ⟨0, Nat.zero_le _, by simp⟩
      · simp only []
        split
        · exact dump_loop_writes_front _ _ _ _
        · split <;> exact dump_loop_writes_front _ _ _ _

theorem free_and_dump_writes_front (env : Env) (fd : Nat) (w : World) (s : Socket)
    (hs : w.entry fd = some s) :
    ∃ k, k ≤ s.events.length ∧
      (free_and_dump_socket env fd w).dumped
        = w.dumped ++ (s.events.take k).map (fun e => (s.id, e)) := by
  unfold World.entry at hs
  simp only [free_and_dump_socket, ra_remove_fst, hs]
  cases s.capture_switch <;> exact dump_writes_front _ _ _

/-- C7: for an fd that already has an entry, `sock_ev_socket` dumps the prior entry's
events (the dump writes them in order to the prior connection's file, all of them when
the dump succeeds) and replaces the entry: afterwards the table holds at `fd` a fresh
entry with the next connection id, whose list is exactly one socket event with id 0,
with bytes_sent = bytes_received = 0, bound = false and no capture handle. The table
being indexed by fd, this is the only entry for the fd. -/
theorem socket_replaces_present_entry (env : Env) (fd : Nat) (domain type protocol : Int)
    (w : World) (s : Socket) (hs : w.entry fd = some s) :
    (∃ k, k ≤ s.events.length ∧
      (sock_ev_socket env fd domain type protocol w).dumped
        = w.dumped ++ (s.events.take k).map (fun e => (s.id, e))) ∧
    (dump_succeeds env →
      (sock_ev_socket env fd domain type protocol w).dumped
        = w.dumped ++ s.events.map (fun e => (s.id, e))) ∧
    ∃ (n : Socket) (ev : SockEvent),
      (sock_ev_socket env fd domain type protocol w).entry fd = some n ∧
      n.id = w.connections_count ∧
      (sock_ev_socket env fd domain type protocol w).connections_count
        = w.connections_count + 1 ∧
      n.events = [ev] ∧ ev.type = SOCK_EV_SOCKET ∧ ev.id = 0 ∧ n.events_count = 1 ∧
      n.bytes_sent = 0 ∧ n.bytes_received = 0 ∧ n.bound = false ∧
      n.capture_switch = none ∧
      n.sock_info = fill_sock_info SockInfo.zero domain type protocol := by
  have hp := ra_is_present_of_get _ _ _ hs
  obtain ⟨ev, htab, hty, hid, _, _, hcc, _, hdumped, _⟩ :=
    socket_effect env fd domain type protocol w
  simp only [hp, if_true] at htab hdumped
  refine ⟨?_, ?_, fresh_sock w.connections_count fd
    (fill_sock_info SockInfo.zero domain type protocol) ev, ev, ?_, ?_, hcc, ?_, hty, hid,
    ?_, ?_, ?_, ?_, ?_, ?_⟩
  · rw [hdumped]
    exact free_and_dump_writes_front env fd w s hs
  · intro hd
    rw [hdumped]
    exact free_and_dump_dumped env hd fd w s hs
  · unfold World.entry
    rw [htab, ra_get_put]
    simp
  all_goals simp [fresh_sock, push_event, Socket.zero]

/-! ## C8, C9 -/

/-- C8 (the code at the failing input): fd 11 holds the events socket, write and
nothing has been dumped; after `dup2(4, 11) -> 11` the entry at fd 11 is the new one,
holding the single dup2 event, and still nothing has been dumped: the two recorded
events of the prior entry are in no list and in no file. The same holds for
`dup2(4, 4) -> 4`: the socket event of fd 4 is gone undumped. `sock_ev_socket` on the
same state does flush the prior entry of fd 11. -/
theorem dup_onto_traced_fd_drops_events :
    scenario_two_sockets.event_types 11 = [SOCK_EV_SOCKET, SOCK_EV_WRITE] ∧
      scenario_two_sockets.dumped_types = [] ∧
      scenario_dup2_reuse.event_types 11 = [SOCK_EV_DUP2] ∧
      scenario_dup2_reuse.dumped_types = [] ∧
      scenario_dup2_self.event_types 4 = [SOCK_EV_DUP2, SOCK_EV_DUP2] ∧
      scenario_dup2_self.dumped_types = [] ∧
      (sock_ev_socket env0 11 AF_INET SOCK_STREAM 0 scenario_two_sockets).dumped_types
        = [SOCK_EV_SOCKET, SOCK_EV_WRITE] := by
  decide

/-- C9 (counterexample): after a write on the untraced fd 9 the list of fd 9 holds
ghost_socket and write, and only the write was handed to `output_event`; after
`dup(9) -> 10` on the untraced fd 9 the lists hold ghost_socket, dup (fd 9) and the copy
of the dup event (fd 10), and only one event, the dup recorded on fd 9, was emitted. -/
theorem synthetic_events_not_emitted :
    (sock_ev env0 9 50 0 (Call.write 50) World.init).event_types 9
        = [SOCK_EV_GHOST_SOCKET, SOCK_EV_WRITE] ∧
      (sock_ev env0 9 50 0 (Call.write 50) World.init).emitted_types = [SOCK_EV_WRITE] ∧
      (sock_ev env0 9 10 0 Call.dup World.init).event_types 9
        = [SOCK_EV_GHOST_SOCKET, SOCK_EV_DUP] ∧
      (sock_ev env0 9 10 0 Call.dup World.init).event_types 10 = [SOCK_EV_DUP] ∧
      (sock_ev env0 9 10 0 Call.dup World.init).emitted_types = [SOCK_EV_DUP] := by
  decide

theorem ghost_emitted (env : Env) (fd : Nat) (w : World) :
    (sock_ev_ghost_socket env fd w).emitted = w.emitted := by
  simp [sock_ev_ghost_socket, alloc_socket]

theorem after_ghost_emitted (env : Env) (fd : Nat) (w : World) :
    (after_ghost env fd w).emitted = w.emitted := by
  unfold after_ghost
  split
  · rfl
  · exact ghost_emitted env fd w

/-- C9 (amended): the events handed to `output_event` are those appended by the
postlude of an entry point. Every entry point that opens with the common prelude emits
its recorded event and after it the tcp_info event of the nested sampling if that
fires, and (unless it is `sock_ev_close`, which frees the entry) these are the last
events of the list at `fd`. The synthetic events are appended without being emitted:
`sock_ev_forked_socket`, `sock_ev_ghost_socket` and the block `DUP_SOCKET` leave the
emitted events as they are. -/
theorem postlude_events_are_emitted (env : Env) (fd : Nat) (ret err : Int) (c : Call)
    (w : World) (sock_info : SockInfo) (l : Locals) :
    (∃ (ev : SockEvent) (rest : List SockEvent),
      (sock_ev env fd ret err c w).emitted = w.emitted ++ ev :: rest ∧
      ev.type = c.evType ∧ (rest = [] ∨ ∃ t, rest = [t] ∧ t.type = SOCK_EV_TCP_INFO) ∧
      (c = Call.close ∨
        ∃ older, (sock_ev env fd ret err c w).events fd = older ++ ev :: rest)) ∧
    (sock_ev_forked_socket env fd sock_info w).emitted = w.emitted ∧
    (sock_ev_ghost_socket env fd w).emitted = w.emitted ∧
    (DUP_SOCKET env c.evType fd ret err l).w.emitted = l.w.emitted := by
  refine ⟨?_, ?_, ghost_emitted env fd w, ?_⟩
  · obtain ⟨s0, h0⟩ := after_ghost_entry env fd w
    obtain ⟨l, s', rest, ha, hp, he⟩ := sock_ev_effect env fd ret err c w s0 h0
    refine ⟨l.ev, rest, ?_, ha.ev_type, ?_, ?_⟩
    · rw [he]
      split
      · rw [(free_and_dump_frame env fd _).2.1, hp.emitted, ha.emitted, after_ghost_emitted]
      · rw [hp.emitted, ha.emitted, after_ghost_emitted]
    · rcases hp.rest_shape with h | ⟨t, h1, h2, _⟩
      · exact Or.inl h
      · exact Or.inr ⟨t, h1, h2⟩
    · by_cases hcl : c = Call.close
      · exact Or.inl hcl
      · right
        refine ⟨l.sock.events, ?_⟩
        rw [he]
        simp only [hcl, if_false]
        unfold World.events World.entry
        rw [hp.table, ra_get_store _ _ _ _ ha.present]
        simp [hp.events]
  · simp [sock_ev_forked_socket, alloc_socket]
  · rw [dup_socket_eq]

/-! ## C10 -/

/-- C10 (counterexample): an AF_PACKET socket traced on fd 5 and bound with a
`bind` that returned 0: the entry has bound = true and the family of its bound_addr is
17 (AF_PACKET), neither AF_INET nor AF_INET6. -/
theorem bound_family_not_inet :
    (scenario_bind_packet.entry 5).map (fun s => s.bound) = some true ∧
      (scenario_bind_packet.entry 5).map (fun s => sa_family s.bound_addr) = some 17 ∧
      AF_INET = 2 ∧ AF_INET6 = 10 := by
  decide

theorem last_bind_append (evs : List SockEvent) (e : SockEvent) :
    last_bind (evs ++ [e]) = (bind_addr_of e).or (last_bind evs) := by
  unfold last_bind
  rw [List.reverse_append]
  simp only [List.reverse_cons, List.reverse_nil, List.nil_append, List.singleton_append,
    List.findSome?_cons]
  cases bind_addr_of e <;> rfl

theorem last_bind_append_none (evs rest : List SockEvent)
    (h : ∀ t ∈ rest, bind_addr_of t = none) : last_bind (evs ++ rest) = last_bind evs := by
  induction rest using List.reverseRecOn with
  | nil => simp
  | append_singleton xs x ih =>
    rw [← List.append_assoc, last_bind_append, h x (by simp)]
    simp only [Option.or]
    exact ih (fun t ht => h t (by simp [ht]))

theorem bind_addr_of_type_ne (e : SockEvent) (h : e.type ≠ SOCK_EV_BIND) :
    bind_addr_of e = none := by
  simp [bind_addr_of, h]

theorem bind_addr_of_ret_ne (e : SockEvent) (h : e.return_value ≠ 0) :
    bind_addr_of e = none := by
  simp [bind_addr_of, h]

theorem bound_inv_fresh (id : Nat) (r : Int) (si : SockInfo) (e : SockEvent) :
    bound_inv (fresh_sock id r si e) := by
  intro h
  simp [fresh_sock, push_event, Socket.zero] at h

theorem sockBody_bound_of_not_bind (c : Call) (r : Int) (now : Nat) (s : Socket)
    (h : c.evType ≠ SOCK_EV_BIND ∨ r ≠ 0) :
    (c.sockBody r now s).bound = s.bound ∧ (c.sockBody r now s).bound_addr = s.bound_addr := by
  cases c <;> try exact ⟨rfl, rfl⟩
  case bind addr len =>
    have hr : r ≠ 0 := by
      rcases h with h | h
      · exact absurd rfl h
      · exact h
    simp [Call.sockBody, hr]

theorem bound_inv_step (c : Call) (r : Int) (s0 s' : Socket) (ev : SockEvent)
    (rest : List SockEvent) (now : Nat) (h0 : bound_inv s0)
    (hs : EntryStep c r s0 s' ev rest now) : bound_inv s' := by
  have hrest : ∀ t ∈ rest, bind_addr_of t = none := by
    intro t ht
    rcases hs.rest_shape with h | ⟨t', h1, h2⟩
    · rw [h] at ht
      exact absurd ht (by simp)
    · rw [h1] at ht
      simp only [List.mem_singleton] at ht
      rw [ht]
      exact bind_addr_of_type_ne _ (by rw [h2]; decide)
  have hev : s'.events = (s0.events ++ [ev]) ++ rest := by
    rw [hs.events]
    simp
  by_cases hb : c.evType = SOCK_EV_BIND ∧ r = 0
  · obtain ⟨hty, hr⟩ := hb
    cases c with
    | bind addr len =>
      intro _
      refine ⟨fill_addr Addr.zero addr len, ?_, ?_⟩
      · rw [hev, last_bind_append_none _ _ hrest, last_bind_append]
        have : bind_addr_of ev = some (fill_addr Addr.zero addr len) := by
          simp [bind_addr_of, hs.ev_type, hs.ev_return_value, hs.ev_payload, Call.evType,
            Call.payload, hr]
        rw [this]
        rfl
      · rw [hs.bound_addr]
        simp only [Call.sockBody, hr, beq_self_eq_true, if_true, memcpy, fill_addr]
        exact List.prefix_append _ _
    | _ => simp [Call.evType] at hty
  · have hb' : c.evType ≠ SOCK_EV_BIND ∨ r ≠ 0 := by
      by_cases h1 : c.evType = SOCK_EV_BIND
      · right
        intro h2
        exact hb ⟨h1, h2⟩
      · exact Or.inl h1
    obtain ⟨hbd, hba⟩ := sockBody_bound_of_not_bind c r now s0 hb'
    intro hbound
    rw [hs.bound, hbd] at hbound
    obtain ⟨a, ha1, ha2⟩ := h0 hbound
    refine ⟨a, ?_, ?_⟩
    · rw [hev, last_bind_append_none _ _ hrest, last_bind_append]
      have : bind_addr_of ev = none := by
        rcases hb' with h | h
        · exact bind_addr_of_type_ne _ (by rw [hs.ev_type]; exact h)
        · exact bind_addr_of_ret_ne _ (by rw [hs.ev_return_value]; exact h)
      rw [this]
      exact ha1
    · rw [hs.bound_addr, hba]
      exact ha2

theorem sa_family_of_front (p l : List Nat) (h : p <+: l) (hp : 2 ≤ p.length) :
    sa_family l = sa_family p := by
  obtain ⟨t, rfl⟩ := h
  unfold sa_family
  rw [List.getD_append _ _ _ _ (by omega), List.getD_append _ _ _ _ (by omega)]

theorem sa_family_take (l : List Nat) (n : Nat) (hn : 2 ≤ n) :
    sa_family (l.take n) = sa_family l := by
  unfold sa_family
  simp only [List.getD_eq_getElem?_getD]
  rw [List.getElem?_take_of_lt (by omega), List.getElem?_take_of_lt (by omega)]

/-- C10 (amended): in every state reachable through the recording interface, an
entry with bound = true holds in its list a bind event that returned 0, and the first
`len` bytes of the address recorded on the last such event are the first bytes of
`bound_addr`; hence, when that address holds its two family bytes (2 <= len, and len
within the recorded storage), `bound_addr` has the address family recorded on that bind
event. The family is the one of the address passed to bind, whatever it is. -/
theorem bound_addr_is_last_bind (w : World) (hr : Reachable w) (fd : Nat) (s : Socket)
    (hs : w.entry fd = some s) (hb : s.bound = true) :
    ∃ a, last_bind s.events = some a ∧ a.sockaddr_sto.take a.len <+: s.bound_addr ∧
      (2 ≤ a.len → a.len ≤ a.sockaddr_sto.length →
        sa_family s.bound_addr = sa_family a.sockaddr_sto) := by
  have hinv := reachable_invariant bound_inv bound_inv_fresh bound_inv_step w hr fd s hs
  obtain ⟨a, h1, h2⟩ := hinv hb
  refine ⟨a, h1, h2, ?_⟩
  intro hlen hsto
  rw [sa_family_of_front _ _ h2 (by rw [List.length_take]; omega), sa_family_take _ _ hlen]

/-! ## The entry recorded on, in detail -/

/-- The entry at `fd` after the postlude of a call that does not replace the entry at
`fd` itself: its state is the state after the body, with the recorded events appended. -/
theorem source_fields (env : Env) (fd : Nat) (ret err : Int) (c : Call) (w : World)
    (s0 : Socket) (h0 : (after_ghost env fd w).entry fd = some s0)
    (hd : ¬ (c.dups (c.retval ret) = true ∧ ret = (fd : Int))) :
    ∃ (w' : World) (s' : Socket) (ev : SockEvent) (rest : List SockEvent) (now : Nat),
      sock_ev env fd ret err c w
        = (if c = Call.close then free_and_dump_socket env fd w' else w') ∧
      w'.entry fd = some s' ∧ EntryStep c (c.retval ret) s0 s' ev rest now ∧
      (sampling_disabled env ∨ c.consType = SOCK_EV_TCP_INFO →
        rest = [] ∧ s' = push_event (c.sockBody (c.retval ret) now s0) ev) := by
  obtain ⟨l, s', rest, ha, hp, he⟩ := sock_ev_effect env fd ret err c w s0 h0
  have hsock : ∃ now, l.sock = c.sockBody (c.retval ret) now s0 := by
    by_cases hdup : c.dups (c.retval ret) = true
    · obtain ⟨htab, _, hls⟩ := ha.dup hdup
      have hne : ret ≠ (fd : Int) := fun h => hd ⟨hdup, h⟩
      rw [htab, ra_get_put_ne _ _ _ _ hne] at hls
      unfold World.entry at h0
      rw [h0] at hls
      simp only [Option.getD_some] at hls
      refine ⟨0, ?_⟩
      rw [hls, sockBody_of_isDup c _ _ _ (isDup_of_dups c _ hdup)]
    · have hdup' : c.dups (c.retval ret) = false := by simpa using hdup
      obtain ⟨_, _, now, hls⟩ := ha.nodup hdup'
      exact ⟨now, hls⟩
  obtain ⟨now, hls⟩ := hsock
  have hf := sockBody_frame c (c.retval ret) now s0
  refine ⟨_, s', l.ev, rest, now, he, ?_, ?_, ?_⟩
  · unfold World.entry
    rw [hp.table, ra_get_store _ _ _ _ ha.present]
    simp
  · constructor
    · rw [hp.events, hls, hf.1]
    · rw [hp.events_count, hls, hf.2.1]
    · exact ha.ev_type
    · exact ha.ev_return_value
    · exact ha.ev_payload
    · rcases hp.rest_shape with h | ⟨t, h1, h2, _⟩
      · exact Or.inl h
      · exact Or.inr ⟨t, h1, h2⟩
    · rw [hp.id, hls, hf.2.2.1]
    · rw [hp.fd_eq, hls, hf.2.2.2.1]
    · rw [hp.sock_info, hls, hf.2.2.2.2.1]
    · rw [hp.capture_switch, hls, hf.2.2.2.2.2]
    · rw [hp.bound, hls]
    · rw [hp.bound_addr, hls]
    · rw [hp.bytes_sent, hls]
    · rw [hp.bytes_received, hls]
  · intro hq
    have hfire : sample_fires env c.consType fd l = false := by
      rcases hq with h | h
      · exact sample_fires_disabled _ _ _ _ h
      · rw [h]
        exact sample_fires_tcp_info env fd l
    have := hp.quiet hfire
    rw [hls] at this
    exact this

/-! ## The sampling decision -/

theorem to_long_of_lt (n : Nat) (h : n < 2 ^ 63) : to_long n = (n : Int) := by
  have h2 : n % ULONG_MOD = n := Nat.mod_eq_of_lt (by unfold ULONG_MOD; omega)
  unfold to_long
  rw [h2, if_pos h]

theorem long_sub_of_range (a b : Int) (h1 : -(2 ^ 63) ≤ a - b) (h2 : a - b < 2 ^ 63) :
    long_sub a b = a - b := by
  unfold long_sub
  omega

theorem long_sub_range (a b : Int) : -(2 ^ 63) ≤ long_sub a b ∧ long_sub a b < 2 ^ 63 := by
  unfold long_sub
  omega

theorem to_long_range (n : Nat) : -(2 ^ 63) ≤ to_long n ∧ to_long n < 2 ^ 63 := by
  unfold to_long ULONG_MOD
  split <;> omega

theorem should_dump_iff (env : Env) (w : World) (sock : Socket) :
    (should_dump_tcp_info env w sock).1 = true ↔
      is_tcp_socket env sock.fd = true ∧
        ((0 < env.conf_opt_u ∧
            long_sub (to_long (get_time_micros env w).1) sock.last_info_dump_micros
              > env.conf_opt_u) ∨
          (0 < env.conf_opt_b ∧
            long_sub (to_long (sock.bytes_sent + sock.bytes_received))
                sock.last_info_dump_bytes
              > env.conf_opt_b)) := by
  unfold should_dump_tcp_info
  by_cases ht : is_tcp_socket env sock.fd = true
  · by_cases hu : env.conf_opt_u > 0
    · by_cases hto : long_sub (to_long (get_time_micros env w).1) sock.last_info_dump_micros
          > env.conf_opt_u
      · simp [ht, hu, hto]
      · by_cases hb : env.conf_opt_b > 0
        · simp [ht, hu, hto, hb]
        · simp [ht, hu, hto, hb]
    · by_cases hb : env.conf_opt_b > 0
      · simp [ht, hu, hb]
      · simp [ht, hu, hb]
  · simp [ht]

/-! ## The nested sample, in detail -/

/-- The state after `sock_ev_tcp_info`: with `w0` the state after the ghost check and
`s0` the entry at `fd` in it, the entry gets the two watermarks and `rtt` and one
event, which is also handed to `output_event`; the clock of the body is read at tick
`w0.ticks + 1`, after the one of `alloc_event`. -/
theorem tcp_info_exact (env : Env) (fd : Nat) (ret err : Int) (info : TcpInfo) (w : World)
    (s0 : Socket) (h0 : (after_ghost env fd w).entry fd = some s0) :
    ∃ (n : Nat) (ev : SockEvent),
      ev = { (alloc_event env (after_ghost env fd w) SOCK_EV_TCP_INFO ret err
              s0.events_count).1 with payload := Payload.SockEvTcpInfo info } ∧
      sock_ev_tcp_info env fd ret err info w
        = { after_ghost env fd w with
            table := ra_store (after_ghost env fd w).table fd
              (push_event
                { s0 with
                  last_info_dump_bytes := to_long (s0.bytes_sent + s0.bytes_received)
                  last_info_dump_micros := to_long (get_time_micros env
                    { after_ghost env fd w with ticks := (after_ghost env fd w).ticks + 1 }).1
                  rtt := info.tcpi_rtt } ev),
            emitted := (after_ghost env fd w).emitted ++ [ev],
            ticks := n } := by
  rw [sock_ev_tcp_info_eq, postlude_tcp_info, prelude_eq env _ fd _ _ w s0 h0]
  obtain ⟨n, hn⟩ := locked_snd env SOCK_EV_TCP_INFO fd
    ((Call.tcp_info info).body env ret
      { w := { after_ghost env fd w with ticks := (after_ghost env fd w).ticks + 1 },
        sock := s0,
        ev := (alloc_event env (after_ghost env fd w) SOCK_EV_TCP_INFO ret err
          s0.events_count).1 })
  refine ⟨n, _, rfl, ?_⟩
  rw [hn]
  simp [Call.body, Call.sockBody, Call.payload]

/-- The entry at `fd` after `sock_ev_tcp_info`. -/
theorem tcp_info_entry (env : Env) (fd : Nat) (ret err : Int) (info : TcpInfo) (w : World)
    (s0 : Socket) (h0 : (after_ghost env fd w).entry fd = some s0) :
    ∃ ev : SockEvent,
      ev.type = SOCK_EV_TCP_INFO ∧ ev.return_value = ret ∧ ev.err = err ∧
      ev.id = s0.events_count ∧ ev.payload = Payload.SockEvTcpInfo info ∧
      (sock_ev_tcp_info env fd ret err info w).entry fd
        = some (push_event
            { s0 with
              last_info_dump_bytes := to_long (s0.bytes_sent + s0.bytes_received)
              last_info_dump_micros := to_long (get_time_micros env
                { after_ghost env fd w with ticks := (after_ghost env fd w).ticks + 1 }).1
              rtt := info.tcpi_rtt } ev) ∧
      (sock_ev_tcp_info env fd ret err info w).emitted
        = (after_ghost env fd w).emitted ++ [ev] := by
  obtain ⟨n, ev, hev, hw⟩ := tcp_info_exact env fd ret err info w s0 h0
  have hp : ra_is_present (after_ghost env fd w).table fd = true :=
    ra_is_present_of_get _ _ _ h0
  refine ⟨ev, ?_, ?_, ?_, ?_, ?_, ?_, ?_⟩
  · rw [hev]; simp
  · rw [hev]; simp
  · rw [hev]; simp
  · rw [hev]; simp
  · rw [hev]
  · rw [hw]
    simp [World.entry, ra_get_store _ _ _ _ hp]
  · rw [hw]

theorem present_below_succ (w : World) (n : Nat) :
    present_below w (n + 1)
      = present_below w n + (if ra_is_present w.table n = true then 1 else 0) := by
  unfold present_below
  rw [List.range_succ, List.filter_append, List.length_append]
  by_cases h : ra_is_present w.table n = true <;> simp [h]

theorem forked_effect (env : Env) (fd : Nat) (si : SockInfo) (w : World) :
    ∃ ev : SockEvent,
      (sock_ev_forked_socket env fd si w).table
        = ra_put_elem w.table fd (fresh_sock w.connections_count fd si ev) ∧
      (sock_ev_forked_socket env fd si w).connections_count = w.connections_count + 1 ∧
      (sock_ev_forked_socket env fd si w).emitted = w.emitted ∧
      ev.type = SOCK_EV_FORKED_SOCKET ∧ ev.id = 0 ∧ ev.return_value = 0 ∧
      ev.payload = Payload.SockEvForkedSocket si := by
  refine ⟨{ (alloc_event env (alloc_socket fd w).2 SOCK_EV_FORKED_SOCKET 0 0 0).1 with
            payload := Payload.SockEvForkedSocket si }, ?_, ?_, ?_, rfl, rfl, ?_, rfl⟩
  · simp [sock_ev_forked_socket, fresh_sock, alloc_socket]
  · simp [sock_ev_forked_socket, alloc_socket]
  · simp [sock_ev_forked_socket, alloc_socket]
  · simp

/-- The body of the loop of `sock_ev_reset` at an occupied index. -/
theorem reset_step_present (env : Env) (x : World) (i : Nat) (s : Socket)
    (h : x.entry i = some s) :
    ∃ ev : SockEvent,
      ev.type = SOCK_EV_FORKED_SOCKET ∧ ev.id = 0 ∧ ev.return_value = 0 ∧
      ev.payload = Payload.SockEvForkedSocket s.sock_info ∧
      (sock_ev_reset_step env x i).connections_count = x.connections_count + 1 ∧
      (sock_ev_reset_step env x i).emitted = x.emitted ∧
      ∀ j, (sock_ev_reset_step env x i).entry j
        = if j = i then some (fresh_sock x.connections_count i s.sock_info ev)
          else x.entry j := by
  have hp : ra_is_present x.table i = true := ra_is_present_of_get _ _ _ h
  unfold World.entry at h
  obtain ⟨ev, htab, hcc, hem, hty, hid, hret, hpl⟩ :=
    forked_effect env i s.sock_info { x with table := (ra_remove_elem x.table i).2 }
  have hstep : sock_ev_reset_step env x i
      = sock_ev_forked_socket env i s.sock_info
          { x with table := (ra_remove_elem x.table i).2 } := by
    simp [sock_ev_reset_step, hp, ra_remove_fst, h]
  refine ⟨ev, hty, hid, hret, hpl, ?_, ?_, ?_⟩
  · rw [hstep, hcc]
  · rw [hstep, hem]
  · intro j
    unfold World.entry
    rw [hstep, htab, ra_get_put]
    by_cases hji : j = i
    · simp [hji]
    · simp only [hji, if_false]
      rw [ra_get_remove]
      simp [hji]

/-- The body of the loop of `sock_ev_reset` at an empty index. -/
theorem reset_step_absent (env : Env) (x : World) (i : Nat) (h : x.entry i = none) :
    sock_ev_reset_step env x i = x := by
  have hp : ra_is_present x.table i = false := ra_not_present_of_get _ _ h
  simp [sock_ev_reset_step, hp]

/-- The state of the loop of `sock_ev_reset` after the indices below `n`: the counter
is the number of entries re-created so far, the slots below `n` hold the fresh entries
and the slots from `n` on are untouched. -/
theorem reset_loop (env : Env) (w : World) (n : Nat) :
    ((List.range n).foldl (sock_ev_reset_step env)
        { w with connections_count := 0 }).connections_count = present_below w n ∧
    ((List.range n).foldl (sock_ev_reset_step env) { w with connections_count := 0 }).emitted
      = w.emitted ∧
    ∀ j,
      (n ≤ j → ((List.range n).foldl (sock_ev_reset_step env)
        { w with connections_count := 0 }).entry j = w.entry j) ∧
      (j < n → w.entry j = none → ((List.range n).foldl (sock_ev_reset_step env)
        { w with connections_count := 0 }).entry j = none) ∧
      (j < n → ∀ s, w.entry j = some s → ∃ ev : SockEvent,
        ev.type = SOCK_EV_FORKED_SOCKET ∧ ev.id = 0 ∧ ev.return_value = 0 ∧
        ev.payload = Payload.SockEvForkedSocket s.sock_info ∧
        ((List.range n).foldl (sock_ev_reset_step env)
          { w with connections_count := 0 }).entry j
          = some (fresh_sock (present_below w j) j s.sock_info ev)) := by
  induction n with
  | zero =>
    refine ⟨by simp [present_below], by simp, ?_⟩
    intro j
    refine ⟨fun _ => by simp [World.entry], fun h => absurd h (by omega),
      fun h => absurd h (by omega)⟩
  | succ n ih =>
    obtain ⟨hcc, hem, hent⟩ := ih
    rw [List.range_succ, List.foldl_append]
    simp only [List.foldl_cons, List.foldl_nil]
    generalize hx : (List.range n).foldl (sock_ev_reset_step env)
      { w with connections_count := 0 } = x at hcc hem hent ⊢
    have hxn : x.entry n = w.entry n := (hent n).1 (le_refl n)
    cases hwn : w.entry n with
    | none =>
      rw [hwn] at hxn
      rw [reset_step_absent env x n hxn]
      have hnp : ra_is_present w.table n = false := ra_not_present_of_get _ _ hwn
      refine ⟨?_, hem, ?_⟩
      · rw [present_below_succ, hcc]
        simp [hnp]
      · intro j
        refine ⟨fun h => (hent j).1 (by omega), ?_, ?_⟩
        · intro hj hn
          by_cases hjn : j = n
          · rw [hjn]; exact hxn
          · exact (hent j).2.1 (by omega) hn
        · intro hj s hs
          by_cases hjn : j = n
          · rw [hjn, hwn] at hs
            exact absurd hs (by simp)
          · exact (hent j).2.2 (by omega) s hs
    | some sn =>
      rw [hwn] at hxn
      have hpp : ra_is_present w.table n = true := ra_is_present_of_get _ _ _ hwn
      obtain ⟨ev, hty, hid, hret, hpl, hc2, he2, hall⟩ := reset_step_present env x n sn hxn
      refine ⟨?_, ?_, ?_⟩
      · rw [hc2, present_below_succ, hcc]
        simp [hpp]
      · rw [he2, hem]
      · intro j
        rw [hall j]
        refine ⟨?_, ?_, ?_⟩
        · intro h
          have hjn : j ≠ n := by omega
          simp only [hjn, if_false]
          exact (hent j).1 (by omega)
        · intro hj hn
          by_cases hjn : j = n
          · rw [hjn, hwn] at hn
            exact absurd hn (by simp)
          · simp only [hjn, if_false]
            exact (hent j).2.1 (by omega) hn
        · intro hj s hs
          by_cases hjn : j = n
          · subst hjn
            rw [hwn] at hs
            injection hs with hs
            subst hs
            exact ⟨ev, hty, hid, hret, hpl, by simp [hcc]⟩
          · simp only [hjn, if_false]
            exact (hent j).2.2 (by omega) s hs

theorem entry_none_of_size_le (w : World) (j : Nat) (h : ra_get_size w.table ≤ j) :
    w.entry j = none := by
  unfold World.entry ra_get_and_lock_elem
  unfold ra_get_size at h
  simp [List.getElem?_eq_none h]

/-- The state after `sock_ev_reset`. -/
theorem reset_effect (env : Env) (w : World) :
    (sock_ev_reset env w).connections_count = present_below w (ra_get_size w.table) ∧
    (sock_ev_reset env w).emitted = w.emitted ∧
    ∀ j,
      (w.entry j = none → (sock_ev_reset env w).entry j = none) ∧
      (∀ s, w.entry j = some s → ∃ ev : SockEvent,
        ev.type = SOCK_EV_FORKED_SOCKET ∧ ev.id = 0 ∧ ev.return_value = 0 ∧
        ev.payload = Payload.SockEvForkedSocket s.sock_info ∧
        (sock_ev_reset env w).entry j
          = some (fresh_sock (present_below w j) j s.sock_info ev)) := by
  obtain ⟨hcc, hem, hent⟩ := reset_loop env w (ra_get_size w.table)
  have hr : sock_ev_reset env w
      = (List.range (ra_get_size w.table)).foldl (sock_ev_reset_step env)
          { w with connections_count := 0 } := rfl
  rw [hr]
  refine ⟨hcc, hem, ?_⟩
  intro j
  by_cases hj : j < ra_get_size w.table
  · exact ⟨(hent j).2.1 hj, (hent j).2.2 hj⟩
  · have hn := entry_none_of_size_le w j (by omega)
    refine ⟨fun _ => ?_, fun s hs => ?_⟩
    · rw [(hent j).1 (by omega)]
      exact hn
    · rw [hn] at hs
      exact absurd hs (by simp)

/-! ## Connection ids stay distinct -/

theorem sockBody_bytes_sent (c : Call) (r : Int) (now : Nat) (s : Socket) :
    (c.sockBody r now s).bytes_sent % ULONG_MOD = (s.bytes_sent + c.sent_bytes) % ULONG_MOD ∧
      (s.bytes_sent + c.sent_bytes < ULONG_MOD →
        (c.sockBody r now s).bytes_sent = s.bytes_sent + c.sent_bytes) := by
  cases c <;>
    simp [Call.sockBody, Call.sent_bytes, add_bytes_sent, add_bytes_received] <;>
    first
    | (intro h; exact Nat.mod_eq_of_lt h)
    | (split <;> simp)

theorem sockBody_bytes_received (c : Call) (r : Int) (now : Nat) (s : Socket) :
    (c.sockBody r now s).bytes_received % ULONG_MOD
        = (s.bytes_received + c.received_bytes) % ULONG_MOD ∧
      (s.bytes_received + c.received_bytes < ULONG_MOD →
        (c.sockBody r now s).bytes_received = s.bytes_received + c.received_bytes) := by
  cases c <;>
    simp [Call.sockBody, Call.received_bytes, add_bytes_sent, add_bytes_received] <;>
    first
    | (intro h; exact Nat.mod_eq_of_lt h)
    | (split <;> simp)

/-- C12 (counterexample): on the traced fd 5 a send of 2^64 - 1 bytes brings bytes_sent
to 2^64 - 1, and the following send of 2 bytes brings it to 1: the counter has
decreased. -/
theorem bytes_sent_wraps_around :
    (scenario_send_max.entry 5).map (fun s => s.bytes_sent) = some (2 ^ 64 - 1) ∧
      (scenario_send_wrap.entry 5).map (fun s => s.bytes_sent) = some 1 := by
  decide

/-- C12 (amended): for every entry point that opens with the common prelude and
neither frees the entry (`sock_ev_close`) nor replaces it (a successful duplication
returning `fd` itself), with `s0` the entry found at `fd` (or the ghost entry created
for it): bytes_sent and bytes_received after the call are the values before plus the
byte count of the call, modulo 2^64; whenever that sum stays below 2^64 the counter is
exactly the sum, hence greater than or equal to its value before the call. -/
theorem counters_add_modulo (env : Env) (fd : Nat) (ret err : Int) (c : Call) (w : World)
    (s0 : Socket) (h0 : (after_ghost env fd w).entry fd = some s0) (hcl : c ≠ Call.close)
    (hd : ¬ (c.dups (c.retval ret) = true ∧ ret = (fd : Int))) :
    ∃ s' : Socket,
      (sock_ev env fd ret err c w).entry fd = some s' ∧
      s'.bytes_sent % ULONG_MOD = (s0.bytes_sent + c.sent_bytes) % ULONG_MOD ∧
      s'.bytes_received % ULONG_MOD = (s0.bytes_received + c.received_bytes) % ULONG_MOD ∧
      (s0.bytes_sent + c.sent_bytes < ULONG_MOD →
        s'.bytes_sent = s0.bytes_sent + c.sent_bytes ∧ s0.bytes_sent ≤ s'.bytes_sent) ∧
      (s0.bytes_received + c.received_bytes < ULONG_MOD →
        s'.bytes_received = s0.bytes_received + c.received_bytes ∧
          s0.bytes_received ≤ s'.bytes_received) := by
  obtain ⟨w', s', ev, rest, now, heq, hent, hstep, _⟩ :=
    source_fields env fd ret err c w s0 h0 hd
  simp only [hcl, if_false] at heq
  obtain ⟨hs1, hs2⟩ := sockBody_bytes_sent c (c.retval ret) now s0
  obtain ⟨hr1, hr2⟩ := sockBody_bytes_received c (c.retval ret) now s0
  refine ⟨s', ?_, ?_, ?_, ?_, ?_⟩
  · rw [heq]
    exact hent
  · rw [hstep.bytes_sent]
    exact hs1
  · rw [hstep.bytes_received]
    exact hr1
  · intro h
    rw [hstep.bytes_sent, hs2 h]
    exact ⟨rfl, Nat.le_add_right _ _⟩
  · intro h
    rw [hstep.bytes_received, hr2 h]
    exact ⟨rfl, Nat.le_add_right _ _⟩

theorem accounting_entry (env : Env) (fd : Nat) (ret err : Int) (c : Call) (w : World)
    (s0 : Socket) (h0 : (after_ghost env fd w).entry fd = some s0)
    (hnd : c.dups (c.retval ret) = false) (hcl : c ≠ Call.close) (hrv : c.retval ret = ret) :
    ∃ (s' : Socket) (ev : SockEvent) (now : Nat),
      (sock_ev env fd ret err c w).entry fd = some s' ∧
      s'.bytes_sent = (c.sockBody ret now s0).bytes_sent ∧
      s'.bytes_received = (c.sockBody ret now s0).bytes_received ∧
      ev ∈ s'.events ∧ ev.type = c.evType ∧ ev.return_value = ret ∧
      ev.payload = c.payload ret := by
  obtain ⟨w', s', ev, rest, now, heq, hent, hstep, _⟩ :=
    source_fields env fd ret err c w s0 h0 (by simp [hnd])
  simp only [hcl, if_false] at heq
  rw [hrv] at hstep
  refine ⟨s', ev, now, ?_, hstep.bytes_sent, hstep.bytes_received, ?_, hstep.ev_type,
    hstep.ev_return_value, hstep.ev_payload⟩
  · rw [heq]
    exact hent
  · rw [hstep.events]
    simp

/-- C13: byte accounting uses the requested count and ignores the return value. For
every `ret`, with `s0` the entry found at `fd` (or the ghost entry created for it):
send, sendto and write add the requested `bytes` to bytes_sent (the addition of the
64-bit counter: exactly `bytes` more whenever the sum stays below 2^64) and leave
bytes_received unchanged; recv, recvfrom, read and sendfile add `bytes` to
bytes_received and leave bytes_sent unchanged; the recorded event is in the entry's
list and its member `bytes` is the requested count. -/
theorem byte_accounting_uses_requested_count (env : Env) (fd : Nat) (ret err : Int)
    (w : World) (s0 : Socket) (bytes : Nat) (flags : Int) (addr : Option (List Nat))
    (len : Nat) (h0 : (after_ghost env fd w).entry fd = some s0) :
    (∀ c, c = Call.send bytes flags ∨ c = Call.sendto bytes flags addr len ∨
        c = Call.write bytes →
      ∃ (s' : Socket) (ev : SockEvent),
        (sock_ev env fd ret err c w).entry fd = some s' ∧
        s'.bytes_sent = (s0.bytes_sent + bytes) % ULONG_MOD ∧
        (s0.bytes_sent + bytes < ULONG_MOD → s'.bytes_sent = s0.bytes_sent + bytes) ∧
        s'.bytes_received = s0.bytes_received ∧
        ev ∈ s'.events ∧ ev.type = c.evType ∧ ev.return_value = ret ∧
        ev.payload.bytes = some bytes) ∧
    (∀ c, c = Call.recv bytes flags ∨ c = Call.recvfrom bytes flags addr len ∨
        c = Call.read bytes ∨ c = Call.sendfile bytes →
      ∃ (s' : Socket) (ev : SockEvent),
        (sock_ev env fd ret err c w).entry fd = some s' ∧
        s'.bytes_received = (s0.bytes_received + bytes) % ULONG_MOD ∧
        (s0.bytes_received + bytes < ULONG_MOD →
          s'.bytes_received = s0.bytes_received + bytes) ∧
        s'.bytes_sent = s0.bytes_sent ∧
        ev ∈ s'.events ∧ ev.type = c.evType ∧ ev.return_value = ret ∧
        ev.payload.bytes = some bytes) := by
  constructor
  · intro c hc
    have hfacts : c.dups (c.retval ret) = false ∧ c ≠ Call.close ∧ c.retval ret = ret ∧
        (∀ now, (c.sockBody ret now s0).bytes_sent = (s0.bytes_sent + bytes) % ULONG_MOD ∧
          (c.sockBody ret now s0).bytes_received = s0.bytes_received) ∧
        (c.payload ret).bytes = some bytes := by
      rcases hc with h | h | h <;> subst h <;>
        simp [Call.dups, Call.retval, Call.sockBody, Call.payload, Payload.bytes,
          add_bytes_sent]
    obtain ⟨hnd, hcl, hrv, hbody, hpl⟩ := hfacts
    obtain ⟨s', ev, now, hent, hbs, hbr, hmem, hty, hret, hpay⟩ :=
      accounting_entry env fd ret err c w s0 h0 hnd hcl hrv
    refine ⟨s', ev, hent, ?_, ?_, ?_, hmem, hty, hret, ?_⟩
    · rw [hbs, (hbody now).1]
    · intro hlt
      rw [hbs, (hbody now).1]
      exact Nat.mod_eq_of_lt hlt
    · rw [hbr, (hbody now).2]
    · rw [hpay]
      exact hpl
  · intro c hc
    have hfacts : c.dups (c.retval ret) = false ∧ c ≠ Call.close ∧ c.retval ret = ret ∧
        (∀ now, (c.sockBody ret now s0).bytes_received
            = (s0.bytes_received + bytes) % ULONG_MOD ∧
          (c.sockBody ret now s0).bytes_sent = s0.bytes_sent) ∧
        (c.payload ret).bytes = some bytes := by
      rcases hc with h | h | h | h <;> subst h <;>
        simp [Call.dups, Call.retval, Call.sockBody, Call.payload, Payload.bytes,
          add_bytes_received]
    obtain ⟨hnd, hcl, hrv, hbody, hpl⟩ := hfacts
    obtain ⟨s', ev, now, hent, hbs, hbr, hmem, hty, hret, hpay⟩ :=
      accounting_entry env fd ret err c w s0 h0 hnd hcl hrv
    refine ⟨s', ev, hent, ?_, ?_, ?_, hmem, hty, hret, ?_⟩
    · rw [hbr, (hbody now).1]
    · intro hlt
      rw [hbr, (hbody now).1]
      exact Nat.mod_eq_of_lt hlt
    · rw [hbs, (hbody now).2]
    · rw [hpay]
      exact hpl

/-- C14 (counterexample): on the traced TCP fd 5 with B = 10, after a send of 2^63
requested bytes the entry has bytes_sent = 2^63, bytes_received = 0 and
last_info_dump_bytes = 0, so that bytes_sent + bytes_received - last_info_dump_bytes
exceeds B; yet `should_dump_tcp_info` is false on that entry, and the send was followed
by no tcp_info event: the byte total is stored in a `long`, where it is -2^63. -/
theorem large_total_is_not_sampled :
    scenario_send_half.entry 5 = some send_half_entry ∧
      send_half_entry.bytes_sent = 2 ^ 63 ∧ send_half_entry.bytes_received = 0 ∧
      send_half_entry.last_info_dump_bytes = 0 ∧
      is_tcp_socket env_sampling send_half_entry.fd = true ∧
      0 < env_sampling.conf_opt_b ∧
      ((send_half_entry.bytes_sent : Int) + (send_half_entry.bytes_received : Int)
          - send_half_entry.last_info_dump_bytes > env_sampling.conf_opt_b) ∧
      (should_dump_tcp_info env_sampling scenario_send_half send_half_entry).1 = false ∧
      scenario_send_half.event_types 5 = [SOCK_EV_SOCKET, SOCK_EV_SEND] := by
  decide

/-- C14 (amended): `should_dump_tcp_info(sock)` is true if and only if the fd is a TCP
socket and either (U > 0 and now - last_info_dump_micros > U) or (B > 0 and bytes_sent +
bytes_received - last_info_dump_bytes > B), both comparisons strict and both
differences computed in `long` (64 bits, two's complement) from the `long` values of
the clock and of the byte total, where now is the clock value read by the call.
Whenever now and bytes_sent + bytes_received are below 2^63 and the two differences
lie in the range of `long`, these are the differences themselves. In particular the
result is false for every socket when U = 0 and B = 0, false for every non-TCP socket,
false when neither `long` difference exceeds its threshold, and the clock is read
exactly when the fd is a TCP socket and U > 0. -/
theorem should_dump_tcp_info_iff (env : Env) (w : World) (sock : Socket) :
    ((should_dump_tcp_info env w sock).1 = true ↔
      is_tcp_socket env sock.fd = true ∧
        ((0 < env.conf_opt_u ∧
            long_sub (to_long (get_time_micros env w).1) sock.last_info_dump_micros
              > env.conf_opt_u) ∨
          (0 < env.conf_opt_b ∧
            long_sub (to_long (sock.bytes_sent + sock.bytes_received))
                sock.last_info_dump_bytes
              > env.conf_opt_b))) ∧
    ((get_time_micros env w).1 < 2 ^ 63 → sock.bytes_sent + sock.bytes_received < 2 ^ 63 →
      -(2 ^ 63) ≤ ((get_time_micros env w).1 : Int) - sock.last_info_dump_micros →
      ((get_time_micros env w).1 : Int) - sock.last_info_dump_micros < 2 ^ 63 →
      -(2 ^ 63) ≤ (sock.bytes_sent : Int) + (sock.bytes_received : Int)
          - sock.last_info_dump_bytes →
      (sock.bytes_sent : Int) + (sock.bytes_received : Int) - sock.last_info_dump_bytes
          < 2 ^ 63 →
      ((should_dump_tcp_info env w sock).1 = true ↔
        is_tcp_socket env sock.fd = true ∧
          ((0 < env.conf_opt_u ∧
              ((get_time_micros env w).1 : Int) - sock.last_info_dump_micros
                > env.conf_opt_u) ∨
            (0 < env.conf_opt_b ∧
              (sock.bytes_sent : Int) + (sock.bytes_received : Int)
                  - sock.last_info_dump_bytes
                > env.conf_opt_b)))) ∧
    (env.conf_opt_u = 0 ∧ env.conf_opt_b = 0 → (should_dump_tcp_info env w sock).1 = false) ∧
    (is_tcp_socket env sock.fd = false → (should_dump_tcp_info env w sock).1 = false) ∧
    (long_sub (to_long (get_time_micros env w).1) sock.last_info_dump_micros ≤ env.conf_opt_u ∧
      long_sub (to_long (sock.bytes_sent + sock.bytes_received)) sock.last_info_dump_bytes
        ≤ env.conf_opt_b → (should_dump_tcp_info env w sock).1 = false) ∧
    ((should_dump_tcp_info env w sock).2.ticks
      = if is_tcp_socket env sock.fd = true ∧ 0 < env.conf_opt_u then w.ticks + 1
        else w.ticks) := by
  have hiff := should_dump_iff env w sock
  refine ⟨hiff, ?_, ?_, ?_, ?_, ?_⟩
  · intro hn hb h1 h2 h3 h4
    rw [hiff, to_long_of_lt _ hn, to_long_of_lt _ hb, long_sub_of_range _ _ h1 h2,
      long_sub_of_range _ _ (by push_cast; exact h3) (by push_cast; exact h4)]
    push_cast
    rfl
  · rintro ⟨hu, hb⟩
    rw [Bool.eq_false_iff]
    intro h
    rcases (hiff.mp h).2 with ⟨h1, _⟩ | ⟨h1, _⟩ <;> omega
  · intro ht
    rw [Bool.eq_false_iff]
    intro h
    rw [(hiff.mp h).1] at ht
    exact Bool.noConfusion ht
  · rintro ⟨hu, hb⟩
    rw [Bool.eq_false_iff]
    intro h
    rcases (hiff.mp h).2 with ⟨_, h1⟩ | ⟨_, h1⟩ <;> omega
  · unfold should_dump_tcp_info
    by_cases ht : is_tcp_socket env sock.fd = true
    · by_cases hu : env.conf_opt_u > 0
      · have hticks : (get_time_micros env w).2.ticks = w.ticks + 1 := by
          rw [get_time_micros_snd]
        simp only [ht, hu]
        simp only [Bool.not_true, Bool.false_eq_true, if_false, if_true, and_self]
        split
        · exact hticks
        · split <;> exact hticks
      · simp only [ht, hu]
        simp only [Bool.not_true, Bool.false_eq_true, if_false, and_false]
        split <;> rfl
    · simp [ht]

/-! ## Runs of sends under byte-based sampling -/

/-- C16: for every configuration, state and clock, `sock_ev_tcp_info` issues no nested
tcp_info recording: the sampling decision of its postlude is false, the depth bound of
the model is never reached, and with `s0` the entry found at `fd` (or the ghost entry
created for it) the call appends exactly one event, of type tcp_info, to the list of
`fd` and hands exactly that event to `output_event`. Hence every recorded call hands
to `output_event` its own event followed by at most one tcp_info event. -/
theorem tcp_info_never_nests (env : Env) (fd : Nat) (ret err : Int) (info : TcpInfo)
    (w : World) :
    (∀ l, (SOCK_EV_POSTLUDE_locked env SOCK_EV_TCP_INFO fd l).1 = false) ∧
    (∀ n, sock_ev_tcp_info_fuel env (n + 1) fd ret err info w
      = sock_ev_tcp_info env fd ret err info w) ∧
    (∃ (s0 s' : Socket) (ev : SockEvent),
      (after_ghost env fd w).entry fd = some s0 ∧
      (sock_ev_tcp_info env fd ret err info w).entry fd = some s' ∧
      s'.events = s0.events ++ [ev] ∧ s'.events_count = s0.events_count + 1 ∧
      ev.type = SOCK_EV_TCP_INFO ∧
      (sock_ev_tcp_info env fd ret err info w).emitted
        = (after_ghost env fd w).emitted ++ [ev]) ∧
    (∀ (c : Call) (r e : Int), ∃ (ev : SockEvent) (rest : List SockEvent),
      (sock_ev env fd r e c w).emitted = (after_ghost env fd w).emitted ++ ev :: rest ∧
      ev.type = c.evType ∧
      (rest = [] ∨ ∃ t, rest = [t] ∧ t.type = SOCK_EV_TCP_INFO) ∧
      (c.consType = SOCK_EV_TCP_INFO → rest = [])) := by
  obtain ⟨s0, h0⟩ := after_ghost_entry env fd w
  refine ⟨fun l => sock_ev_tcp_info_locked env fd l,
    fun n => sock_ev_tcp_info_fuel_succ env n fd ret err info w, ?_, ?_⟩
  · obtain ⟨ev, hty, _, _, _, _, hent, hem⟩ := tcp_info_entry env fd ret err info w s0 h0
    exact ⟨s0, _, ev, h0, hent, by simp [push_event], by simp [push_event], hty, hem⟩
  · intro c r e
    obtain ⟨l, s', rest, ha, hp, he⟩ := sock_ev_effect env fd r e c w s0 h0
    refine ⟨l.ev, rest, ?_, ha.ev_type, ?_, ?_⟩
    · rw [he]
      split
      · rw [(free_and_dump_frame env fd _).2.1, hp.emitted, ha.emitted]
      · rw [hp.emitted, ha.emitted]
    · rcases hp.rest_shape with h | ⟨t, h1, h2, _⟩
      · exact Or.inl h
      · exact Or.inr ⟨t, h1, h2⟩
    · intro hc
      have hq := hp.quiet
      rw [hc] at hq
      exact (hq (sample_fires_tcp_info env fd l)).1

/-- C19: for every table state, after `sock_ev_reset` an fd absent before is absent,
and an fd that held an entry `s` holds a fresh entry: its sock_info is that of `s`, its
event list is exactly one forked_socket event with id 0 carrying that sock_info, its
bytes_sent, bytes_received and both watermarks are 0, bound is false and no capture is
attached, and its connection id is the number of present fds below it, so that the ids
are 0, 1, 2, ... in ascending fd order and `connections_count` is the number of
entries. -/
theorem reset_recreates_entries (env : Env) (w : World) (fd : Nat) :
    (w.entry fd = none → (sock_ev_reset env w).entry fd = none) ∧
    (∀ s, w.entry fd = some s → ∃ (s' : Socket) (ev : SockEvent),
      (sock_ev_reset env w).entry fd = some s' ∧
      s'.sock_info = s.sock_info ∧ s'.fd = (fd : Int) ∧
      s'.events = [ev] ∧ s'.events_count = 1 ∧
      ev.type = SOCK_EV_FORKED_SOCKET ∧ ev.id = 0 ∧
      ev.payload = Payload.SockEvForkedSocket s.sock_info ∧
      s'.bytes_sent = 0 ∧ s'.bytes_received = 0 ∧
      s'.last_info_dump_bytes = 0 ∧ s'.last_info_dump_micros = 0 ∧
      s'.bound = false ∧ s'.capture_switch = none ∧
      s'.id = present_below w fd) ∧
    (ra_is_present (sock_ev_reset env w).table fd = ra_is_present w.table fd) ∧
    present_below w 0 = 0 ∧
    (∀ i, present_below w (i + 1)
      = present_below w i + (if ra_is_present w.table i = true then 1 else 0)) ∧
    (sock_ev_reset env w).connections_count = present_below w (ra_get_size w.table) := by
  obtain ⟨hcc, _, hent⟩ := reset_effect env w
  have hsome : ∀ s, w.entry fd = some s → ∃ (s' : Socket) (ev : SockEvent),
      (sock_ev_reset env w).entry fd = some s' ∧
      s'.sock_info = s.sock_info ∧ s'.fd = (fd : Int) ∧
      s'.events = [ev] ∧ s'.events_count = 1 ∧
      ev.type = SOCK_EV_FORKED_SOCKET ∧ ev.id = 0 ∧
      ev.payload = Payload.SockEvForkedSocket s.sock_info ∧
      s'.bytes_sent = 0 ∧ s'.bytes_received = 0 ∧
      s'.last_info_dump_bytes = 0 ∧ s'.last_info_dump_micros = 0 ∧
      s'.bound = false ∧ s'.capture_switch = none ∧
      s'.id = present_below w fd := by
    intro s hs
    obtain ⟨ev, hty, hid, _, hpl, he⟩ := (hent fd).2 s hs
    refine ⟨_, ev, he, ?_, ?_, ?_, ?_, hty, hid, hpl, ?_, ?_, ?_, ?_, ?_, ?_, ?_⟩ <;>
      simp [fresh_sock, push_event, Socket.zero]
  refine ⟨(hent fd).1, hsome, ?_, rfl, present_below_succ w, hcc⟩
  cases hwj : w.entry fd with
  | none =>
    have h1 := (hent fd).1 hwj
    unfold World.entry at h1 hwj
    simp [ra_is_present, h1, hwj]
  | some s =>
    obtain ⟨s', ev, h1, _⟩ := hsome s hwj
    unfold World.entry at h1 hwj
    simp [ra_is_present, h1, hwj]

/-! ## The port loop of `force_bind` -/

theorem exists_first (P : Nat → Prop) (n : Nat) (h : ∃ i, i < n ∧ P i) :
    ∃ j, j < n ∧ P j ∧ ∀ i, i < j → ¬ P i := by
  classical
  have h2 : ∃ i, i < n ∧ P i := h
  refine ⟨Nat.find h2, (Nat.find_spec h2).1, (Nat.find_spec h2).2, ?_⟩
  intro i hi hp
  have hlt : i < n := lt_trans hi (Nat.find_spec h2).1
  exact Nat.find_min h2 hi ⟨hlt, hp⟩

/-- The loop of `force_bind` from `port` with `n` ports left: if all of them are in use
every one is tried and the result is -1; else the loop stops at the first port that is
not in use, with 0 if the bind succeeded and -1 otherwise. -/
theorem force_bind_loop_spec (env : Env) (fd : Int) (b : Bool) :
    ∀ (n port : Nat),
      ((∀ i, i < n → (force_bind_outcome env fd b (port + i)).1 ≠ 0 ∧
            (force_bind_outcome env fd b (port + i)).2 = EADDRINUSE) →
        force_bind_loop env fd b n port
          = (-1, (List.range' port n).map (force_bind_call env fd b))) ∧
      (∀ j, j < n →
        (∀ i, i < j → (force_bind_outcome env fd b (port + i)).1 ≠ 0 ∧
            (force_bind_outcome env fd b (port + i)).2 = EADDRINUSE) →
        ¬ ((force_bind_outcome env fd b (port + j)).1 ≠ 0 ∧
            (force_bind_outcome env fd b (port + j)).2 = EADDRINUSE) →
        force_bind_loop env fd b n port
          = ((if (force_bind_outcome env fd b (port + j)).1 = 0 then 0 else -1),
              (List.range' port (j + 1)).map (force_bind_call env fd b))) := by
  intro n
  induction n with
  | zero =>
    intro port
    exact ⟨fun _ => rfl, fun j hj => absurd hj (by omega)⟩
  | succ n ih =>
    intro port
    obtain ⟨ih1, ih2⟩ := ih (port + 1)
    by_cases hrc : (force_bind_outcome env fd b port).1 = 0
    · have hloop : force_bind_loop env fd b (n + 1) port
          = (0, [force_bind_call env fd b port]) := by
        simp [force_bind_loop, hrc]
      refine ⟨fun hall => absurd hrc (hall 0 (by omega)).1, ?_⟩
      intro j _ hbefore hnot
      cases j with
      | zero => simp [hloop, hrc, List.range']
      | succ j => exact absurd hrc (hbefore 0 (by omega)).1
    · by_cases herr : (force_bind_outcome env fd b port).2 = EADDRINUSE
      · have hloop : force_bind_loop env fd b (n + 1) port
            = ((force_bind_loop env fd b n (port + 1)).1,
                force_bind_call env fd b port :: (force_bind_loop env fd b n (port + 1)).2) := by
          simp [force_bind_loop, hrc, herr]
        refine ⟨?_, ?_⟩
        · intro hall
          have h1 := ih1 (fun i hi => by
            have := hall (i + 1) (by omega)
            rwa [show port + (i + 1) = port + 1 + i by omega] at this)
          rw [hloop, h1]
          simp [List.range'_succ]
        · intro j hj hbefore hnot
          cases j with
          | zero => exact absurd ⟨hrc, herr⟩ hnot
          | succ j =>
            have hpj : port + (j + 1) = port + 1 + j := by omega
            have h2 := ih2 j (by omega)
              (fun i hi => by
                have := hbefore (i + 1) (by omega)
                rwa [show port + (i + 1) = port + 1 + i by omega] at this)
              (by rwa [hpj] at hnot)
            rw [hloop, h2, hpj]
            simp [List.range'_succ]
      · have hloop : force_bind_loop env fd b (n + 1) port
            = (-1, [force_bind_call env fd b port]) := by
          simp [force_bind_loop, hrc, herr]
        refine ⟨fun hall => absurd (hall 0 (by omega)).2 herr, ?_⟩
        intro j _ hbefore hnot
        cases j with
        | zero => simp [hloop, hrc, List.range']
        | succ j => exact absurd (hbefore 0 (by omega)).2 herr

theorem force_bind_loop_length (env : Env) (fd : Int) (b : Bool) :
    ∀ (n port : Nat), ∃ k, k ≤ n ∧ (n = 0 ∨ 1 ≤ k) ∧
      (force_bind_loop env fd b n port).2
        = (List.range' port k).map (force_bind_call env fd b) ∧
      ((force_bind_loop env fd b n port).1 = 0 ∨ (force_bind_loop env fd b n port).1 = -1) := by
  intro n port
  by_cases hall : ∀ i, i < n → (force_bind_outcome env fd b (port + i)).1 ≠ 0 ∧
      (force_bind_outcome env fd b (port + i)).2 = EADDRINUSE
  · rw [(force_bind_loop_spec env fd b n port).1 hall]
    exact ⟨n, le_refl n, by omega, rfl, Or.inr rfl⟩
  · have hex : ∃ i, i < n ∧ ¬ ((force_bind_outcome env fd b (port + i)).1 ≠ 0 ∧
        (force_bind_outcome env fd b (port + i)).2 = EADDRINUSE) := by
      by_contra hne
      apply hall
      intro i hi
      by_contra hb
      exact hne ⟨i, hi, hb⟩
    obtain ⟨j, hj, hnot, hmin⟩ := exists_first _ n hex
    have hbefore : ∀ i, i < j → (force_bind_outcome env fd b (port + i)).1 ≠ 0 ∧
        (force_bind_outcome env fd b (port + i)).2 = EADDRINUSE := by
      intro i hi
      by_contra hb
      exact hmin i hi hb
    rw [(force_bind_loop_spec env fd b n port).2 j hj hbefore hnot]
    refine ⟨j + 1, by omega, by omega, rfl, ?_⟩
    simp only
    split
    · exact Or.inl rfl
    · exact Or.inr rfl

theorem force_bind_loop_zero (env : Env) (fd : Int) (b : Bool) (n port : Nat)
    (h : (force_bind_loop env fd b n port).1 = 0) :
    ∃ j, j < n ∧ (force_bind_outcome env fd b (port + j)).1 = 0 ∧
      ∀ i, i < j → (force_bind_outcome env fd b (port + i)).1 ≠ 0 ∧
        (force_bind_outcome env fd b (port + i)).2 = EADDRINUSE := by
  by_cases hall : ∀ i, i < n → (force_bind_outcome env fd b (port + i)).1 ≠ 0 ∧
      (force_bind_outcome env fd b (port + i)).2 = EADDRINUSE
  · rw [(force_bind_loop_spec env fd b n port).1 hall] at h
    simp at h
  · have hex : ∃ i, i < n ∧ ¬ ((force_bind_outcome env fd b (port + i)).1 ≠ 0 ∧
        (force_bind_outcome env fd b (port + i)).2 = EADDRINUSE) := by
      by_contra hne
      apply hall
      intro i hi
      by_contra hb
      exact hne ⟨i, hi, hb⟩
    obtain ⟨j, hj, hnot, hmin⟩ := exists_first _ n hex
    have hbefore : ∀ i, i < j → (force_bind_outcome env fd b (port + i)).1 ≠ 0 ∧
        (force_bind_outcome env fd b (port + i)).2 = EADDRINUSE := by
      intro i hi
      by_contra hb
      exact hmin i hi hb
    rw [(force_bind_loop_spec env fd b n port).2 j hj hbefore hnot] at h
    refine ⟨j, hj, ?_, hbefore⟩
    by_contra hrc
    simp [hrc] at h

theorem force_bind_port_shift (p : Nat) (h1 : MIN_PORT ≤ p) :
    MIN_PORT + (p - MIN_PORT) = p := by omega

/-- C20: for every behaviour of the underlying bind, `force_bind` calls it for the
ports 32768, 32769, ... in ascending order (an initial segment of at least one and at
most 28232 ports), each time on `fd` with the wildcard address of the requested family
and the port in network byte order, and returns 0 or -1. It returns 0 exactly when
some port p in [32768, 60999] binds successfully and every smaller candidate port
failed with EADDRINUSE, and then p is the last port tried; it returns -1 with p the
last port tried when the bind of p fails with another error after every smaller
candidate port failed with EADDRINUSE; and it returns -1 after exactly 28232 attempts
when every candidate port is in use. -/
theorem force_bind_scans_ports_in_order (env : Env) (fd : Int) (sock : Socket) (b : Bool) :
    (MIN_PORT = 32768 ∧ MAX_PORT = 60999 ∧ MAX_PORT + 1 - MIN_PORT = 28232) ∧
    (∃ k, 1 ≤ k ∧ k ≤ 28232 ∧
      (force_bind env fd sock b).2
        = (List.range' MIN_PORT k).map (force_bind_call env fd b)) ∧
    ((force_bind env fd sock b).1 = 0 ∨ (force_bind env fd sock b).1 = -1) ∧
    (∀ p, (force_bind_call env fd false p).1 = fd ∧
      (force_bind_call env fd false p).2.2 = 16 ∧
      (force_bind_call env fd false p).2.1.take 8
        = [2, 0, p / 256 % 256, p % 256, 0, 0, 0, 0] ∧
      sa_family (force_bind_call env fd false p).2.1 = AF_INET ∧
      (force_bind_call env fd true p).1 = fd ∧
      (force_bind_call env fd true p).2.2 = 28 ∧
      (force_bind_call env fd true p).2.1.take 4 = [10, 0, p / 256 % 256, p % 256] ∧
      sa_family (force_bind_call env fd true p).2.1 = AF_INET6 ∧
      ((env.uninit_sockaddr p 28).length = 28 →
        ((force_bind_call env fd true p).2.1.drop 8).take 16 = List.replicate 16 0)) ∧
    ((force_bind env fd sock b).1 = 0 ↔
      ∃ p, MIN_PORT ≤ p ∧ p ≤ MAX_PORT ∧ (force_bind_outcome env fd b p).1 = 0 ∧
        ∀ q, MIN_PORT ≤ q → q < p →
          (force_bind_outcome env fd b q).1 ≠ 0 ∧
            (force_bind_outcome env fd b q).2 = EADDRINUSE) ∧
    (∀ p, MIN_PORT ≤ p → p ≤ MAX_PORT →
      (∀ q, MIN_PORT ≤ q → q < p →
        (force_bind_outcome env fd b q).1 ≠ 0 ∧
          (force_bind_outcome env fd b q).2 = EADDRINUSE) →
      ((force_bind_outcome env fd b p).1 = 0 →
        force_bind env fd sock b
          = (0, (List.range' MIN_PORT (p + 1 - MIN_PORT)).map (force_bind_call env fd b))) ∧
      ((force_bind_outcome env fd b p).1 ≠ 0 →
        (force_bind_outcome env fd b p).2 ≠ EADDRINUSE →
        force_bind env fd sock b
          = (-1, (List.range' MIN_PORT (p + 1 - MIN_PORT)).map (force_bind_call env fd b)))) ∧
    ((∀ p, MIN_PORT ≤ p → p ≤ MAX_PORT →
        (force_bind_outcome env fd b p).1 ≠ 0 ∧
          (force_bind_outcome env fd b p).2 = EADDRINUSE) →
      force_bind env fd sock b
        = (-1, (List.range' MIN_PORT 28232).map (force_bind_call env fd b)) ∧
      (force_bind env fd sock b).2.length = 28232) := by
  have hn : MAX_PORT + 1 - MIN_PORT = 28232 := by decide
  have hmin : MIN_PORT = 32768 := rfl
  have hmax : MAX_PORT = 60999 := rfl
  have hfb : force_bind env fd sock b = force_bind_loop env fd b 28232 MIN_PORT := by
    unfold force_bind
    rw [hn]
  obtain ⟨hs1, hs2⟩ := force_bind_loop_spec env fd b 28232 MIN_PORT
  have hstop : ∀ p, MIN_PORT ≤ p → p ≤ MAX_PORT →
      (∀ q, MIN_PORT ≤ q → q < p →
        (force_bind_outcome env fd b q).1 ≠ 0 ∧
          (force_bind_outcome env fd b q).2 = EADDRINUSE) →
      ¬ ((force_bind_outcome env fd b p).1 ≠ 0 ∧
          (force_bind_outcome env fd b p).2 = EADDRINUSE) →
      force_bind env fd sock b
        = ((if (force_bind_outcome env fd b p).1 = 0 then 0 else -1),
            (List.range' MIN_PORT (p + 1 - MIN_PORT)).map (force_bind_call env fd b)) := by
    intro p h1 h2 hbefore hnot
    have hp := force_bind_port_shift p h1
    have h := hs2 (p - MIN_PORT) (by omega)
      (fun i hi => hbefore (MIN_PORT + i) (by omega) (by omega))
      (by rw [hp]; exact hnot)
    rw [hp] at h
    rw [hfb, h, show p - MIN_PORT + 1 = p + 1 - MIN_PORT by omega]
  refine ⟨⟨hmin, hmax, hn⟩, ?_, ?_, ?_, ?_, ?_, ?_⟩
  · obtain ⟨k, hk, hk1, ht, _⟩ := force_bind_loop_length env fd b 28232 MIN_PORT
    exact ⟨k, by omega, hk, by rw [hfb]; exact ht⟩
  · obtain ⟨_, _, _, _, hr⟩ := force_bind_loop_length env fd b 28232 MIN_PORT
    rw [hfb]
    exact hr
  · intro p
    refine ⟨rfl, rfl, ?_, ?_, rfl, rfl, ?_, ?_, ?_⟩
    · simp [force_bind_call, force_bind_sockaddr_in, memcpy, htons]
    · simp [force_bind_call, force_bind_sockaddr_in, memcpy, htons, sa_family, AF_INET]
    · simp [force_bind_call, force_bind_sockaddr_in6, memcpy, htons]
    · simp [force_bind_call, force_bind_sockaddr_in6, memcpy, htons, sa_family, AF_INET6]
    · intro hlen
      simp [force_bind_call, force_bind_sockaddr_in6, memcpy, htons, hlen]
  · constructor
    · intro h0
      rw [hfb] at h0
      obtain ⟨j, hj, hrc, hbefore⟩ := force_bind_loop_zero env fd b 28232 MIN_PORT h0
      refine ⟨MIN_PORT + j, by omega, by omega, hrc, ?_⟩
      intro q hq1 hq2
      have := hbefore (q - MIN_PORT) (by omega)
      rwa [force_bind_port_shift q hq1] at this
    · rintro ⟨p, h1, h2, hrc, hbefore⟩
      rw [hstop p h1 h2 hbefore (fun hb => hb.1 hrc)]
      simp [hrc]
  · intro p h1 h2 hbefore
    refine ⟨?_, ?_⟩
    · intro hrc
      rw [hstop p h1 h2 hbefore (fun hb => hb.1 hrc)]
      simp [hrc]
    · intro hrc herr
      rw [hstop p h1 h2 hbefore (fun hb => herr hb.2)]
      simp [hrc]
  · intro hall
    have h := hs1 (fun i hi => hall (MIN_PORT + i) (by omega) (by omega))
    rw [hfb, h]
    exact ⟨rfl, by simp⟩

/-- Two runs of `force_bind` on fd 5: with the ports 32768 and 32769 in use the third
port is bound and the result is 0 after three attempts; with port 32768 in use and
`EACCES` on port 32769 the result is -1 after two attempts. -/
theorem force_bind_runs :
    force_bind env_two_busy 5 Socket.zero false
      = (0, [(5, [2, 0, 128, 0, 0, 0, 0, 0, 0, 0, 0, 0, 0, 0, 0, 0], 16),
             (5, [2, 0, 128, 1, 0, 0, 0, 0, 0, 0, 0, 0, 0, 0, 0, 0], 16),
             (5, [2, 0, 128, 2, 0, 0, 0, 0, 0, 0, 0, 0, 0, 0, 0, 0], 16)]) ∧
    (force_bind env_bind_denied 5 Socket.zero true).1 = -1 ∧
    ((force_bind env_bind_denied 5 Socket.zero true).2.map (fun c => sockaddr_port c.2.1))
      = [32768, 32769] := by
  decide

/-! ## `sock_start_capture` by cases -/

theorem start_capture_unbound (env : Env) (fd : Nat) (addr_to : List Nat) (w : World)
    (s : Socket) (hs : w.entry fd = some s) (hb : s.bound = false) :
    sock_start_capture env fd addr_to w
      = match env.alloc_pcap_path_str s.id with
        | none =>
            (w, { CaptureLog.empty with
                  bind_calls := (force_bind env fd s (sa_family addr_to == AF_INET6)).2,
                  bind_result := some (force_bind env fd s (sa_family addr_to == AF_INET6)).1 })
        | some path =>
            match env.alloc_capture_filter none addr_to with
            | none =>
                (w, { bind_calls := (force_bind env fd s (sa_family addr_to == AF_INET6)).2,
                      bind_result := some (force_bind env fd s (sa_family addr_to == AF_INET6)).1,
                      filter_call := some (none, addr_to), start_call := none })
            | some filter =>
                ({ w with
                    table := ra_store w.table fd
                      ({ s with capture_switch := env.start_capture filter path }) },
                 { bind_calls := (force_bind env fd s (sa_family addr_to == AF_INET6)).2,
                   bind_result := some (force_bind env fd s (sa_family addr_to == AF_INET6)).1,
                   filter_call := some (none, addr_to), start_call := some (filter, path) }) := by
  unfold World.entry at hs
  simp only [sock_start_capture, hs, hb]
  cases env.alloc_pcap_path_str s.id with
  | none => simp [CaptureLog.empty]
  | some path =>
    simp only [Bool.false_eq_true, if_false]
    cases env.alloc_capture_filter none addr_to <;> simp [CaptureLog.empty]

theorem start_capture_bound (env : Env) (fd : Nat) (addr_to : List Nat) (w : World)
    (s : Socket) (hs : w.entry fd = some s) (hb : s.bound = true) :
    sock_start_capture env fd addr_to w
      = match env.alloc_pcap_path_str s.id with
        | none => (w, CaptureLog.empty)
        | some path =>
            match env.alloc_capture_filter (some s.bound_addr) addr_to with
            | none =>
                (w, { CaptureLog.empty with
                      filter_call := some (some s.bound_addr, addr_to) })
            | some filter =>
                ({ w with
                    table := ra_store w.table fd
                      ({ s with capture_switch := env.start_capture filter path }) },
                 { CaptureLog.empty with
                   filter_call := some (some s.bound_addr, addr_to),
                   start_call := some (filter, path) }) := by
  unfold World.entry at hs
  simp only [sock_start_capture, hs, hb]
  cases env.alloc_pcap_path_str s.id with
  | none => simp [CaptureLog.empty]
  | some path =>
    simp only [if_true]
    cases env.alloc_capture_filter (some s.bound_addr) addr_to <;> simp [CaptureLog.empty]

theorem start_capture_absent (env : Env) (fd : Nat) (addr_to : List Nat) (w : World)
    (hs : w.entry fd = none) :
    sock_start_capture env fd addr_to w = (w, CaptureLog.empty) := by
  unfold World.entry at hs
  simp [sock_start_capture, hs]

set_option maxRecDepth 100000 in
/-- C21: the filter of `sock_start_capture` after a force-bind. In scenario 6 (fd 6
unbound, every port free) `force_bind` binds 0.0.0.0:32768 through `orig_bind` and
returns 0, yet `alloc_capture_filter` is called with a NULL `addr_from` and the
destination alone, and the entry still has bound = false. In general, for every entry
with bound = false, whatever `force_bind` returns, `addr_from` is NULL and the entry
stays unbound with its bound_addr; for an entry that is already bound `force_bind` is
not called and `alloc_capture_filter` receives bound_addr and the destination. -/
theorem forced_bind_not_used_in_filter :
    (scenario_socket6.entry 6).map (fun s => s.bound) = some false ∧
    scenario_force_bind.2.bind_result = some 0 ∧
    scenario_force_bind.2.bind_calls = [(6, addr_any_32768, 16)] ∧
    scenario_force_bind.2.filter_call = some (none, addr_1234_80) ∧
    (scenario_force_bind.1.entry 6).map (fun s => s.bound) = some false ∧
    (scenario_force_bind.1.entry 6).map (fun s => s.capture_switch) = some (some 1) ∧
    scenario_capture_bound.2.bind_calls = [] ∧
    scenario_capture_bound.2.filter_call.map (fun x => (x.1.map (List.take 16), x.2))
      = some (some addr_any_8080, addr_1234_80) ∧
    (∀ (env : Env) (fd : Nat) (addr_to : List Nat) (w : World) (s : Socket),
      w.entry fd = some s →
      (s.bound = false →
        (sock_start_capture env fd addr_to w).2.bind_result
          = some (force_bind env fd s (sa_family addr_to == AF_INET6)).1 ∧
        (sock_start_capture env fd addr_to w).2.bind_calls
          = (force_bind env fd s (sa_family addr_to == AF_INET6)).2 ∧
        (env.alloc_pcap_path_str s.id ≠ none →
          (sock_start_capture env fd addr_to w).2.filter_call = some (none, addr_to)) ∧
        ∃ s', (sock_start_capture env fd addr_to w).1.entry fd = some s' ∧
          s'.bound = false ∧ s'.bound_addr = s.bound_addr) ∧
      (s.bound = true →
        (sock_start_capture env fd addr_to w).2.bind_result = none ∧
        (sock_start_capture env fd addr_to w).2.bind_calls = [] ∧
        (env.alloc_pcap_path_str s.id ≠ none →
          (sock_start_capture env fd addr_to w).2.filter_call
            = some (some s.bound_addr, addr_to)))) := by
  refine ⟨by decide, by decide, by decide, by decide, by decide, by decide, by decide,
    by decide, ?_⟩
  intro env fd addr_to w s hs
  have hp : ra_is_present w.table fd = true := ra_is_present_of_get _ _ _ hs
  constructor
  · intro hb
    rw [start_capture_unbound env fd addr_to w s hs hb]
    cases hpath : env.alloc_pcap_path_str s.id with
    | none => exact ⟨rfl, rfl, fun h => absurd rfl h, s, hs, hb, rfl⟩
    | some path =>
      cases hfil : env.alloc_capture_filter none addr_to with
      | none => exact ⟨rfl, rfl, fun _ => rfl, s, hs, hb, rfl⟩
      | some filter =>
        refine ⟨rfl, rfl, fun _ => rfl,
          { s with capture_switch := env.start_capture filter path }, ?_, hb, rfl⟩
        simp [World.entry, ra_get_store _ _ _ _ hp]
  · intro hb
    rw [start_capture_bound env fd addr_to w s hs hb]
    cases hpath : env.alloc_pcap_path_str s.id with
    | none => exact ⟨rfl, rfl, fun h => absurd rfl h⟩
    | some path =>
      cases hfil : env.alloc_capture_filter (some s.bound_addr) addr_to with
      | none => exact ⟨rfl, rfl, fun _ => rfl⟩
      | some filter => exact ⟨rfl, rfl, fun _ => rfl⟩

/-! ## `sock_ev_close` -/

theorem dump_all_step_present (env : Env) (h : dump_succeeds env) (x : World) (i : Nat)
    (s : Socket) (hs : x.entry i = some s) :
    dump_all_step env x i
      = { x with table := ra_store x.table i ({ s with events := [] }),
                 dumped := x.dumped ++ s.events.map (fun e => (s.id, e)) } := by
  have hp : ra_is_present x.table i = true := ra_is_present_of_get _ _ _ hs
  unfold World.entry at hs
  simp only [dump_all_step, hp, hs, dump_ok env h]
  rfl

theorem dump_all_step_absent (env : Env) (x : World) (i : Nat) (hs : x.entry i = none) :
    dump_all_step env x i = x := by
  have hp : ra_is_present x.table i = false := ra_not_present_of_get _ _ hs
  simp [dump_all_step, hp]

/-- The state of the loop of `dump_all_sock_events` after the indices below `n`, when
every step of a dump succeeds: the entries below `n` have been written, in index and
list order, and emptied; the slots from `n` on are untouched. -/
theorem dump_all_loop (env : Env) (h : dump_succeeds env) (w : World) (n : Nat) :
    ((List.range n).foldl (dump_all_step env) w).dumped
      = w.dumped ++ ((List.range n).map w.dump_lines).flatten ∧
    ∀ j,
      (n ≤ j → ((List.range n).foldl (dump_all_step env) w).entry j = w.entry j) ∧
      (j < n → ((List.range n).foldl (dump_all_step env) w).entry j
        = (w.entry j).map (fun s => { s with events := [] })) := by
  induction n with
  | zero => exact ⟨by simp, fun j => ⟨fun _ => rfl, fun hj => absurd hj (by omega)⟩⟩
  | succ n ih =>
    obtain ⟨hd, hent⟩ := ih
    rw [List.range_succ, List.foldl_append]
    simp only [List.foldl_cons, List.foldl_nil, List.map_append, List.map_cons, List.map_nil,
      List.flatten_append, List.flatten_cons, List.flatten_nil, List.append_nil]
    generalize hx : (List.range n).foldl (dump_all_step env) w = x at hd hent ⊢
    have hxn : x.entry n = w.entry n := (hent n).1 (le_refl n)
    cases hwn : w.entry n with
    | none =>
      rw [hwn] at hxn
      rw [dump_all_step_absent env x n hxn]
      refine ⟨?_, ?_⟩
      · rw [hd]
        simp [World.dump_lines, hwn]
      · intro j
        refine ⟨fun hj => (hent j).1 (by omega), fun hj => ?_⟩
        by_cases hjn : j = n
        · rw [hjn, hxn, hwn]
          rfl
        · exact (hent j).2 (by omega)
    | some s =>
      rw [hwn] at hxn
      have hp : ra_is_present x.table n = true := ra_is_present_of_get _ _ _ hxn
      rw [dump_all_step_present env h x n s hxn]
      refine ⟨?_, ?_⟩
      · simp only [hd, World.dump_lines, hwn, List.append_assoc]
      · intro j
        have hget : ∀ y : World, y.table = ra_store x.table n ({ s with events := [] }) →
            y.entry j = if j = n then some ({ s with events := [] }) else x.entry j := by
          intro y hy
          simp only [World.entry, hy]
          exact ra_get_store _ _ _ _ hp
        rw [hget _ rfl]
        refine ⟨fun hj => ?_, fun hj => ?_⟩
        · have hjn : j ≠ n := by omega
          simp only [hjn, if_false]
          exact (hent j).1 (by omega)
        · by_cases hjn : j = n
          · simp only [hjn, if_true, hwn, Option.map_some']
          · simp only [hjn, if_false]
            exact (hent j).2 (by omega)

theorem dump_all_entry (env : Env) (h : dump_succeeds env) (w : World) (fd : Nat) :
    (dump_all_sock_events env w).entry fd
      = (w.entry fd).map (fun s => { s with events := [] }) := by
  obtain ⟨_, hent⟩ := dump_all_loop env h w (ra_get_size w.table)
  unfold dump_all_sock_events
  by_cases hj : fd < ra_get_size w.table
  · exact (hent fd).2 hj
  · rw [(hent fd).1 (by omega), entry_none_of_size_le w fd (by omega)]
    rfl

theorem flatten_replicate_nil (n : Nat) :
    (List.replicate n ([] : List (Nat × SockEvent))).flatten = [] := by
  induction n with
  | zero => rfl
  | succ n ih => simp [List.replicate_succ, ih]

/-- C23: with the output directory configured and every step of a dump succeeding,
after `dump_all_sock_events` the table holds the same entries with empty event lists,
and the lines written are exactly the events that were in the lists, each once, in
list order (the entries in ascending fd order, each with its connection id); hence a
second call with no intervening recording writes no line and changes no entry. -/
theorem dump_all_is_idempotent (env : Env) (w : World) (h : dump_succeeds env) :
    (∀ fd, (dump_all_sock_events env w).entry fd
      = (w.entry fd).map (fun s => { s with events := [] })) ∧
    (∀ fd s, (dump_all_sock_events env w).entry fd = some s → s.events = []) ∧
    (dump_all_sock_events env w).dumped
      = w.dumped ++ ((List.range (ra_get_size w.table)).map w.dump_lines).flatten ∧
    (dump_all_sock_events env (dump_all_sock_events env w)).dumped
      = (dump_all_sock_events env w).dumped ∧
    (∀ fd, (dump_all_sock_events env (dump_all_sock_events env w)).entry fd
      = (dump_all_sock_events env w).entry fd) := by
  have hempty : ∀ fd s, (dump_all_sock_events env w).entry fd = some s → s.events = [] := by
    intro fd s hs
    rw [dump_all_entry env h w fd] at hs
    cases hw : w.entry fd with
    | none =>
      rw [hw] at hs
      exact absurd hs (by simp)
    | some s0 =>
      rw [hw] at hs
      simp only [Option.map_some', Option.some.injEq] at hs
      rw [← hs]
  have hlines : ∀ fd, (dump_all_sock_events env w).dump_lines fd = [] := by
    intro fd
    unfold World.dump_lines
    cases hs : (dump_all_sock_events env w).entry fd with
    | none => rfl
    | some s => simp [hempty fd s hs]
  refine ⟨dump_all_entry env h w, hempty, ?_, ?_, ?_⟩
  · exact (dump_all_loop env h w (ra_get_size w.table)).1
  · have h2 := (dump_all_loop env h (dump_all_sock_events env w)
      (ra_get_size (dump_all_sock_events env w).table)).1
    have hmap : (List.range (ra_get_size (dump_all_sock_events env w).table)).map
        (dump_all_sock_events env w).dump_lines
        = List.replicate (ra_get_size (dump_all_sock_events env w).table) [] := by
      apply List.ext_getElem
      · simp
      · intro i h1 h2
        simp [hlines]
    rw [hmap, flatten_replicate_nil, List.append_nil] at h2
    exact h2
  · intro fd
    rw [dump_all_entry env h (dump_all_sock_events env w) fd]
    cases hs : (dump_all_sock_events env w).entry fd with
    | none => rfl
    | some s =>
      have he := hempty fd s hs
      simp only [Option.map_some', Option.some.injEq]
      cases s
      simp only at he
      simp [he]

/-! ## The event recorded by a call -/

/-- The entry at `fd` after a call that neither frees nor replaces it: the list of the
entry found at `fd` (or of the ghost entry created for it), then the event of the call,
then at most one tcp_info event. -/
theorem recorded_event (env : Env) (fd : Nat) (ret err : Int) (c : Call) (w : World)
    (hcl : c ≠ Call.close) (hd : ¬ (c.dups (c.retval ret) = true ∧ ret = (fd : Int))) :
    ∃ (s0 s' : Socket) (ev : SockEvent) (rest : List SockEvent),
      (after_ghost env fd w).entry fd = some s0 ∧
      (sock_ev env fd ret err c w).entry fd = some s' ∧
      s'.events = s0.events ++ ev :: rest ∧
      s'.events_count = s0.events_count + 1 + rest.length ∧
      ev.type = c.evType ∧ ev.return_value = c.retval ret ∧
      ev.payload = c.payload (c.retval ret) ∧
      (rest = [] ∨ ∃ t, rest = [t] ∧ t.type = SOCK_EV_TCP_INFO) := by
  obtain ⟨s0, h0⟩ := after_ghost_entry env fd w
  obtain ⟨w', s', ev, rest, now, heq, hent, hstep, _⟩ :=
    source_fields env fd ret err c w s0 h0 hd
  simp only [hcl, if_false] at heq
  refine ⟨s0, s', ev, rest, h0, ?_, hstep.events, hstep.events_count, hstep.ev_type,
    hstep.ev_return_value, hstep.ev_payload, hstep.rest_shape⟩
  rw [heq]
  exact hent

/-! ## Bit masks on `int` values -/

theorem nat_ldiff_two_pow (n k : Nat) :
    Nat.ldiff (2 ^ k) n = (!n.testBit k).toNat * 2 ^ k := by
  apply Nat.eq_of_testBit_eq
  intro i
  rw [Nat.testBit_ldiff, Nat.testBit_two_pow]
  cases hb : n.testBit k with
  | false =>
    simp only [Bool.not_false, Bool.toNat_true, one_mul, Nat.testBit_two_pow]
    by_cases hki : k = i
    · subst hki
      simp [hb]
    · simp [hki]
  | true =>
    simp only [Bool.not_true, Bool.toNat_false, zero_mul, Nat.zero_testBit]
    by_cases hki : k = i
    · subst hki
      simp [hb]
    · simp [hki]

/-- The test `(t & 2^k) != 0` on an `int` is the bit `k` of `t`. -/
theorem land_two_pow_ne_zero (t : Int) (k : Nat) :
    (Int.land t ((2 ^ k : Nat) : Int) != 0) = t.testBit k := by
  cases t with
  | ofNat n =>
    have h : Int.land (Int.ofNat n) ((2 ^ k : Nat) : Int) = ((n &&& 2 ^ k : Nat) : Int) := rfl
    rw [h, Nat.and_two_pow]
    have hpos : 0 < 2 ^ k := Nat.two_pow_pos k
    cases hb : n.testBit k with
    | false => simp [Int.testBit, hb]
    | true =>
      have hne : (((2 ^ k : Nat) : Int) != 0) = true := by
        simp only [bne_iff_ne, ne_eq]
        exact_mod_cast (Nat.ne_of_gt hpos)
      simp only [Int.testBit, hb, Bool.toNat_true, one_mul]
      exact hne
  | negSucc n =>
    have h : Int.land (Int.negSucc n) ((2 ^ k : Nat) : Int)
        = ((Nat.ldiff (2 ^ k) n : Nat) : Int) := rfl
    rw [h, nat_ldiff_two_pow]
    have hpos : 0 < 2 ^ k := Nat.two_pow_pos k
    cases hb : n.testBit k with
    | false =>
      have hne : (((2 ^ k : Nat) : Int) != 0) = true := by
        simp only [bne_iff_ne, ne_eq]
        exact_mod_cast (Nat.ne_of_gt hpos)
      simp only [Int.testBit, hb, Bool.not_false, Bool.toNat_true, one_mul]
      exact hne
    | true => simp [Int.testBit, hb]

theorem nat_ldiff_mask_le (n : Nat) : Nat.ldiff 15 n ≤ 15 := by
  have h : Nat.ldiff 15 n &&& 15 = Nat.ldiff 15 n := by
    apply Nat.eq_of_testBit_eq
    intro i
    rw [Nat.testBit_and, Nat.testBit_ldiff]
    cases (15 : Nat).testBit i <;> simp
  rw [← h]
  exact Nat.and_le_right

/-- The mask `t & 0xF` on an `int`: a value in 0..15 that the mask leaves unchanged; it
is `t mod 16`, the low four bits of the two's complement representation. -/
theorem land_mask_low_bits (t : Int) :
    0 ≤ Int.land t 15 ∧ Int.land t 15 ≤ 15 ∧ Int.land (Int.land t 15) 15 = Int.land t 15 ∧
      (∀ k, (Int.land t 15).testBit k = (t.testBit k && decide (k < 4))) := by
  have hbits : ∀ k, (15 : Int).testBit k = decide (k < 4) := by
    intro k
    have h15 : (15 : Int) = Int.ofNat (2 ^ 4 - 1) := rfl
    rw [h15]
    simp only [Int.testBit]
    exact Nat.testBit_two_pow_sub_one 4 k
  have hle : ∃ r : Nat, Int.land t 15 = (r : Int) ∧ r ≤ 15 := by
    cases t with
    | ofNat n => exact ⟨n &&& 15, rfl, Nat.and_le_right⟩
    | negSucc n => exact ⟨Nat.ldiff 15 n, rfl, nat_ldiff_mask_le n⟩
  obtain ⟨r, hr, hr15⟩ := hle
  refine ⟨?_, ?_, ?_, ?_⟩
  · rw [hr]
    exact Int.ofNat_nonneg r
  · rw [hr]
    exact_mod_cast hr15
  · rw [hr]
    have h : Int.land (Int.ofNat r) 15 = ((r &&& 15 : Nat) : Int) := rfl
    have h2 : r &&& 15 = r := by
      have := Nat.and_pow_two_sub_one_eq_mod r 4
      have h3 : (2 : Nat) ^ 4 - 1 = 15 := by decide
      rw [h3] at this
      rw [this]
      exact Nat.mod_eq_of_lt (by omega)
    show Int.land (Int.ofNat r) 15 = (r : Int)
    rw [h, h2]
  · intro k
    rw [Int.testBit_land, hbits]

theorem kept_by_next_call (env : Env) (fd : Nat) (w1 : World) (s' : Socket) (ev : SockEvent)
    (h1 : w1.entry fd = some s') (hev : ev ∈ s'.events) (c : Call) (r e : Int)
    (hcl : c ≠ Call.close) (hd : ¬ (c.dups (c.retval r) = true ∧ r = (fd : Int))) :
    ∃ s'' : Socket, (sock_ev env fd r e c w1).entry fd = some s'' ∧ ev ∈ s''.events := by
  obtain ⟨s0, s'', x, rest, h0, hent, hevs, _⟩ := recorded_event env fd r e c w1 hcl hd
  rw [after_ghost_present env fd w1 s' h1, h1] at h0
  injection h0 with h0
  refine ⟨s'', hent, ?_⟩
  rw [hevs, ← h0]
  exact List.mem_append_left _ hev

/-- C24: for every level, optname, buffer `buf` and length `len`, the event recorded by
`sock_ev_setsockopt` is in the entry's list and stores level, optname, optlen = len and
as optval the first `len` bytes of `buf` (`len` bytes when `buf` holds that many); the
stored value depends on no other byte of `buf` and stays in the list, unchanged,
through every later call that neither frees nor replaces the entry. The same holds for
`sock_ev_getsockopt` with the length read from `*optlen`. -/
theorem sockopt_value_is_copied (env : Env) (fd : Nat) (ret err level optname : Int)
    (buf : List Nat) (len : Nat) (w : World) :
    (∃ (s' : Socket) (ev : SockEvent) (so : Sockopt),
      (sock_ev_setsockopt env fd ret err level optname buf len w).entry fd = some s' ∧
      ev ∈ s'.events ∧ ev.type = SOCK_EV_SETSOCKOPT ∧ ev.return_value = ret ∧
      ev.payload = Payload.SockEvSetsockopt so ∧
      so.level = level ∧ so.optname = optname ∧ so.optlen = len ∧
      so.optval = buf.take len ∧ (len ≤ buf.length → so.optval.length = len) ∧
      ∀ (c : Call) (r e : Int), c ≠ Call.close →
        ¬ (c.dups (c.retval r) = true ∧ r = (fd : Int)) →
        ∃ s'' : Socket,
          (sock_ev env fd r e c
            (sock_ev_setsockopt env fd ret err level optname buf len w)).entry fd = some s'' ∧
          ev ∈ s''.events) ∧
    (∃ (s' : Socket) (ev : SockEvent) (so : Sockopt),
      (sock_ev_getsockopt env fd ret err level optname buf len w).entry fd = some s' ∧
      ev ∈ s'.events ∧ ev.type = SOCK_EV_GETSOCKOPT ∧ ev.return_value = ret ∧
      ev.payload = Payload.SockEvGetsockopt so ∧
      so.level = level ∧ so.optname = optname ∧ so.optlen = len ∧
      so.optval = buf.take len ∧ (len ≤ buf.length → so.optval.length = len) ∧
      ∀ (c : Call) (r e : Int), c ≠ Call.close →
        ¬ (c.dups (c.retval r) = true ∧ r = (fd : Int)) →
        ∃ s'' : Socket,
          (sock_ev env fd r e c
            (sock_ev_getsockopt env fd ret err level optname buf len w)).entry fd = some s'' ∧
          ev ∈ s''.events) ∧
    (∀ buf2 : List Nat, buf2.take len = buf.take len →
      fill_sockopt level optname buf2 len = fill_sockopt level optname buf len) := by
  refine ⟨?_, ?_, ?_⟩
  · obtain ⟨s0, s', ev, rest, _, hent, hevs, _, hty, hret, hpl, _⟩ :=
      recorded_event env fd ret err (Call.setsockopt level optname buf len) w (by simp)
        (by simp [Call.dups])
    have hmem : ev ∈ s'.events := by rw [hevs]; simp
    refine ⟨s', ev, fill_sockopt level optname buf len, hent, hmem, hty, hret, hpl, rfl, rfl,
      rfl, rfl, ?_, ?_⟩
    · intro hl
      simp [fill_sockopt, hl]
    · intro c r e hcl hd
      exact kept_by_next_call env fd _ s' ev hent hmem c r e hcl hd
  · obtain ⟨s0, s', ev, rest, _, hent, hevs, _, hty, hret, hpl, _⟩ :=
      recorded_event env fd ret err (Call.getsockopt level optname buf len) w (by simp)
        (by simp [Call.dups])
    have hmem : ev ∈ s'.events := by rw [hevs]; simp
    refine ⟨s', ev, fill_sockopt level optname buf len, hent, hmem, hty, hret, hpl, rfl, rfl,
      rfl, rfl, ?_, ?_⟩
    · intro hl
      simp [fill_sockopt, hl]
    · intro c r e hcl hd
      exact kept_by_next_call env fd _ s' ev hent hmem c r e hcl hd
  · intro buf2 h
    simp [fill_sockopt, h]

theorem fcntl_unknown_not_dup (cmd : Int) (h : fcntl_unknown cmd = true) :
    fcntl_int_arg cmd = false ∧ ∀ (arg r : Int), (Call.fcntl cmd arg).dups r = false := by
  have hi : fcntl_int_arg cmd = false := by
    unfold fcntl_unknown at h
    cases hc : fcntl_int_arg cmd with
    | false => rfl
    | true => simp [hc] at h
  refine ⟨hi, ?_⟩
  intro arg r
  unfold fcntl_int_arg at hi
  simp only [Bool.or_eq_false_iff] at hi
  simp [Call.dups, hi.1.1.1.1.1.1.1.1, hi.1.1.1.1.1.1.1.2]

/-- C25: an fcntl command of no known class is recorded like any other. On the traced
fd 5, `fcntl(5, 1034)` appends an fcntl event: the list goes from [socket] to
[socket, fcntl] and events_count from 1 to 2. In general, for every cmd that reaches
the `default` label of the `switch` of `sock_ev_fcntl`, with `s0` the entry found at
`fd` (or the ghost entry created for it), the list afterwards is the list of `s0`
followed by the fcntl event (cmd as passed, arg 0) and at most one tcp_info event, and
events_count has grown accordingly. -/
theorem unknown_fcntl_is_recorded :
    fcntl_unknown 1034 = true ∧
    scenario_socket5.event_types 5 = [SOCK_EV_SOCKET] ∧
    (scenario_socket5.entry 5).map (fun s => s.events_count) = some 1 ∧
    scenario_fcntl_unknown.event_types 5 = [SOCK_EV_SOCKET, SOCK_EV_FCNTL] ∧
    (scenario_fcntl_unknown.entry 5).map (fun s => s.events_count) = some 2 ∧
    (∀ (env : Env) (fd : Nat) (ret err cmd arg : Int) (w : World), fcntl_unknown cmd = true →
      ∃ (s0 s' : Socket) (ev : SockEvent) (rest : List SockEvent),
        (after_ghost env fd w).entry fd = some s0 ∧
        (sock_ev_fcntl env fd ret err cmd arg w).entry fd = some s' ∧
        s'.events = s0.events ++ ev :: rest ∧
        s'.events_count = s0.events_count + 1 + rest.length ∧
        ev.type = SOCK_EV_FCNTL ∧ ev.return_value = ret ∧
        ev.payload = Payload.SockEvFcntl cmd 0 SockInfo.zero ∧
        (rest = [] ∨ ∃ t, rest = [t] ∧ t.type = SOCK_EV_TCP_INFO)) := by
  refine ⟨by decide, by decide, by decide, by decide, by decide, ?_⟩
  intro env fd ret err cmd arg w hu
  obtain ⟨hi, hnd⟩ := fcntl_unknown_not_dup cmd hu
  obtain ⟨s0, s', ev, rest, h0, hent, hevs, hcnt, hty, hret, hpl, hrest⟩ :=
    recorded_event env fd ret err (Call.fcntl cmd arg) w (by simp)
      (by simp [hnd])
  refine ⟨s0, s', ev, rest, h0, hent, hevs, hcnt, hty, hret, ?_, hrest⟩
  rw [hpl]
  simp [Call.payload, hi]

/-- C26: for every fcntl recording the event handed to `output_event` and pushed on
the entry's list has the cmd passed; if cmd is one of the nine int-arg commands its arg
is the integer passed, and for every other cmd its arg is 0 and the argument is not
read: the state after the call is the same for every value of the argument. -/
theorem fcntl_records_cmd_and_int_arg (env : Env) (fd : Nat) (ret err cmd arg : Int)
    (w : World) :
    (fcntl_int_arg cmd = true ↔
      cmd = F_DUPFD ∨ cmd = F_DUPFD_CLOEXEC ∨ cmd = F_SETFD ∨ cmd = F_SETFL ∨
        cmd = F_SETOWN ∨ cmd = F_SETSIG ∨ cmd = F_SETLEASE ∨ cmd = F_NOTIFY ∨
        cmd = F_SETPIPE_SZ) ∧
    (∃ (s' : Socket) (ev : SockEvent),
      (sock_ev_fcntl env fd ret err cmd arg w).entry fd = some s' ∧
      ev ∈ s'.events ∧ ev ∈ (sock_ev_fcntl env fd ret err cmd arg w).emitted ∧
      ev.type = SOCK_EV_FCNTL ∧ ev.return_value = ret ∧
      ((fcntl_int_arg cmd = true → ev.payload = Payload.SockEvFcntl cmd arg SockInfo.zero) ∧
        (fcntl_int_arg cmd = false → ev.payload = Payload.SockEvFcntl cmd 0 SockInfo.zero))) ∧
    (fcntl_int_arg cmd = false →
      ∀ arg2 : Int, sock_ev_fcntl env fd ret err cmd arg2 w
        = sock_ev_fcntl env fd ret err cmd arg w) := by
  refine ⟨?_, ?_, ?_⟩
  · unfold fcntl_int_arg
    simp only [Bool.or_eq_true, beq_iff_eq]
    tauto
  · obtain ⟨s0, h0⟩ := after_ghost_entry env fd w
    obtain ⟨l, s', rest, ha, hp, he⟩ :=
      sock_ev_effect env fd ret err (Call.fcntl cmd arg) w s0 h0
    have hne : Call.fcntl cmd arg ≠ Call.close := by simp
    simp only [hne, if_false] at he
    have hsame : sock_ev env fd ret err (Call.fcntl cmd arg) w
        = sock_ev_fcntl env fd ret err cmd arg w := rfl
    rw [hsame] at he
    have hcons : (Call.fcntl cmd arg).consType = SOCK_EV_FCNTL := rfl
    rw [hcons] at hp he
    refine ⟨s', l.ev, ?_, ?_, ?_, ha.ev_type, ha.ev_return_value, ?_, ?_⟩
    · rw [he]
      unfold World.entry
      rw [hp.table, ra_get_store _ _ _ _ ha.present]
      simp
    · rw [hp.events]
      simp
    · rw [he, hp.emitted]
      simp
    · intro hi
      rw [ha.ev_payload]
      simp [Call.payload, Call.retval, hi]
    · intro hi
      rw [ha.ev_payload]
      simp [Call.payload, Call.retval, hi]
  · intro hi arg2
    simp [sock_ev_fcntl, hi]

/-- C27: for every domain, type and protocol, `fill_sock_info` records domain and
protocol unchanged, type = type & 0xF (a value in 0..15 whose bits are the low four
bits of type, left unchanged by a second masking), sock_cloexec = the bit 19
(`SOCK_CLOEXEC`) of type, sock_nonblock = the bit 11 (`SOCK_NONBLOCK`) of type and
filled = true; `sock_ev_socket` stores this sock_info both on the socket event and on
the entry it installs. -/
theorem fill_sock_info_masks_type (env : Env) (fd : Nat) (si : SockInfo)
    (domain type protocol : Int) (w : World) :
    (fill_sock_info si domain type protocol).domain = domain ∧
    (fill_sock_info si domain type protocol).protocol = protocol ∧
    (fill_sock_info si domain type protocol).type = Int.land type 15 ∧
    (0 ≤ (fill_sock_info si domain type protocol).type ∧
      (fill_sock_info si domain type protocol).type ≤ 15) ∧
    (∀ k, (fill_sock_info si domain type protocol).type.testBit k
      = (type.testBit k && decide (k < 4))) ∧
    (0 ≤ type → (fill_sock_info si domain type protocol).type = type % 16) ∧
    (fill_sock_info si domain (fill_sock_info si domain type protocol).type protocol).type
      = (fill_sock_info si domain type protocol).type ∧
    (SOCK_CLOEXEC = 2 ^ 19 ∧ SOCK_NONBLOCK = 2 ^ 11) ∧
    (fill_sock_info si domain type protocol).sock_cloexec = type.testBit 19 ∧
    (fill_sock_info si domain type protocol).sock_nonblock = type.testBit 11 ∧
    (fill_sock_info si domain type protocol).filled = true ∧
    (∃ (s : Socket) (ev : SockEvent),
      (sock_ev_socket env fd domain type protocol w).entry fd = some s ∧
      s.events = [ev] ∧ ev.type = SOCK_EV_SOCKET ∧
      ev.payload = Payload.SockEvSocket (fill_sock_info SockInfo.zero domain type protocol) ∧
      s.sock_info = fill_sock_info SockInfo.zero domain type protocol) := by
  obtain ⟨h0, h15, hidem, hbits⟩ := land_mask_low_bits type
  have hc : (524288 : Int) = ((2 ^ 19 : Nat) : Int) := by norm_num
  have hn : (2048 : Int) = ((2 ^ 11 : Nat) : Int) := by norm_num
  refine ⟨rfl, rfl, rfl, ⟨h0, h15⟩, hbits, ?_, hidem, ⟨by norm_num [SOCK_CLOEXEC],
    by norm_num [SOCK_NONBLOCK]⟩, ?_, ?_, rfl, ?_⟩
  · intro hnn
    obtain ⟨n, hn2⟩ := Int.eq_ofNat_of_zero_le hnn
    subst hn2
    have h : Int.land (Int.ofNat n) 15 = ((n &&& 15 : Nat) : Int) := rfl
    have h2 := Nat.and_pow_two_sub_one_eq_mod n 4
    have h3 : (2 : Nat) ^ 4 - 1 = 15 := by decide
    rw [h3] at h2
    show Int.land (Int.ofNat n) 15 = (n : Int) % 16
    rw [h, h2]
    norm_num
  · show (Int.land type SOCK_CLOEXEC != 0) = type.testBit 19
    unfold SOCK_CLOEXEC
    rw [hc]
    exact land_two_pow_ne_zero type 19
  · show (Int.land type SOCK_NONBLOCK != 0) = type.testBit 11
    unfold SOCK_NONBLOCK
    rw [hn]
    exact land_two_pow_ne_zero type 11
  · obtain ⟨ev, htab, hty, _, _, hpl, _⟩ := socket_effect env fd domain type protocol w
    refine ⟨fresh_sock w.connections_count fd
      (fill_sock_info SockInfo.zero domain type protocol) ev, ev, ?_, ?_, hty, hpl, ?_⟩
    · unfold World.entry
      rw [htab, ra_get_put]
      simp
    · simp [fresh_sock, push_event, Socket.zero]
    · simp [fresh_sock, push_event]

/-- C28: the timeout recorded by `sock_ev_poll`. For a timeout of 1500 ms the event
holds seconds = 1 and nanoseconds = 500000, so that seconds * 10^9 + nanoseconds is
1000500000 and not 1500000000. In general, for every t >= 0 the recorded event, which
is in the entry's list, holds seconds = t div 1000 and nanoseconds = (t mod 1000) * 1000
(the number of microseconds, below 10^6), and seconds * 10^9 + nanoseconds = t * 10^6
holds only when t is a multiple of 1000. -/
theorem poll_timeout_holds_microseconds :
    scenario_poll_1500.last_poll_timeout 5 = some { seconds := 1, nanoseconds := 500000 } ∧
    ((1 : Int) * 10 ^ 9 + 500000 = 1000500000 ∧ (1500 : Int) * 10 ^ 6 = 1500000000) ∧
    (∀ (env : Env) (fd : Nat) (ret err requested_events returned_events t : Int) (w : World),
      0 ≤ t →
      ∃ (s' : Socket) (ev : SockEvent) (T : Timeout),
        (sock_ev_poll env fd ret err requested_events returned_events t w).entry fd = some s' ∧
        ev ∈ s'.events ∧ ev.type = SOCK_EV_POLL ∧
        ev.payload = Payload.SockEvPoll T (fill_poll_events requested_events)
          (fill_poll_events returned_events) ∧
        T.seconds = t / 1000 ∧ T.nanoseconds = t % 1000 * 1000 ∧
        0 ≤ T.nanoseconds ∧ T.nanoseconds < 10 ^ 6 ∧
        (T.seconds * 10 ^ 9 + T.nanoseconds = t * 10 ^ 6 ↔ t % 1000 = 0)) := by
  refine ⟨by decide, by norm_num, ?_⟩
  intro env fd ret err requested_events returned_events t w ht
  obtain ⟨s0, s', ev, rest, _, hent, hevs, _, hty, _, hpl, _⟩ :=
    recorded_event env fd ret err (Call.poll requested_events returned_events t) w (by simp)
      (by simp [Call.dups])
  have hd : Int.tdiv t 1000 = t / 1000 := Int.tdiv_eq_ediv ht (by norm_num)
  have hm : Int.tmod t 1000 = t % 1000 := Int.tmod_eq_emod ht (by norm_num)
  refine ⟨s', ev, { seconds := t / 1000, nanoseconds := t % 1000 * 1000 }, hent, ?_, hty, ?_,
    rfl, rfl, ?_, ?_, ?_⟩
  · rw [hevs]
    simp
  · rw [hpl]
    simp [Call.payload, Call.retval, hd, hm]
  · show 0 ≤ t % 1000 * 1000
    omega
  · show t % 1000 * 1000 < 10 ^ 6
    norm_num
    omega
  · show t / 1000 * 10 ^ 9 + t % 1000 * 1000 = t * 10 ^ 6 ↔ t % 1000 = 0
    norm_num
    omega

theorem seq_extends_list (env : Env) (fd : Nat) :
    ∀ (cs : List (Int × Int × Call)) (w : World) (s0 : Socket), w.entry fd = some s0 →
      (∀ x ∈ cs, x.2.2 ≠ Call.close ∧
        ¬ (x.2.2.dups (x.2.2.retval x.1) = true ∧ x.1 = (fd : Int))) →
      ∃ (s' : Socket) (added : List SockEvent),
        (sock_ev_seq env fd cs w).entry fd = some s' ∧ s'.events = s0.events ++ added := by
  intro cs
  induction cs with
  | nil =>
    intro w s0 h0 _
    exact ⟨s0, [], h0, by simp⟩
  | cons x rest ih =>
    intro w s0 h0 hcs
    obtain ⟨hcl, hd⟩ := hcs x (List.mem_cons_self _ _)
    obtain ⟨t0, s1, ev, more, ht0, h1, hevs, _⟩ :=
      recorded_event env fd x.1 x.2.1 x.2.2 w hcl hd
    rw [after_ghost_present env fd w s0 h0, h0] at ht0
    injection ht0 with ht0
    obtain ⟨s', added, hs', hadd⟩ :=
      ih _ s1 h1 (fun y hy => hcs y (List.mem_cons_of_mem _ hy))
    refine ⟨s', ev :: more ++ added, ?_, ?_⟩
    · simpa [sock_ev_seq] using hs'
    · rw [hadd, hevs, ← ht0]
      simp

/-- C29: an entry's event list is append-only. For every entry point that opens with
the common prelude, applied to a present fd with entry `s0`, other than
`sock_ev_close` (which frees the entry) and a successful duplication returning `fd`
itself (which replaces it): the list after the call is the list of `s0`, unchanged and
in the same order, followed directly by the event of the call and then by at most one
tcp_info event. Likewise the list of `s0` is an initial segment of the list after any
sequence of such calls. -/
theorem event_list_is_append_only (env : Env) (fd : Nat) (ret err : Int) (c : Call)
    (w : World) (s0 : Socket) (h0 : w.entry fd = some s0) (hcl : c ≠ Call.close)
    (hd : ¬ (c.dups (c.retval ret) = true ∧ ret = (fd : Int))) :
    (∃ (s' : Socket) (ev : SockEvent) (rest : List SockEvent),
      (sock_ev env fd ret err c w).entry fd = some s' ∧
      s'.events = s0.events ++ ev :: rest ∧
      s0.events <+: s'.events ∧
      s'.events.take s0.events.length = s0.events ∧
      s'.events.get? s0.events.length = some ev ∧
      ev.type = c.evType ∧ ev.return_value = c.retval ret ∧
      (rest = [] ∨ ∃ t, rest = [t] ∧ t.type = SOCK_EV_TCP_INFO)) ∧
    (∀ cs : List (Int × Int × Call),
      (∀ x ∈ cs, x.2.2 ≠ Call.close ∧
        ¬ (x.2.2.dups (x.2.2.retval x.1) = true ∧ x.1 = (fd : Int))) →
      ∃ s' : Socket, (sock_ev_seq env fd cs w).entry fd = some s' ∧
        s0.events <+: s'.events) := by
  constructor
  · obtain ⟨t0, s', ev, rest, ht0, hent, hevs, _, hty, hret, _, hrest⟩ :=
      recorded_event env fd ret err c w hcl hd
    rw [after_ghost_present env fd w s0 h0, h0] at ht0
    injection ht0 with ht0
    subst ht0
    refine ⟨s', ev, rest, hent, hevs, ⟨ev :: rest, hevs.symm⟩, ?_, ?_, hty, hret, hrest⟩
    · rw [hevs]
      simp
    · rw [hevs, List.get?_eq_getElem?, List.getElem?_append_right (le_refl _)]
      simp
  · intro cs hcs
    obtain ⟨s', added, hs', hadd⟩ := seq_extends_list env fd cs w s0 h0 hcs
    exact ⟨s', hs', ⟨added, hadd.symm⟩⟩

/-! ## The lock discipline of a sequence of table calls -/

/-- What the check `disciplined` establishes, in terms of the locks held before each
call of the sequence. -/
theorem disciplined_sound : ∀ (ops : List TableOp) (held : List Int), held.length ≤ 1 →
    disciplined ops held = true →
    ops.foldl TableOp.step held = [] ∧
    ∀ n, ((ops.take n).foldl TableOp.step held).length ≤ 1 ∧
      ∀ op, ops.get? n = some op →
        ((∀ i, op = TableOp.put i → (ops.take n).foldl TableOp.step held = []) ∧
         (∀ i, op = TableOp.remove i → (ops.take n).foldl TableOp.step held = []) ∧
         (op = TableOp.nested → (ops.take n).foldl TableOp.step held = []) ∧
         (∀ i b, op = TableOp.get_and_lock i b →
            (ops.take n).foldl TableOp.step held = []) ∧
         (∀ i, op = TableOp.unlock i → i ∈ (ops.take n).foldl TableOp.step held)) := by
  intro ops
  induction ops with
  | nil =>
    intro held hl h
    have hh : held = [] := by simpa [disciplined] using h
    subst hh
    refine ⟨rfl, fun n => ⟨by simp, fun op hop => by simp at hop⟩⟩
  | cons op rest ih =>
    intro held hl h
    simp only [disciplined, Bool.and_eq_true, decide_eq_true_eq] at h
    obtain ⟨⟨hok, hlen⟩, hrest⟩ := h
    obtain ⟨hend, hall⟩ := ih (TableOp.step held op) hlen hrest
    refine ⟨by simpa using hend, ?_⟩
    intro n
    cases n with
    | zero =>
      refine ⟨by simpa using hl, ?_⟩
      intro op2 hop
      simp only [List.get?_cons_zero, Option.some.injEq] at hop
      subst hop
      simp only [List.take_zero, List.foldl_nil]
      refine ⟨?_, ?_, ?_, ?_, ?_⟩
      · intro i hi
        subst hi
        simpa using hok
      · intro i hi
        subst hi
        simpa using hok
      · intro hi
        subst hi
        simpa using hok
      · intro i b hi
        subst hi
        simpa using hok
      · intro i hi
        subst hi
        simpa using hok
    | succ n =>
      simp only [List.take_succ_cons, List.foldl_cons, List.get?_cons_succ]
      exact hall n

/-! ## The table calls of an entry point -/

theorem after_ghost_is_present (env : Env) (fd : Nat) (w : World) :
    ra_is_present (after_ghost env fd w).table fd = true := by
  obtain ⟨s0, h0⟩ := after_ghost_entry env fd w
  exact ra_is_present_of_get _ _ _ h0

theorem ra_present_store (a : ResizableArray) (fd : Nat) (s : Socket)
    (h : ra_is_present a fd = true) : ra_is_present (ra_store a fd s) fd = true := by
  unfold ra_is_present
  rw [ra_get_store _ _ _ _ h]
  simp

theorem locals_present (env : Env) (fd : Nat) (ret err : Int) (c : Call) (w : World) :
    ra_is_present (sock_ev_locals env fd ret err c w).w.table fd = true := by
  obtain ⟨s0, h0⟩ := after_ghost_entry env fd w
  have hp0 := after_ghost_is_present env fd w
  unfold sock_ev_locals
  simp only []
  rw [prelude_eq env _ fd _ _ w s0 h0]
  obtain ⟨nb, hbw⟩ := body_w env c (c.retval ret)
      { w := { after_ghost env fd w with ticks := (after_ghost env fd w).ticks + 1 },
        sock := s0,
        ev := (alloc_event env (after_ghost env fd w) c.evType (c.retval ret) err
          s0.events_count).1 }
  generalize c.body env (c.retval ret)
      { w := { after_ghost env fd w with ticks := (after_ghost env fd w).ticks + 1 },
        sock := s0,
        ev := (alloc_event env (after_ghost env fd w) c.evType (c.retval ret) err
          s0.events_count).1 } = b at hbw
  have hbt : b.w.table = (after_ghost env fd w).table := by rw [hbw]
  split
  · rw [dup_socket_eq]
    simp only []
    apply ra_present_put
    apply ra_present_store
    rw [hbt]
    exact hp0
  · rw [hbt]
    exact hp0

theorem locked_present (env : Env) (cons : SockEventType) (fd : Nat) (l : Locals)
    (h : ra_is_present l.w.table fd = true) :
    ra_is_present (SOCK_EV_POSTLUDE_locked env cons fd l).2.table fd = true := by
  obtain ⟨n, hn⟩ := locked_snd env cons fd l
  rw [hn]
  exact ra_present_store _ _ _ h

theorem prelude_ops_present (env : Env) (fd : Nat) (w : World)
    (h : ra_is_present w.table fd = true) :
    prelude_ops env fd w = [TableOp.is_present fd, TableOp.get_and_lock fd true] := by
  have hp := after_ghost_is_present env fd w
  simp [prelude_ops, h, hp]

/-- The table calls of an entry point, spelled out: the flags of `get_and_lock` are all
true, the slot being occupied each time. -/
theorem sock_ev_ops_eq (env : Env) (fd : Nat) (ret err : Int) (c : Call) (w : World) :
    sock_ev_ops env fd ret err c w
      = [TableOp.is_present fd]
          ++ (if ra_is_present w.table fd = true then [] else [TableOp.put fd])
          ++ [TableOp.get_and_lock fd true]
          ++ (if c.dups (c.retval ret) = true then
                [TableOp.unlock fd, TableOp.put (c.retval ret), TableOp.get_and_lock fd true]
              else [])
          ++ [TableOp.unlock fd]
          ++ (if sample_fires env c.consType fd (sock_ev_locals env fd ret err c w) = true then
                [TableOp.nested, TableOp.is_present fd, TableOp.get_and_lock fd true,
                  TableOp.unlock fd]
              else [])
          ++ (if c = Call.close then [TableOp.remove fd] else []) := by
  have hp := after_ghost_is_present env fd w
  have hl := locals_present env fd ret err c w
  have hk := locked_present env c.consType fd _ hl
  have ht := prelude_ops_present env fd _ hk
  simp only [sock_ev_ops, postlude_ops, tcp_info_ops, ht]
  simp only [prelude_ops, dup_ops, ghost_ops, hp, hl]
  by_cases h1 : ra_is_present w.table fd = true <;>
    by_cases h2 : c.dups (c.retval ret) = true <;>
    by_cases h3 : sample_fires env c.consType fd (sock_ev_locals env fd ret err c w) = true <;>
    simp [h1, h2, h3]

theorem shape_disciplined (fd r : Int) (p d f cl : Bool) :
    disciplined
      ([TableOp.is_present fd]
        ++ (if p = true then [] else [TableOp.put fd])
        ++ [TableOp.get_and_lock fd true]
        ++ (if d = true then
              [TableOp.unlock fd, TableOp.put r, TableOp.get_and_lock fd true]
            else [])
        ++ [TableOp.unlock fd]
        ++ (if f = true then
              [TableOp.nested, TableOp.is_present fd, TableOp.get_and_lock fd true,
                TableOp.unlock fd]
            else [])
        ++ (if cl = true then [TableOp.remove fd] else [])) [] = true := by
  cases p <;> cases d <;> cases f <;> cases cl <;> simp [disciplined, TableOp.step]

theorem sock_ev_ops_disciplined (env : Env) (fd : Nat) (ret err : Int) (c : Call)
    (w : World) : disciplined (sock_ev_ops env fd ret err c w) [] = true := by
  rw [sock_ev_ops_eq]
  have h := shape_disciplined fd (c.retval ret) (ra_is_present w.table fd)
    (c.dups (c.retval ret))
    (sample_fires env c.consType fd (sock_ev_locals env fd ret err c w))
    (decide (c = Call.close))
  simpa only [decide_eq_true_eq] using h

/-- The run of an entry point hands to its postlude the locals on which the sequence of
table calls is built. -/
theorem sock_ev_eq_locals (env : Env) (fd : Nat) (ret err : Int) (c : Call) (w : World) :
    sock_ev env fd ret err c w
      = if c = Call.close then
          free_and_dump_socket env fd
            (SOCK_EV_POSTLUDE env c.consType fd (sock_ev_locals env fd ret err c w))
        else SOCK_EV_POSTLUDE env c.consType fd (sock_ev_locals env fd ret err c w) := by
  rw [sock_ev_eq_shape]
  rfl

/-- C30: the lock discipline of the recording entry points, over the calls of the table
interface that an entry point makes in program order (the locks held follow the
contract of the table: `get_and_lock` acquires the lock of an occupied slot, `unlock`
releases it). For every entry point that opens with the common prelude: the thread
holds at most one per-slot lock at any moment; in the duplication family the lock of
the source slot is held before `DUP_SOCKET`, released before `ra_put_elem` touches the
destination slot, and re-acquired afterwards; every `ra_put_elem` and `ra_remove_elem`,
and the nested tcp_info recording, start with no lock held; every `unlock` releases a
lock that is held; and at the return no lock is held. `sock_start_capture` holds at
most the lock of `fd` and returns with no lock held. -/
theorem lock_discipline (env : Env) (fd : Nat) (ret err : Int) (c : Call) (w : World) :
    (sock_ev env fd ret err c w
      = if c = Call.close then
          free_and_dump_socket env fd
            (SOCK_EV_POSTLUDE env c.consType fd (sock_ev_locals env fd ret err c w))
        else SOCK_EV_POSTLUDE env c.consType fd (sock_ev_locals env fd ret err c w)) ∧
    (∀ n, (held_after ((sock_ev_ops env fd ret err c w).take n)).length ≤ 1) ∧
    (c.dups (c.retval ret) = true →
      ∃ pre post : List TableOp,
        sock_ev_ops env fd ret err c w
          = pre ++ [TableOp.unlock fd, TableOp.put (c.retval ret),
              TableOp.get_and_lock fd true] ++ post ∧
        held_after pre = [(fd : Int)] ∧
        held_after (pre ++ [TableOp.unlock fd]) = [] ∧
        held_after (pre ++ [TableOp.unlock fd, TableOp.put (c.retval ret)]) = [] ∧
        held_after (pre ++ [TableOp.unlock fd, TableOp.put (c.retval ret),
          TableOp.get_and_lock fd true]) = [(fd : Int)]) ∧
    (∀ n i, (sock_ev_ops env fd ret err c w).get? n = some (TableOp.put i) ∨
        (sock_ev_ops env fd ret err c w).get? n = some (TableOp.remove i) →
      held_after ((sock_ev_ops env fd ret err c w).take n) = []) ∧
    (∀ n, (sock_ev_ops env fd ret err c w).get? n = some TableOp.nested →
      held_after ((sock_ev_ops env fd ret err c w).take n) = []) ∧
    (∀ n i, (sock_ev_ops env fd ret err c w).get? n = some (TableOp.unlock i) →
      i ∈ held_after ((sock_ev_ops env fd ret err c w).take n)) ∧
    held_after (sock_ev_ops env fd ret err c w) = [] ∧
    (∀ n, (held_after ((start_capture_ops fd w).take n)).length ≤ 1) ∧
    held_after (start_capture_ops fd w) = [] := by
  obtain ⟨hend, hall⟩ := disciplined_sound (sock_ev_ops env fd ret err c w) [] (by simp)
    (sock_ev_ops_disciplined env fd ret err c w)
  refine ⟨sock_ev_eq_locals env fd ret err c w, fun n => (hall n).1, ?_, ?_, ?_, ?_, hend,
    ?_, ?_⟩
  · intro hd
    refine ⟨[TableOp.is_present fd]
        ++ (if ra_is_present w.table fd = true then [] else [TableOp.put fd])
        ++ [TableOp.get_and_lock fd true],
      [TableOp.unlock fd]
        ++ (if sample_fires env c.consType fd (sock_ev_locals env fd ret err c w) = true then
              [TableOp.nested, TableOp.is_present fd, TableOp.get_and_lock fd true,
                TableOp.unlock fd]
            else [])
        ++ (if c = Call.close then [TableOp.remove fd] else []), ?_, ?_, ?_, ?_, ?_⟩
    · rw [sock_ev_ops_eq]
      simp [hd]
    all_goals
      by_cases h1 : ra_is_present w.table fd = true <;>
        simp [h1, held_after, TableOp.step]
  · intro n i h
    rcases h with h | h
    · exact ((hall n).2 _ h).1 i rfl
    · exact ((hall n).2 _ h).2.1 i rfl
  · intro n h
    exact ((hall n).2 _ h).2.2.1 rfl
  · intro n i h
    exact ((hall n).2 _ h).2.2.2.2 i rfl
  · intro n
    unfold start_capture_ops
    cases ra_is_present w.table fd <;>
      rcases n with _ | _ | _ | n <;> simp [held_after, TableOp.step]
  · unfold start_capture_ops
    cases ra_is_present w.table fd <;> simp [held_after, TableOp.step]

/-! ## The frame of the recording entry points -/

theorem after_ghost_frame (env : Env) (fd : Nat) (w : World) (fd' : Nat) (hne : fd' ≠ fd) :
    (after_ghost env fd w).entry fd' = w.entry fd' := by
  unfold after_ghost
  split
  · rfl
  · unfold World.entry
    rw [ghost_table]
    exact ra_get_put_ne _ _ _ _ (by omega)

theorem sock_ev_frame (env : Env) (fd : Nat) (ret err : Int) (c : Call) (w : World) (fd' : Nat)
    (hne : fd' ≠ fd) (hdup : ¬ (c.dups (c.retval ret) = true ∧ ret = (fd' : Int))) :
    (sock_ev env fd ret err c w).entry fd' = w.entry fd' := by
  obtain ⟨s0, h0⟩ := after_ghost_entry env fd w
  obtain ⟨l, s', rest, ha, hp, he⟩ := sock_ev_effect env fd ret err c w s0 h0
  have hl : ra_get_and_lock_elem l.w.table fd'
      = ra_get_and_lock_elem (after_ghost env fd w).table fd' := by
    by_cases hd : c.dups (c.retval ret) = true
    · rw [(ha.dup hd).1]
      exact ra_get_put_ne _ _ _ _ (fun h => hdup ⟨hd, h⟩)
    · rw [(ha.nodup (by simpa using hd)).1]
  have hpost : (SOCK_EV_POSTLUDE env c.consType fd l).entry fd' = w.entry fd' := by
    unfold World.entry
    rw [hp.table, ra_get_store_ne _ _ _ _ hne, hl]
    exact after_ghost_frame env fd w fd' hne
  rw [he]
  split
  · rw [free_and_dump_entry]
    simp [hne, hpost]
  · exact hpost

theorem socket_frame (env : Env) (fd : Nat) (domain type protocol : Int) (w : World)
    (fd' : Nat) (hne : fd' ≠ fd) :
    (sock_ev_socket env fd domain type protocol w).entry fd' = w.entry fd' := by
  obtain ⟨ev, htab, _⟩ := socket_effect env fd domain type protocol w
  unfold World.entry
  rw [htab, ra_get_put_ne _ _ _ _ (by omega)]
  split
  · have h := free_and_dump_entry env fd w fd'
    unfold World.entry at h
    rw [h]
    simp [hne]
  · rfl

theorem forked_frame (env : Env) (fd : Nat) (si : SockInfo) (w : World) (fd' : Nat)
    (hne : fd' ≠ fd) :
    (sock_ev_forked_socket env fd si w).entry fd' = w.entry fd' := by
  obtain ⟨ev, htab, _⟩ := forked_effect env fd si w
  unfold World.entry
  rw [htab, ra_get_put_ne _ _ _ _ (by omega)]

theorem present_of_entry_eq (a b : ResizableArray) (i : Nat)
    (h : ra_get_and_lock_elem a i = ra_get_and_lock_elem b i) :
    ra_is_present a i = ra_is_present b i := by
  have ha := ra_is_present_iff a i
  have hb := ra_is_present_iff b i
  rw [h] at ha
  cases hx : ra_is_present a i <;> cases hy : ra_is_present b i <;> simp_all

/-! ## C31 -/

theorem locked_tag_irrelevant (env : Env) (a b : SockEventType) (fd : Nat) (l : Locals)
    (ha : a ≠ SOCK_EV_TCP_INFO) (hb : b ≠ SOCK_EV_TCP_INFO) :
    SOCK_EV_POSTLUDE_locked env a fd l = SOCK_EV_POSTLUDE_locked env b fd l := by
  have h1 : (a != SOCK_EV_TCP_INFO) = true := by simpa using ha
  have h2 : (b != SOCK_EV_TCP_INFO) = true := by simpa using hb
  simp only [SOCK_EV_POSTLUDE_locked, h1, h2]

theorem postlude_tag_irrelevant (env : Env) (a b : SockEventType) (fd : Nat) (l : Locals)
    (ha : a ≠ SOCK_EV_TCP_INFO) (hb : b ≠ SOCK_EV_TCP_INFO) :
    SOCK_EV_POSTLUDE env a fd l = SOCK_EV_POSTLUDE env b fd l := by
  simp only [SOCK_EV_POSTLUDE, locked_tag_irrelevant env a b fd l ha hb]

/-- C31: the event appended by `sock_ev_getsockopt` has type getsockopt, not setsockopt,
and the tag `SOCK_EV_SETSOCKOPT` given to its postlude changes nothing: for every input
and state the resulting state is that of the variant whose postlude is given
`SOCK_EV_GETSOCKOPT`, and for every entry and event handed to the postlude the tcp_info
sampling decision is the same under both tags. The entry at `fd` afterwards holds the
events of the entry found there (or of the ghost entry created for it), then the
recorded event, of type getsockopt, then at most the tcp_info event of the nested
sampling. -/
theorem getsockopt_postlude_tag_unobservable (env : Env) (fd : Nat) (ret err : Int)
    (level optname : Int) (optval : List Nat) (optlen : Nat) (w : World) :
    sock_ev_getsockopt env fd ret err level optname optval optlen w
        = sock_ev_getsockopt_variant env fd ret err level optname optval optlen w ∧
      (∀ l : Locals,
        sample_fires env SOCK_EV_SETSOCKOPT fd l = sample_fires env SOCK_EV_GETSOCKOPT fd l) ∧
      ∃ (s0 s' : Socket) (ev : SockEvent) (rest : List SockEvent),
        (after_ghost env fd w).entry fd = some s0 ∧
        (sock_ev_getsockopt env fd ret err level optname optval optlen w).entry fd = some s' ∧
        s'.events = s0.events ++ ev :: rest ∧
        ev.type = SOCK_EV_GETSOCKOPT ∧ ev.type ≠ SOCK_EV_SETSOCKOPT ∧
        ev.return_value = ret ∧
        ev.payload = Payload.SockEvGetsockopt (fill_sockopt level optname optval optlen) ∧
        (rest = [] ∨ ∃ t, rest = [t] ∧ t.type = SOCK_EV_TCP_INFO) := by
  refine ⟨?_, ?_, ?_⟩
  · unfold sock_ev_getsockopt sock_ev_getsockopt_variant
    exact postlude_tag_irrelevant env _ _ fd _ (by decide) (by decide)
  · intro l
    unfold sample_fires
    rw [locked_tag_irrelevant env SOCK_EV_SETSOCKOPT SOCK_EV_GETSOCKOPT fd l (by decide)
      (by decide)]
  · obtain ⟨s0, s', ev, rest, h0, h1, h2, _, h4, h5, h6, h7⟩ :=
      recorded_event env fd ret err (Call.getsockopt level optname optval optlen) w
        (by simp) (by simp [Call.dups])
    have h4b : ev.type = SOCK_EV_GETSOCKOPT := h4
    refine ⟨s0, s', ev, rest, h0, h1, h2, h4b, ?_, h5, h6, h7⟩
    rw [h4b]
    decide

/-! ## C32 -/

theorem foldl_add_mod (M : Nat) (l : List Nat) (a : Nat) :
    l.foldl (fun bytes iov_len => (bytes + iov_len) % M) (a % M) = (a + l.sum) % M := by
  induction l generalizing a with
  | nil => simp
  | cons x rest ih =>
    simp only [List.foldl_cons, List.sum_cons]
    rw [Nat.mod_add_mod, ih (a + x), Nat.add_assoc]

theorem fill_iovec_bytes_eq (iov : List Nat) (n : Nat) :
    fill_iovec_bytes iov n = (iov.take n).sum % UINT_MOD := by
  unfold fill_iovec_bytes
  have h := foldl_add_mod UINT_MOD (iov.take n) 0
  simpa using h

theorem fill_iovec_pos (iov1 : Iovec) (iov : List Nat) (n : Nat) (hn : 0 < n) :
    fill_iovec iov1 iov (n : Int)
      = ({ iovec_count := (n : Int), iovec_sizes := iov.take n },
          (iov.take n).sum % UINT_MOD) := by
  have h : ¬ ((n : Int) ≤ 0) := by omega
  simp [fill_iovec, h, fill_iovec_bytes_eq]

/-- C32 (counterexample): one buffer of 2^32 bytes, the sum of the lengths is 2^32 and
`fill_iovec` returns 0; the `writev` recorded on fd 5 leaves bytes_sent at 0, and the
`readv` into two buffers of 2^31 bytes leaves bytes_received at 0. -/
theorem iovec_sum_is_truncated :
    (fill_iovec Iovec.zero [4294967296] 1).1
        = { iovec_count := 1, iovec_sizes := [4294967296] } ∧
      ([4294967296] : List Nat).sum = 4294967296 ∧
      (fill_iovec Iovec.zero [4294967296] 1).2 = 0 ∧
      (scenario_socket5.entry 5).map (fun s => (s.bytes_sent, s.bytes_received)) = some (0, 0) ∧
      (scenario_writev_4g.entry 5).map (fun s => s.bytes_sent) = some 0 ∧
      (scenario_readv_4g.entry 5).map (fun s => s.bytes_received) = some 0 := by
  decide

/-- C32 (amended): for every iovec array with count n > 0, `fill_iovec` records
iovec_count = n and the sizes iov_len[0..n-1] in order, and returns the sum of these
iov_len values reduced modulo 2^32 (its accumulator is a `socklen_t`), which is the sum
itself whenever the sum is below 2^32; the returned amount is what `sock_ev_writev`
adds to bytes_sent and `sock_ev_readv` adds to bytes_received (additions of the 64-bit
counters), the other counter being unchanged, and the recorded event carries the
returned amount and the recorded vector; for every count m <= 0 `fill_iovec` records
the count, copies no sizes and returns 0. -/
theorem fill_iovec_returns_sum_modulo (env : Env) (fd : Nat) (ret err : Int) (w : World)
    (s0 : Socket) (iov1 : Iovec) (iov : List Nat) (n : Nat) (hn : 0 < n)
    (hlen : n ≤ iov.length) (h0 : (after_ghost env fd w).entry fd = some s0) :
    (fill_iovec iov1 iov n).1.iovec_count = n ∧
      (fill_iovec iov1 iov n).1.iovec_sizes.length = n ∧
      (∀ k, k < n → (fill_iovec iov1 iov n).1.iovec_sizes[k]? = iov[k]?) ∧
      (fill_iovec iov1 iov n).2 = (iov.take n).sum % UINT_MOD ∧
      ((iov.take n).sum < UINT_MOD → (fill_iovec iov1 iov n).2 = (iov.take n).sum) ∧
      (∃ (s' : Socket) (ev : SockEvent),
        (sock_ev_writev env fd ret err iov n w).entry fd = some s' ∧
        s'.bytes_sent = (s0.bytes_sent + (fill_iovec Iovec.zero iov n).2) % ULONG_MOD ∧
        s'.bytes_received = s0.bytes_received ∧
        ev ∈ s'.events ∧ ev.type = SOCK_EV_WRITEV ∧
        ev.payload = Payload.SockEvWritev ((iov.take n).sum % UINT_MOD)
          { iovec_count := n, iovec_sizes := iov.take n }) ∧
      (∃ (s' : Socket) (ev : SockEvent),
        (sock_ev_readv env fd ret err iov n w).entry fd = some s' ∧
        s'.bytes_received = (s0.bytes_received + (fill_iovec Iovec.zero iov n).2) % ULONG_MOD ∧
        s'.bytes_sent = s0.bytes_sent ∧
        ev ∈ s'.events ∧ ev.type = SOCK_EV_READV ∧
        ev.payload = Payload.SockEvReadv ((iov.take n).sum % UINT_MOD)
          { iovec_count := n, iovec_sizes := iov.take n }) ∧
      (∀ m : Int, m ≤ 0 → fill_iovec iov1 iov m = ({ iov1 with iovec_count := m }, 0)) := by
  have hz := fill_iovec_pos Iovec.zero iov n hn
  refine ⟨?_, ?_, ?_, ?_, ?_, ?_, ?_, ?_⟩
  · rw [fill_iovec_pos iov1 iov n hn]
  · rw [fill_iovec_pos iov1 iov n hn]
    simp only [List.length_take]
    omega
  · intro k hk
    rw [fill_iovec_pos iov1 iov n hn]
    simp only [List.getElem?_take]
    simp [hk]
  · rw [fill_iovec_pos iov1 iov n hn]
  · intro h
    rw [fill_iovec_pos iov1 iov n hn]
    exact Nat.mod_eq_of_lt h
  · obtain ⟨w', s', ev, rest, now, heq, hent, hstep, _⟩ :=
      source_fields env fd ret err (Call.writev iov n) w s0 h0 (by simp [Call.dups])
    simp only [if_neg (show Call.writev iov n ≠ Call.close by simp)] at heq
    have hsame : sock_ev_writev env fd ret err iov n w
        = sock_ev env fd ret err (Call.writev iov n) w := rfl
    refine ⟨s', ev, ?_, ?_, ?_, ?_, hstep.ev_type, ?_⟩
    · rw [hsame, heq]
      exact hent
    · rw [hstep.bytes_sent]
      simp [Call.sockBody, add_bytes_sent]
    · rw [hstep.bytes_received]
      simp [Call.sockBody, add_bytes_sent]
    · rw [hstep.events]
      simp
    · rw [hstep.ev_payload]
      simp only [Call.payload, hz]
  · obtain ⟨w', s', ev, rest, now, heq, hent, hstep, _⟩ :=
      source_fields env fd ret err (Call.readv iov n) w s0 h0 (by simp [Call.dups])
    simp only [if_neg (show Call.readv iov n ≠ Call.close by simp)] at heq
    have hsame : sock_ev_readv env fd ret err iov n w
        = sock_ev env fd ret err (Call.readv iov n) w := rfl
    refine ⟨s', ev, ?_, ?_, ?_, ?_, hstep.ev_type, ?_⟩
    · rw [hsame, heq]
      exact hent
    · rw [hstep.bytes_received]
      simp [Call.sockBody, add_bytes_received]
    · rw [hstep.bytes_sent]
      simp [Call.sockBody, add_bytes_received]
    · rw [hstep.events]
      simp
    · rw [hstep.ev_payload]
      simp only [Call.payload, hz]
  · intro m hm
    simp [fill_iovec, hm]

/-! ## C33 -/

theorem alloc_event_socket_success (env : Env) (w : World) (r e : Int) (i : Nat) :
    (alloc_event env w SOCK_EV_SOCKET r e i).1.success = (r != 0) := by
  simp [alloc_event, alloc_event_switch, CASE_EV]

theorem socket_entry (env : Env) (fd : Nat) (domain type protocol : Int) (w : World) :
    ∃ (s : Socket) (ev : SockEvent),
      (sock_ev_socket env fd domain type protocol w).entry fd = some s ∧ s.events = [ev] ∧
      ev.type = SOCK_EV_SOCKET ∧ ev.return_value = fd ∧ ev.success = ((fd : Int) != 0) := by
  generalize hw1 : (if ra_is_present w.table fd then free_and_dump_socket env fd w else w) = w1
  refine ⟨fresh_sock w1.connections_count fd (fill_sock_info SockInfo.zero domain type protocol)
      { (alloc_event env (alloc_socket fd w1).2 SOCK_EV_SOCKET fd 0 0).1 with
        payload := Payload.SockEvSocket (fill_sock_info SockInfo.zero domain type protocol) },
    { (alloc_event env (alloc_socket fd w1).2 SOCK_EV_SOCKET fd 0 0).1 with
      payload := Payload.SockEvSocket (fill_sock_info SockInfo.zero domain type protocol) },
    ?_, ?_, rfl, rfl, ?_⟩
  · simp [World.entry, sock_ev_socket, hw1, ra_get_put, fresh_sock, alloc_socket, Socket.zero]
  · simp [fresh_sock, push_event, Socket.zero]
  · exact alloc_event_socket_success env (alloc_socket fd w1).2 fd 0 0

/-- C33 (the code at the failing input): the event recorded by `sock_ev_socket` for
every fd has return_value = fd and success = (fd != 0), the failure sentinel given to
`alloc_event` for the socket event being 0. For `socket() -> 0` the recorded event has
return_value 0 and success = false, whereas `accept(4) -> 0`, whose sentinel is -1,
is recorded with success = true. -/
theorem socket_fd_zero_recorded_as_failure :
    (∀ (env : Env) (fd : Nat) (domain type protocol : Int) (w : World),
      ∃ (s : Socket) (ev : SockEvent),
        (sock_ev_socket env fd domain type protocol w).entry fd = some s ∧ s.events = [ev] ∧
        ev.type = SOCK_EV_SOCKET ∧ ev.return_value = fd ∧ ev.success = ((fd : Int) != 0)) ∧
      scenario_socket0.event_outcomes 0 = [(SOCK_EV_SOCKET, 0, false)] ∧
      scenario_socket5.event_outcomes 5 = [(SOCK_EV_SOCKET, 5, true)] ∧
      scenario_accept0.event_outcomes 4 = [(SOCK_EV_SOCKET, 4, true), (SOCK_EV_ACCEPT, 0, true)] :=
  ⟨socket_entry, by decide, by decide, by decide⟩

/-! ## C34 -/

theorem tcp_info_sets_rtt (env : Env) (fd : Nat) (ret err : Int) (info : TcpInfo) (w : World) :
    ∃ s' : Socket,
      (sock_ev_tcp_info env fd ret err info w).entry fd = some s' ∧ s'.rtt = info.tcpi_rtt := by
  obtain ⟨s0, h0⟩ := after_ghost_entry env fd w
  obtain ⟨ev, _, _, _, _, _, hent, _⟩ := tcp_info_entry env fd ret err info w s0 h0
  exact ⟨_, hent, rfl⟩

theorem tcp_dump_of_failed_query (env : Env) (fd : Nat) (w : World)
    (h : env.getsockopt_tcp_info fd = none) :
    tcp_dump_tcp_info env fd w
      = sock_ev_tcp_info env fd (-1) env.errno env.uninit_tcp_info w := by
  simp [tcp_dump_tcp_info, fill_tcp_info, h]

/-- C34 (the code at the failing input): `sock_ev_tcp_info` stores `info->tcpi_rtt` in
the entry's rtt whatever `ret` is, for `ret = -1` too; and when the query of
`tcp_dump_tcp_info` fails, the block handed over is the one `my_malloc` returned,
never filled. On fd 5, after a sample obtained from the kernel (rtt 7), a sample whose
query fails is recorded with return value -1 and success = false, the entry's rtt
becomes 999, the content of the unfilled block, and the close stops the capture with a
grace of 2 * 999. -/
theorem failed_tcp_info_overwrites_rtt :
    (∀ (env : Env) (fd : Nat) (err : Int) (info : TcpInfo) (w : World),
      ∃ s' : Socket,
        (sock_ev_tcp_info env fd (-1) err info w).entry fd = some s' ∧
        s'.rtt = info.tcpi_rtt) ∧
      (∀ (env : Env) (fd : Nat) (w : World), env.getsockopt_tcp_info fd = none →
        tcp_dump_tcp_info env fd w
          = sock_ev_tcp_info env fd (-1) env.errno env.uninit_tcp_info w) ∧
      scenario_sampled.rtt 5 = some 7 ∧
      scenario_sample_failed.rtt 5 = some 999 ∧
      scenario_sample_failed.event_outcomes 5
        = [(SOCK_EV_SOCKET, 5, true), (SOCK_EV_SEND, 100, true), (SOCK_EV_TCP_INFO, 0, true),
            (SOCK_EV_SEND, 100, true), (SOCK_EV_TCP_INFO, -1, false)] ∧
      scenario_sample_failed_closed.stopped = [(1, 1998)] :=
  ⟨fun env fd err info w => tcp_info_sets_rtt env fd (-1) err info w,
    tcp_dump_of_failed_query, by decide, by decide, by decide, by decide⟩

/-! ## C35 -/

theorem dump_loop_written (env : Env) (id : Nat) (evs : List SockEvent) (y : World) :
    (dump_events_loop env id evs y).2.dumped
        = y.dumped ++ (evs.take (dump_events_written env evs)).map (fun e => (id, e)) ∧
      ((dump_events_loop env id evs y).1 = false ↔ dump_events_written env evs < evs.length) := by
  induction evs generalizing y with
  | nil => simp [dump_events_loop, dump_events_written]
  | cons e rest ih =>
    by_cases h : env.alloc_sock_ev_json e = true
    · obtain ⟨h1, h2⟩ := ih { y with dumped := y.dumped ++ [(id, e)] }
      simp only [dump_events_loop, dump_events_written, h, if_true]
      refine ⟨?_, ?_⟩
      · rw [h1]
        simp
      · rw [h2]
        simp
    · simp [dump_events_loop, dump_events_written, h]

theorem dump_stopped_entry (env : Env) (sock : Socket) (w : World) (hD : env.OPT_D = true)
    (hp : env.alloc_json_path_str sock.id = true) (ho : env.fopen sock.id = true)
    (hfail : (dump_events_loop env sock.id sock.events w).1 = false)
    (hw : 0 < dump_events_written env sock.events) :
    (dump_events_as_json env sock w).1.events
        = env.freed_head (sock.events.take (dump_events_written env sock.events))
            (sock.events.drop (dump_events_written env sock.events)) ∧
      (dump_events_as_json env sock w).2.dumped
        = w.dumped ++ (sock.events.take (dump_events_written env sock.events)).map
            (fun e => (sock.id, e)) := by
  have hne : ¬ dump_events_written env sock.events = 0 := by omega
  have hd := (dump_loop_written env sock.id sock.events w).1
  simp [dump_events_as_json, hD, hp, ho, hfail, hne, hd]

/-- C35 (the code at the failing input): when the loop of `dump_events_as_json` stops
at an event that cannot be serialized after it has written (and freed) at least one
event, `head` is not updated: the list found from it afterwards is the one found from a
freed node, whatever the events not reached. On fd 5 holding the events socket, bind,
send, with a bind event that cannot be serialized: the dump writes the socket event and
stops; in a run in which the freed node is reused by the next allocation, the entry's
list then holds neither bind nor send, and the dump made by the later close writes the
close event alone: the bind and send events are never written. -/
theorem stopped_dump_leaves_dangling_head :
    (∀ (env : Env) (sock : Socket) (w : World), env.OPT_D = true →
      env.alloc_json_path_str sock.id = true → env.fopen sock.id = true →
      (dump_events_loop env sock.id sock.events w).1 = false →
      0 < dump_events_written env sock.events →
        (dump_events_as_json env sock w).1.events
            = env.freed_head (sock.events.take (dump_events_written env sock.events))
                (sock.events.drop (dump_events_written env sock.events)) ∧
          (dump_events_as_json env sock w).2.dumped
            = w.dumped ++ (sock.events.take (dump_events_written env sock.events)).map
                (fun e => (sock.id, e))) ∧
      scenario_three_events.event_types 5 = [SOCK_EV_SOCKET, SOCK_EV_BIND, SOCK_EV_SEND] ∧
      scenario_three_events.dumped = [] ∧
      dump_events_written env_json_fails three_events_entry.events = 1 ∧
      scenario_dump_stopped.dumped_types = [SOCK_EV_SOCKET] ∧
      scenario_dump_stopped.event_types 5 = [] ∧
      scenario_dump_again.dumped.map (fun x => (x.1, x.2.id, x.2.type))
        = [(0, 0, SOCK_EV_SOCKET), (0, 3, SOCK_EV_CLOSE)] :=
  ⟨dump_stopped_entry, by decide, by decide, by decide, by decide, by decide, by decide⟩

/-! ## C36 -/

/-- C36: frame. For every recording entry point applied to `fd` (the entry points that
open with the common prelude, `sock_ev_tcp_info` included, `sock_ev_socket` and
`sock_ev_forked_socket`) and every other descriptor `fd'`, different from `fd` and from
the descriptor returned by a successful duplication, the table's state at `fd'` is
unchanged by the call: the slot is present exactly if it was, and the entry found there
is the same entry, with its id, sock_info, bound state, byte counters, watermarks and
event list. -/
theorem other_descriptors_unchanged (env : Env) (fd : Nat) (ret err : Int) (c : Call)
    (w : World) (fd' : Nat) (domain type protocol : Int) (si : SockInfo) (hne : fd' ≠ fd)
    (hdup : ¬ (c.dups (c.retval ret) = true ∧ ret = (fd' : Int))) :
    ((sock_ev env fd ret err c w).entry fd' = w.entry fd' ∧
        ra_is_present (sock_ev env fd ret err c w).table fd' = ra_is_present w.table fd') ∧
      ((sock_ev_socket env fd domain type protocol w).entry fd' = w.entry fd' ∧
        ra_is_present (sock_ev_socket env fd domain type protocol w).table fd'
          = ra_is_present w.table fd') ∧
      ((sock_ev_forked_socket env fd si w).entry fd' = w.entry fd' ∧
        ra_is_present (sock_ev_forked_socket env fd si w).table fd'
          = ra_is_present w.table fd') :=
  ⟨⟨sock_ev_frame env fd ret err c w fd' hne hdup,
      present_of_entry_eq _ _ _ (sock_ev_frame env fd ret err c w fd' hne hdup)⟩,
    ⟨socket_frame env fd domain type protocol w fd' hne,
      present_of_entry_eq _ _ _ (socket_frame env fd domain type protocol w fd' hne)⟩,
    ⟨forked_frame env fd si w fd' hne,
      present_of_entry_eq _ _ _ (forked_frame env fd si w fd' hne)⟩⟩

/-! ## C37 -/

/-- The loop of `get_int_len` on a non-negative `i` with enough fuel: it returns `l + k`
where `k` is the number of divisions by 10 that bring `i` to a single digit. -/
theorem get_int_len_loop_spec (fuel : Nat) (i l : Int) (h0 : 0 ≤ i) (hf : i < (fuel : Int)) :
    ∃ k : Nat, get_int_len_loop fuel i l = some (l + k) ∧
      i < 10 ^ (k + 1) ∧ (k = 0 ∨ (10 : Int) ^ k ≤ i) := by
  induction fuel generalizing i l with
  | zero => omega
  | succ n ih =>
    unfold get_int_len_loop
    by_cases h9 : i > 9
    · simp only [h9, if_true]
      have hdiv : i.tdiv 10 = i / 10 := Int.tdiv_eq_ediv h0 (by decide)
      rw [hdiv]
      obtain ⟨k, hk, hlt, hge⟩ := ih (i / 10) (l + 1) (by omega) (by omega)
      refine ⟨k + 1, ?_, ?_, Or.inr ?_⟩
      · rw [hk]
        congr 1
        push_cast
        omega
      · have hp : (10 : Int) ^ (k + 1 + 1) = 10 * 10 ^ (k + 1) := by ring
        rw [hp]
        omega
      · have hp : (10 : Int) ^ (k + 1) = 10 * 10 ^ k := by ring
        rw [hp]
        rcases hge with hz | hge
        · subst hz
          simp
          omega
        · omega
    · simp only [h9, if_false]
      exact ⟨0, by simp, by simp; omega, Or.inl rfl⟩

theorem pow_window_unique (i : Int) (a b : Nat) (ha : 1 ≤ a) (hb : 1 ≤ b)
    (ha1 : (10 : Int) ^ (a - 1) ≤ i) (ha2 : i < 10 ^ a) (hb1 : (10 : Int) ^ (b - 1) ≤ i)
    (hb2 : i < 10 ^ b) : a = b := by
  have h1 : (10 : Int) ^ (a - 1) < 10 ^ b := lt_of_le_of_lt ha1 hb2
  have h2 : (10 : Int) ^ (b - 1) < 10 ^ a := lt_of_le_of_lt hb1 ha2
  have h3 : a - 1 < b := (pow_lt_pow_iff_right₀ (by norm_num : (1 : Int) < 10)).1 h1
  have h4 : b - 1 < a := (pow_lt_pow_iff_right₀ (by norm_num : (1 : Int) < 10)).1 h2
  omega

theorem get_int_len_fuel_pos (fuel : Nat) (i : Int) (hi : 0 < i) (hf : i < (fuel : Int)) :
    ∃ l : Nat, get_int_len_fuel fuel i = some (l : Int) ∧ 1 ≤ l ∧
      (10 : Int) ^ (l - 1) ≤ i ∧ i < 10 ^ l := by
  obtain ⟨k, hk, hlt, hge⟩ := get_int_len_loop_spec fuel i 1 (by omega) hf
  refine ⟨k + 1, ?_, by omega, ?_, hlt⟩
  · unfold get_int_len_fuel
    rw [if_neg (by omega), hk]
    congr 1
    push_cast
    ring
  · rcases hge with hz | hge
    · subst hz
      simp
      omega
    · simpa using hge

/-- C37: `get_int_len` terminates for every `i`: the loop makes fewer iterations than
the bound `i + 1` given to it, and every larger bound gives the same result. For
`i < 0` it returns 0; for `i = 0` it returns 1; for `i > 0` it returns the number of
decimal digits of `i`, the unique `l >= 1` with `10^(l-1) <= i < 10^l`, which is the
length of the decimal expansion of `i`; for every `i` in the range of `int` the result
is at most 10. -/
theorem get_int_len_counts_digits (i : Int) :
    (∃ l : Nat, get_int_len i = some (l : Int) ∧
        ∀ fuel : Nat, i < (fuel : Int) → get_int_len_fuel fuel i = some (l : Int)) ∧
      (i < 0 → get_int_len i = some 0) ∧
      (i = 0 → get_int_len i = some 1) ∧
      (0 < i → ∃ l : Nat, get_int_len i = some (l : Int) ∧ 1 ≤ l ∧
        (10 : Int) ^ (l - 1) ≤ i ∧ i < 10 ^ l ∧
        (∀ m : Nat, 1 ≤ m → (10 : Int) ^ (m - 1) ≤ i → i < 10 ^ m → m = l) ∧
        l = (Nat.digits 10 i.toNat).length ∧
        (i ≤ INT_MAX → l ≤ 10)) := by
  have hneg : i < 0 → ∀ fuel : Nat, get_int_len_fuel fuel i = some 0 := by
    intro h fuel
    simp [get_int_len_fuel, h]
  have hzero : ∀ fuel : Nat, (0 : Int) < (fuel : Int) → get_int_len_fuel fuel 0 = some 1 := by
    intro fuel hf
    obtain ⟨n, rfl⟩ : ∃ n, fuel = n + 1 := ⟨fuel - 1, by omega⟩
    simp [get_int_len_fuel, get_int_len_loop]
  have hself : i < (((i.toNat + 1 : Nat)) : Int) := by omega
  refine ⟨?_, ?_, ?_, ?_⟩
  · rcases lt_trichotomy i 0 with h | h | h
    · exact ⟨0, hneg h _, fun fuel _ => hneg h fuel⟩
    · subst h
      exact ⟨1, hzero _ (by omega), fun fuel hf => hzero fuel hf⟩
    · obtain ⟨l, hl, h1, h2, h3⟩ := get_int_len_fuel_pos (i.toNat + 1) i h hself
      refine ⟨l, hl, ?_⟩
      intro fuel hf
      obtain ⟨m, hm, g1, g2, g3⟩ := get_int_len_fuel_pos fuel i h hf
      rw [hm, pow_window_unique i m l g1 h1 g2 g3 h2 h3]
  · intro h
    exact hneg h _
  · intro h
    subst h
    exact hzero _ (by omega)
  · intro h
    obtain ⟨l, hl, h1, h2, h3⟩ := get_int_len_fuel_pos (i.toNat + 1) i h hself
    refine ⟨l, hl, h1, h2, h3, ?_, ?_, ?_⟩
    · intro m hm g2 g3
      exact pow_window_unique i m l hm h1 g2 g3 h2 h3
    · have hi : i = ((i.toNat : Nat) : Int) := by omega
      have hn2 : (10 : Nat) ^ (l - 1) ≤ i.toNat := by
        have : ((10 ^ (l - 1) : Nat) : Int) ≤ ((i.toNat : Nat) : Int) := by
          push_cast
          rw [← hi]
          exact h2
        exact_mod_cast this
      have hn3 : i.toNat < 10 ^ l := by
        have : ((i.toNat : Nat) : Int) < ((10 ^ l : Nat) : Int) := by
          push_cast
          rw [← hi]
          exact h3
        exact_mod_cast this
      have hne : i.toNat ≠ 0 := by omega
      have hd1 : i.toNat < 10 ^ (Nat.digits 10 i.toNat).length :=
        Nat.lt_base_pow_length_digits (by norm_num)
      have hd2 : 10 ^ (Nat.digits 10 i.toNat).length ≤ 10 * i.toNat :=
        Nat.base_pow_length_digits_le 10 i.toNat (by norm_num) hne
      have hlt : l - 1 < (Nat.digits 10 i.toNat).length :=
        (pow_lt_pow_iff_right₀ (by norm_num : (1 : Nat) < 10)).1 (lt_of_le_of_lt hn2 hd1)
      have hp : (10 : Nat) ^ (l + 1) = 10 * 10 ^ l := by ring
      have hle : (Nat.digits 10 i.toNat).length < l + 1 :=
        (pow_lt_pow_iff_right₀ (by norm_num : (1 : Nat) < 10)).1
          (lt_of_le_of_lt hd2 (by rw [hp]; omega))
      omega
    · intro hmax
      have hlt : (10 : Int) ^ (l - 1) < 10 ^ 10 := by
        refine lt_of_le_of_lt h2 (lt_of_le_of_lt hmax ?_)
        unfold INT_MAX
        norm_num
      have := (pow_lt_pow_iff_right₀ (by norm_num : (1 : Int) < 10)).1 hlt
      omega

/-! ## The theorems at concrete inputs -/

theorem sampling_disabled_env0 : sampling_disabled env0 := by
  unfold sampling_disabled
  decide

theorem dump_succeeds_env0 : dump_succeeds env0 :=
  ⟨rfl, fun _ => rfl, fun _ => rfl, fun _ => rfl⟩

theorem reachable_scenario1 : Reachable scenario1_before_close :=
  Reachable.step env0 (Op.call 5 100 0 (Call.write 100)) _
    (Reachable.step env0 (Op.call 5 0 0 (Call.connect addr_1234_80 16)) _
      (Reachable.step env0 (Op.call 5 0 0 (Call.bind addr_any_8080 16)) _
        (Reachable.step env0 (Op.socket 5 AF_INET SOCK_STREAM 0) _ Reachable.init)))

/-- C3 at a concrete input: `accept(4) -> 7` on the traced fd 4. -/
theorem dup_success_creates_entry_witness :
    (Call.accept none 0).isDup = true ∧ scenario_socket4.entry 4 = some socket4_entry ∧
      (7 : Nat) ≠ 4 ∧ sampling_disabled env0 ∧
      ∃ (n s' : Socket) (e ev : SockEvent),
        (sock_ev env0 4 (7 : Nat) 0 (Call.accept none 0) scenario_socket4).entry 7 = some n ∧
        n.sock_info = socket4_entry.sock_info ∧ n.events = [e] ∧
        e.type = (Call.accept none 0).evType ∧
        e = { ev with payload := ev.payload.set_sock_info socket4_entry.sock_info } ∧
        (sock_ev env0 4 (7 : Nat) 0 (Call.accept none 0) scenario_socket4).entry 4 = some s' ∧
        s'.events = socket4_entry.events ++ [ev] ∧ ev.type = (Call.accept none 0).evType ∧
        ev.return_value = (7 : Nat) ∧ s'.sock_info = socket4_entry.sock_info :=
  ⟨rfl, by decide, by decide, sampling_disabled_env0,
    dup_success_creates_entry env0 4 7 0 (Call.accept none 0) scenario_socket4 socket4_entry rfl
      (by decide) (by decide) sampling_disabled_env0⟩

/-- C4 at a concrete input: a failed `accept(4) -> -1` on the traced fd 4. -/
theorem failed_dup_creates_no_entry_witness :
    scenario_socket4.entry 4 = some socket4_entry ∧
      ((∀ fd', ((sock_ev env0 4 (-1) 11 (Call.accept none 0) scenario_socket4).entry fd').isSome
          = (scenario_socket4.entry fd').isSome) ∧
        (∀ fd', fd' ≠ 4 →
          (sock_ev env0 4 (-1) 11 (Call.accept none 0) scenario_socket4).entry fd'
            = scenario_socket4.entry fd') ∧
        ∃ (ev : SockEvent) (rest : List SockEvent),
          (sock_ev env0 4 (-1) 11 (Call.accept none 0) scenario_socket4).events 4
            = socket4_entry.events ++ ev :: rest ∧
          ev.type = (Call.accept none 0).evType ∧ ev.return_value = -1 ∧
          ev.id = socket4_entry.events_count ∧
          (rest = [] ∨ ∃ t, rest = [t] ∧ t.type = SOCK_EV_TCP_INFO) ∧
          (sampling_disabled env0 → rest = [])) :=
  ⟨by decide,
    failed_dup_creates_no_entry env0 4 (-1) 11 (Call.accept none 0) scenario_socket4
      socket4_entry (by decide) (Or.inl ⟨rfl, rfl⟩)⟩

/-- C5 (amended) at a concrete input: `write(9, ..., 50)` on the untraced fd 9. -/
theorem ghost_then_event_witness :
    World.init.entry 9 = none ∧
      ∃ (s' : Socket) (g x : SockEvent) (rest : List SockEvent),
        (sock_ev env0 9 50 0 (Call.write 50) World.init).entry 9 = some s' ∧
        s'.events = g :: x :: rest ∧
        g.type = SOCK_EV_GHOST_SOCKET ∧ g.id = 0 ∧ x.type = (Call.write 50).evType ∧ x.id = 1 ∧
        g.payload = Payload.SockEvGhostSocket s'.sock_info ∧
        (rest = [] ∨ ∃ t, rest = [t] ∧ t.type = SOCK_EV_TCP_INFO ∧ t.id = 2) ∧
        (sampling_disabled env0 → rest = []) :=
  ⟨by decide,
    ghost_then_event env0 9 50 0 (Call.write 50) World.init (by decide) (by decide)
      (by decide)⟩

/-- C6 at a concrete input: scenario 1 of the specification. -/
theorem close_dumps_one_line_per_call_witness :
    dump_succeeds env0 ∧ sampling_disabled env0 ∧
      ((∃ lines : List (Nat × SockEvent),
        (sock_ev_close env0 5 0 0
            (sock_ev_seq env0 5 scenario1_calls
              (sock_ev_socket env0 5 AF_INET SOCK_STREAM 0 World.init))).dumped
          = (sock_ev_seq env0 5 scenario1_calls
              (sock_ev_socket env0 5 AF_INET SOCK_STREAM 0 World.init)).dumped ++ lines ∧
        lines.map (fun x => x.2.type)
          = SOCK_EV_SOCKET ::
              (scenario1_calls.map (fun x => x.2.2.evType) ++ [SOCK_EV_CLOSE]) ∧
        lines.map (fun x => x.2.id) = List.range (scenario1_calls.length + 2) ∧
        ∀ x ∈ lines, x.1 = World.init.connections_count) ∧
      ((sock_ev_close env0 5 0 0 scenario1_before_close).dumped.map (fun x => x.2.type)
          = [SOCK_EV_SOCKET, SOCK_EV_BIND, SOCK_EV_CONNECT, SOCK_EV_WRITE, SOCK_EV_CLOSE] ∧
        (scenario1_before_close.entry 5).map (fun s => s.bytes_sent) = some 100 ∧
        (scenario1_before_close.entry 5).map (fun s => s.bound) = some true)) :=
  ⟨dump_succeeds_env0, sampling_disabled_env0,
    close_dumps_one_line_per_call env0 5 AF_INET SOCK_STREAM 0 scenario1_calls 0 0 World.init
      dump_succeeds_env0 sampling_disabled_env0 (by decide)⟩

/-- C7 at a concrete input: `socket -> 4` while fd 4 is still traced. -/
theorem socket_replaces_present_entry_witness :
    scenario_socket4.entry 4 = some socket4_entry ∧
      ((∃ k, k ≤ socket4_entry.events.length ∧
        (sock_ev_socket env0 4 AF_INET6 SOCK_STREAM 0 scenario_socket4).dumped
          = scenario_socket4.dumped
              ++ (socket4_entry.events.take k).map (fun e => (socket4_entry.id, e))) ∧
      (dump_succeeds env0 →
        (sock_ev_socket env0 4 AF_INET6 SOCK_STREAM 0 scenario_socket4).dumped
          = scenario_socket4.dumped
              ++ socket4_entry.events.map (fun e => (socket4_entry.id, e))) ∧
      ∃ (n : Socket) (ev : SockEvent),
        (sock_ev_socket env0 4 AF_INET6 SOCK_STREAM 0 scenario_socket4).entry 4 = some n ∧
        n.id = scenario_socket4.connections_count ∧
        (sock_ev_socket env0 4 AF_INET6 SOCK_STREAM 0 scenario_socket4).connections_count
          = scenario_socket4.connections_count + 1 ∧
        n.events = [ev] ∧ ev.type = SOCK_EV_SOCKET ∧ ev.id = 0 ∧ n.events_count = 1 ∧
        n.bytes_sent = 0 ∧ n.bytes_received = 0 ∧ n.bound = false ∧
        n.capture_switch = none ∧
        n.sock_info = fill_sock_info SockInfo.zero AF_INET6 SOCK_STREAM 0) :=
  ⟨by decide,
    socket_replaces_present_entry env0 4 AF_INET6 SOCK_STREAM 0 scenario_socket4 socket4_entry
      (by decide)⟩

/-- C10 (amended) at a concrete input: the entry of fd 5 in scenario 1, bound to
0.0.0.0:8080. -/
theorem bound_addr_is_last_bind_witness :
    scenario1_before_close.entry 5 = some scenario1_entry ∧ scenario1_entry.bound = true ∧
      ∃ a, last_bind scenario1_entry.events = some a ∧
        a.sockaddr_sto.take a.len <+: scenario1_entry.bound_addr ∧
        (2 ≤ a.len → a.len ≤ a.sockaddr_sto.length →
          sa_family scenario1_entry.bound_addr = sa_family a.sockaddr_sto) :=
  ⟨by decide, by decide,
    bound_addr_is_last_bind scenario1_before_close reachable_scenario1 5 scenario1_entry
      (by decide) (by decide)⟩

/-- C12 (amended) at a concrete input: a send of 2 bytes on fd 5 when bytes_sent is
2^64 - 1. -/
theorem counters_add_modulo_witness :
    (after_ghost env0 5 scenario_send_max).entry 5 = some send_max_entry ∧
      Call.send 2 0 ≠ Call.close ∧
      ¬ ((Call.send 2 0).dups ((Call.send 2 0).retval 2) = true ∧ (2 : Int) = ((5 : Nat) : Int)) ∧
      ∃ s' : Socket,
        (sock_ev env0 5 2 0 (Call.send 2 0) scenario_send_max).entry 5 = some s' ∧
        s'.bytes_sent % ULONG_MOD
          = (send_max_entry.bytes_sent + (Call.send 2 0).sent_bytes) % ULONG_MOD ∧
        s'.bytes_received % ULONG_MOD
          = (send_max_entry.bytes_received + (Call.send 2 0).received_bytes) % ULONG_MOD ∧
        (send_max_entry.bytes_sent + (Call.send 2 0).sent_bytes < ULONG_MOD →
          s'.bytes_sent = send_max_entry.bytes_sent + (Call.send 2 0).sent_bytes ∧
            send_max_entry.bytes_sent ≤ s'.bytes_sent) ∧
        (send_max_entry.bytes_received + (Call.send 2 0).received_bytes < ULONG_MOD →
          s'.bytes_received
              = send_max_entry.bytes_received + (Call.send 2 0).received_bytes ∧
            send_max_entry.bytes_received ≤ s'.bytes_received) :=
  ⟨by decide, by decide, by decide,
    counters_add_modulo env0 5 2 0 (Call.send 2 0) scenario_send_max send_max_entry
      (by decide) (by decide) (by decide)⟩

/-- C13 at a concrete input: calls of 100 requested bytes that return -1 on the traced
fd 5. -/
theorem byte_accounting_uses_requested_count_witness :
    (after_ghost env0 5 scenario_socket5).entry 5 = some socket5_entry ∧
      (∀ c, c = Call.send 100 0 ∨ c = Call.sendto 100 0 none 0 ∨ c = Call.write 100 →
        ∃ (s' : Socket) (ev : SockEvent),
          (sock_ev env0 5 (-1) 11 c scenario_socket5).entry 5 = some s' ∧
          s'.bytes_sent = (socket5_entry.bytes_sent + 100) % ULONG_MOD ∧
          (socket5_entry.bytes_sent + 100 < ULONG_MOD →
            s'.bytes_sent = socket5_entry.bytes_sent + 100) ∧
          s'.bytes_received = socket5_entry.bytes_received ∧
          ev ∈ s'.events ∧ ev.type = c.evType ∧ ev.return_value = -1 ∧
          ev.payload.bytes = some 100) ∧
      (∀ c, c = Call.recv 100 0 ∨ c = Call.recvfrom 100 0 none 0 ∨
          c = Call.read 100 ∨ c = Call.sendfile 100 →
        ∃ (s' : Socket) (ev : SockEvent),
          (sock_ev env0 5 (-1) 11 c scenario_socket5).entry 5 = some s' ∧
          s'.bytes_received = (socket5_entry.bytes_received + 100) % ULONG_MOD ∧
          (socket5_entry.bytes_received + 100 < ULONG_MOD →
            s'.bytes_received = socket5_entry.bytes_received + 100) ∧
          s'.bytes_sent = socket5_entry.bytes_sent ∧
          ev ∈ s'.events ∧ ev.type = c.evType ∧ ev.return_value = -1 ∧
          ev.payload.bytes = some 100) :=
  ⟨by decide,
    byte_accounting_uses_requested_count env0 5 (-1) 11 scenario_socket5 socket5_entry 100 0
      none 0 (by decide)⟩

/-- C23 at a concrete input: the two traced sockets on fd 4 and fd 11 with a write on
fd 11, in the environment in which every dump succeeds. -/
theorem dump_all_is_idempotent_witness :
    dump_succeeds env0 ∧
      ((∀ fd, (dump_all_sock_events env0 scenario_two_sockets).entry fd
        = (scenario_two_sockets.entry fd).map (fun s => { s with events := [] })) ∧
      (∀ fd s, (dump_all_sock_events env0 scenario_two_sockets).entry fd = some s →
        s.events = []) ∧
      (dump_all_sock_events env0 scenario_two_sockets).dumped
        = scenario_two_sockets.dumped
          ++ ((List.range (ra_get_size scenario_two_sockets.table)).map
              scenario_two_sockets.dump_lines).flatten ∧
      (dump_all_sock_events env0 (dump_all_sock_events env0 scenario_two_sockets)).dumped
        = (dump_all_sock_events env0 scenario_two_sockets).dumped ∧
      (∀ fd, (dump_all_sock_events env0
          (dump_all_sock_events env0 scenario_two_sockets)).entry fd
        = (dump_all_sock_events env0 scenario_two_sockets).entry fd)) :=
  ⟨⟨rfl, fun _ => rfl, fun _ => rfl, fun _ => rfl⟩,
    dump_all_is_idempotent env0 scenario_two_sockets
      ⟨rfl, fun _ => rfl, fun _ => rfl, fun _ => rfl⟩⟩

/-- C29 at a concrete input: `write(5, ..., 100) -> 100` on the traced fd 5. -/
theorem event_list_is_append_only_witness :
    scenario_socket5.entry 5 = some socket5_entry ∧ Call.write 100 ≠ Call.close ∧
      ¬ ((Call.write 100).dups ((Call.write 100).retval 100) = true ∧
          (100 : Int) = ((5 : Nat) : Int)) ∧
      ((∃ (s' : Socket) (ev : SockEvent) (rest : List SockEvent),
        (sock_ev env0 5 100 0 (Call.write 100) scenario_socket5).entry 5 = some s' ∧
        s'.events = socket5_entry.events ++ ev :: rest ∧
        socket5_entry.events <+: s'.events ∧
        s'.events.take socket5_entry.events.length = socket5_entry.events ∧
        s'.events.get? socket5_entry.events.length = some ev ∧
        ev.type = (Call.write 100).evType ∧ ev.return_value = (Call.write 100).retval 100 ∧
        (rest = [] ∨ ∃ t, rest = [t] ∧ t.type = SOCK_EV_TCP_INFO)) ∧
      (∀ cs : List (Int × Int × Call),
        (∀ x ∈ cs, x.2.2 ≠ Call.close ∧
          ¬ (x.2.2.dups (x.2.2.retval x.1) = true ∧ x.1 = ((5 : Nat) : Int))) →
        ∃ s' : Socket, (sock_ev_seq env0 5 cs scenario_socket5).entry 5 = some s' ∧
          socket5_entry.events <+: s'.events)) :=
  ⟨by decide, by decide, by decide,
    event_list_is_append_only env0 5 100 0 (Call.write 100) scenario_socket5 socket5_entry
      (by decide) (by decide) (by decide)⟩

/-! ## Concrete instances (C32, C36) -/

/-- C32 (amended) at a concrete input: a `writev` and a `readv` of two buffers of 100
and 200 bytes on the traced fd 5. -/
theorem fill_iovec_returns_sum_modulo_witness :
    0 < 2 ∧ 2 ≤ ([100, 200] : List Nat).length ∧
      (after_ghost env0 5 scenario_socket5).entry 5 = some socket5_entry ∧
      ((fill_iovec Iovec.zero [100, 200] ((2 : Nat) : Int)).1.iovec_count = ((2 : Nat) : Int) ∧
        (fill_iovec Iovec.zero [100, 200] ((2 : Nat) : Int)).1.iovec_sizes.length = 2 ∧
        (∀ k, k < 2 →
          (fill_iovec Iovec.zero [100, 200] ((2 : Nat) : Int)).1.iovec_sizes[k]?
            = ([100, 200] : List Nat)[k]?) ∧
        (fill_iovec Iovec.zero [100, 200] ((2 : Nat) : Int)).2
          = (([100, 200] : List Nat).take 2).sum % UINT_MOD ∧
        ((([100, 200] : List Nat).take 2).sum < UINT_MOD →
          (fill_iovec Iovec.zero [100, 200] ((2 : Nat) : Int)).2
            = (([100, 200] : List Nat).take 2).sum) ∧
        (∃ (s' : Socket) (ev : SockEvent),
          (sock_ev_writev env0 5 300 0 [100, 200] ((2 : Nat) : Int) scenario_socket5).entry 5
            = some s' ∧
          s'.bytes_sent
            = (socket5_entry.bytes_sent
                + (fill_iovec Iovec.zero [100, 200] ((2 : Nat) : Int)).2) % ULONG_MOD ∧
          s'.bytes_received = socket5_entry.bytes_received ∧
          ev ∈ s'.events ∧ ev.type = SOCK_EV_WRITEV ∧
          ev.payload = Payload.SockEvWritev ((([100, 200] : List Nat).take 2).sum % UINT_MOD)
            { iovec_count := ((2 : Nat) : Int), iovec_sizes := ([100, 200] : List Nat).take 2 }) ∧
        (∃ (s' : Socket) (ev : SockEvent),
          (sock_ev_readv env0 5 300 0 [100, 200] ((2 : Nat) : Int) scenario_socket5).entry 5
            = some s' ∧
          s'.bytes_received
            = (socket5_entry.bytes_received
                + (fill_iovec Iovec.zero [100, 200] ((2 : Nat) : Int)).2) % ULONG_MOD ∧
          s'.bytes_sent = socket5_entry.bytes_sent ∧
          ev ∈ s'.events ∧ ev.type = SOCK_EV_READV ∧
          ev.payload = Payload.SockEvReadv ((([100, 200] : List Nat).take 2).sum % UINT_MOD)
            { iovec_count := ((2 : Nat) : Int), iovec_sizes := ([100, 200] : List Nat).take 2 }) ∧
        (∀ m : Int, m ≤ 0 →
          fill_iovec Iovec.zero [100, 200] m = ({ Iovec.zero with iovec_count := m }, 0))) :=
  ⟨by decide, by decide, by decide,
    fill_iovec_returns_sum_modulo env0 5 300 0 scenario_socket5 socket5_entry Iovec.zero
      [100, 200] 2 (by decide) (by decide) (by decide)⟩

/-- C36 at a concrete input: with the fds 4 and 11 traced, `dup(4) -> 7`, a `socket` and
a forked-socket recording on fd 4 leave the table's state at fd 11 unchanged. -/
theorem other_descriptors_unchanged_witness :
    (11 : Nat) ≠ 4 ∧
      ¬ (Call.dup.dups (Call.dup.retval 7) = true ∧ (7 : Int) = ((11 : Nat) : Int)) ∧
      (((sock_ev env0 4 7 0 Call.dup scenario_two_sockets).entry 11
            = scenario_two_sockets.entry 11 ∧
          ra_is_present (sock_ev env0 4 7 0 Call.dup scenario_two_sockets).table 11
            = ra_is_present scenario_two_sockets.table 11) ∧
        ((sock_ev_socket env0 4 AF_INET SOCK_STREAM 0 scenario_two_sockets).entry 11
            = scenario_two_sockets.entry 11 ∧
          ra_is_present (sock_ev_socket env0 4 AF_INET SOCK_STREAM 0 scenario_two_sockets).table 11
            = ra_is_present scenario_two_sockets.table 11) ∧
        ((sock_ev_forked_socket env0 4 SockInfo.zero scenario_two_sockets).entry 11
            = scenario_two_sockets.entry 11 ∧
          ra_is_present (sock_ev_forked_socket env0 4 SockInfo.zero scenario_two_sockets).table 11
            = ra_is_present scenario_two_sockets.table 11)) :=
  ⟨by decide, by decide,
    other_descriptors_unchanged env0 4 7 0 Call.dup scenario_two_sockets 11 AF_INET SOCK_STREAM 0
      SockInfo.zero (by decide) (by decide)⟩

/-- C14 (amended) at a concrete input: the entry of fd 5 after a send of 100 bytes, with
B = 10 and the watermark at 0: the values are in range, the difference 100 exceeds B
and the decision is true. -/
theorem should_dump_tcp_info_iff_witness :
    (get_time_micros env_sampling scenario_send100).1 < 2 ^ 63 ∧
      send100_entry.bytes_sent + send100_entry.bytes_received < 2 ^ 63 ∧
      -(2 ^ 63) ≤ ((get_time_micros env_sampling scenario_send100).1 : Int)
          - send100_entry.last_info_dump_micros ∧
      ((get_time_micros env_sampling scenario_send100).1 : Int)
          - send100_entry.last_info_dump_micros < 2 ^ 63 ∧
      -(2 ^ 63) ≤ (send100_entry.bytes_sent : Int) + (send100_entry.bytes_received : Int)
          - send100_entry.last_info_dump_bytes ∧
      (send100_entry.bytes_sent : Int) + (send100_entry.bytes_received : Int)
          - send100_entry.last_info_dump_bytes < 2 ^ 63 ∧
      ((should_dump_tcp_info env_sampling scenario_send100 send100_entry).1 = true ↔
        is_tcp_socket env_sampling send100_entry.fd = true ∧
          ((0 < env_sampling.conf_opt_u ∧
              ((get_time_micros env_sampling scenario_send100).1 : Int)
                  - send100_entry.last_info_dump_micros
                > env_sampling.conf_opt_u) ∨
            (0 < env_sampling.conf_opt_b ∧
              (send100_entry.bytes_sent : Int) + (send100_entry.bytes_received : Int)
                  - send100_entry.last_info_dump_bytes
                > env_sampling.conf_opt_b))) ∧
      (should_dump_tcp_info env_sampling scenario_send100 send100_entry).1 = true ∧
      (send100_entry.bytes_sent : Int) + (send100_entry.bytes_received : Int)
          - send100_entry.last_info_dump_bytes = 100 :=
  ⟨by decide, by decide, by decide, by decide, by decide, by decide,
    (should_dump_tcp_info_iff env_sampling scenario_send100 send100_entry).2.1
      (by decide) (by decide) (by decide) (by decide) (by decide) (by decide),
    by decide, by decide⟩

end Tcpsnitch
